import Mathlib

/-!
Entity registry, free list and spatial index of OpenRCT2.

A shallow embedding of `src/openrct2/world/Sprite.cpp` and
`src/openrct2/world/EntityTweener.cpp`.  The process-wide globals of the C++
code (`_spriteList`, `gEntityLists`, `_freeIdList`, `_spriteFlashingList`,
`gSpriteSpatialIndex`, the static `tweener`) are the fields of one `World`
record that every operation takes and returns.  A `SpriteBase*` is the index
of the slot it points to; `nullptr` is `none`.
-/

namespace OpenRCT2

/-! ## Constants and machine integers -/

/-- The type tag of an entity.  `Count` of the C++ enumeration is the number of
real tags (13) and is not a tag itself; `Null` has the value 255. -/
inductive EntityType
  | Vehicle
  | Guest
  | Staff
  | Litter
  | SteamParticle
  | MoneyEffect
  | CrashedVehicleParticle
  | ExplosionCloud
  | CrashSplash
  | ExplosionFlare
  | JumpingFountain
  | Balloon
  | Duck
  | Null
  deriving DecidableEq, Repr

/-- Modelled from the spec: the sentinel "not placed on the map" held by `x`
and `sprite_left`; its declaration is not among the sources.  It is the 16-bit
value 0x8000 read as a signed number. -/
def LOCATION_NULL : Int := -32768

/-- Modelled from the spec: the number of tiles along one side of the largest
map (256); its declaration is not among the sources. -/
def MAXIMUM_MAP_SIZE_TECHNICAL : Nat := 256

/-- Sprite.cpp line 41. -/
def SPATIAL_INDEX_SIZE : Nat := MAXIMUM_MAP_SIZE_TECHNICAL * MAXIMUM_MAP_SIZE_TECHNICAL + 1

/-- Sprite.cpp line 42. -/
def SPATIAL_INDEX_LOCATION_NULL : Nat := SPATIAL_INDEX_SIZE - 1

/-- Modelled from the spec: the identifier that stands for "no entity", tested by
`get_sprite`; its declaration is not among the sources.  It is the largest
16-bit value, 0xFFFF. -/
def SPRITE_INDEX_NULL : Nat := 65535

/-- Sprite.cpp line 317. -/
def MAX_MISC_SPRITES : Nat := 300

/-- Conversion of an integer to `int16_t` (two's complement wrap-around). -/
def toInt16 (v : Int) : Int := (v + 32768) % 65536 - 32768

/-- Conversion of an integer to `uint16_t`. -/
def toUInt16 (v : Int) : Nat := (v % 65536).toNat

/-- Conversion of an integer to `size_t` (64 bits). -/
def toSizeT (v : Int) : Nat := (v % 18446744073709551616).toNat

/-- The byte size `sizeof(gSpriteSpatialIndex)` that line 59 compares the index
with: `SPATIAL_INDEX_SIZE` vectors of 24 bytes each (three pointers, LP64). -/
def sizeofSpriteSpatialIndex : Nat := SPATIAL_INDEX_SIZE * 24

/-- The call `std::clamp(v, lo, hi)`. -/
def clamp (v lo hi : Int) : Int := if v < lo then lo else if hi < v then hi else v

/-- Modelled from the spec: the helper `floor2(x, y)`, declared outside the
sources: `x` rounded down to a multiple of the power of two `y` (the grid
stride), that is `x & ~(y - 1)`. -/
def floor2 (x y : Int) : Int := x - x % y

/-- Conversion of an integer to `uint8_t`. -/
def toUInt8 (v : Int) : Int := v % 256

/-- Sprite.cpp lines 46-64.  On the clamped, non-negative `y` the shift `y >> 5`
is the division by 32; `flooredX << 3` is `flooredX * 8`; the `int` result of
the bitwise or is converted to `size_t`. -/
def GetSpatialIndexOffset (x y : Int) : Nat :=
  let index : Nat :=
    if x ≠ LOCATION_NULL then
      let cx := clamp x 0 65535
      let cy := clamp y 0 65535
      let flooredX : Int := toInt16 (floor2 cx 32)
      let tileY : Int := toUInt8 (cy / 32)
      toSizeT (Int.lor (flooredX * 8) tileY)
    else SPATIAL_INDEX_LOCATION_NULL
  if index ≥ sizeofSpriteSpatialIndex then SPATIAL_INDEX_LOCATION_NULL else index

/-- Sprite.cpp lines 77-94. -/
def EntityTypeIsMiscEntity (type : EntityType) : Bool :=
  match type with
  | .SteamParticle => true
  | .MoneyEffect => true
  | .CrashedVehicleParticle => true
  | .ExplosionCloud => true
  | .CrashSplash => true
  | .ExplosionFlare => true
  | .JumpingFountain => true
  | .Balloon => true
  | .Duck => true
  | _ => false

/-! ## The data model -/

/-- A world position `CoordsXYZ` (three `int32_t`). -/
structure CoordsXYZ where
  x : Int
  y : Int
  z : Int
  deriving DecidableEq, Repr

/-- Modelled from the spec: one slot of `_spriteList`.  The declaration of
`SpriteBase` is not among the sources; the fields are the ones Sprite.cpp
reads and writes.  `x`, `y`, `z` and the four screen-box fields are 16-bit
signed (`SetLocation` narrows with `static_cast<int16_t>`), `sprite_index` is
a `uint16_t`, the three size fields are bytes.  `rest` stands for all remaining
bytes of the slot (flags, direction, the per-type data of the union), read as
one number, so that `memset` to zero makes it 0. -/
structure SpriteBase where
  type : EntityType
  sprite_height_negative : Nat
  sprite_index : Nat
  x : Int
  y : Int
  z : Int
  sprite_width : Nat
  sprite_height_positive : Nat
  sprite_left : Int
  sprite_top : Int
  sprite_right : Int
  sprite_bottom : Int
  rest : Nat
  deriving DecidableEq, Repr

/-- A slot after `memset(sprite, 0, sizeof(rct_sprite))`: every byte is zero,
which reads as the tag `Vehicle` (value 0). -/
def zeroSprite : SpriteBase :=
  { type := .Vehicle, sprite_height_negative := 0, sprite_index := 0, x := 0, y := 0, z := 0,
    sprite_width := 0, sprite_height_positive := 0, sprite_left := 0, sprite_top := 0,
    sprite_right := 0, sprite_bottom := 0, rest := 0 }

/-- The tweener: the tracked entities (`none` is a hole left by a removed
entity) and the two position snapshots. -/
structure EntityTweener where
  Entities : List (Option Nat)
  PrePos : List CoordsXYZ
  PostPos : List CoordsXYZ
  deriving DecidableEq, Repr

/-- One call of the external `viewports_invalidate(left, top, right, bottom, maxZoom)`. -/
structure InvalidateCall where
  left : Int
  top : Int
  right : Int
  bottom : Int
  maxZoom : Int
  deriving DecidableEq, Repr

/-- All global state of the two translation units.  `invalidated` logs the calls
made to `viewports_invalidate`, oldest first.  Of `gSpriteSpatialIndex` the
indices below `SPATIAL_INDEX_SIZE` are the buckets of the `std::array`; the
array has no bucket beyond, and a read there has no result (see
`GetEntityTileList`). -/
structure World where
  _spriteList : Nat → SpriteBase
  gEntityLists : EntityType → List Nat
  _freeIdList : List Nat
  _spriteFlashingList : Nat → Bool
  gSpriteSpatialIndex : Nat → List Nat
  tweener : EntityTweener
  invalidated : List InvalidateCall
  gSavedAge : Nat

/-- What the sources leave open.  `MAX_ENTITIES` is the capacity of `_spriteList`;
identifiers are `uint16_t` and 0xFFFF is `SPRITE_INDEX_NULL`, so it is at most
65535.  `map_is_location_valid` and `translate_3d_to_2d_with_z` (at the current
rotation) are functions of other translation units; of the first the spec says
that it is the range validation of a position, so a valid position has both
coordinates in `[0, 32 * MAXIMUM_MAP_SIZE_TECHNICAL)`.  `fl` is the rounding of
the `float` arithmetic of `EntityTweener::Tween`: a conversion or operation
returns its exact result rounded by `fl` to a `float`, and `fl` keeps every
integer of magnitude up to `2 ^ 24`, all of which are `float` values. -/
structure Env where
  MAX_ENTITIES : Nat
  max_entities_le : MAX_ENTITIES ≤ 65535
  map_is_location_valid : Int → Int → Bool
  valid_in_range : ∀ x y : Int, map_is_location_valid x y = true →
    0 ≤ x ∧ x < 32 * (MAXIMUM_MAP_SIZE_TECHNICAL : Int) ∧
      0 ≤ y ∧ y < 32 * (MAXIMUM_MAP_SIZE_TECHNICAL : Int)
  translate_3d_to_2d_with_z : CoordsXYZ → Int × Int
  fl : ℚ → ℚ
  fl_exact : ∀ v : Int, -16777216 ≤ v → v ≤ 16777216 → fl (v : ℚ) = (v : ℚ)

/-- Modelled from the spec: `map_is_location_valid`, the range validation of a
position; both coordinates lie in `[0, 32 * MAXIMUM_MAP_SIZE_TECHNICAL)`. -/
def map_is_location_valid (x y : Int) : Bool :=
  decide (0 ≤ x ∧ x < 32 * (MAXIMUM_MAP_SIZE_TECHNICAL : Int) ∧
    0 ≤ y ∧ y < 32 * (MAXIMUM_MAP_SIZE_TECHNICAL : Int))

/-! ## Searching and splicing sorted sequences -/

/-- The loop of `std::lower_bound` and `std::upper_bound`: binary search for
the first position of the window `[first, first + len)` whose element fails `p`.
The window halves at every step, so `fuel = len` steps are enough. -/
def partitionPointAux (p : Nat → Bool) (l : List Nat) : Nat → Nat → Nat → Nat
  | 0, first, _ => first
  | fuel + 1, first, len =>
    if len = 0 then first
    else if p (l.getD (first + len / 2) 0) then
      partitionPointAux p l fuel (first + len / 2 + 1) (len - len / 2 - 1)
    else partitionPointAux p l fuel first (len / 2)

/-- The call `std::lower_bound(begin, end, v)`, as a position. -/
def lower_bound (l : List Nat) (v : Nat) : Nat :=
  partitionPointAux (fun a => decide (a < v)) l l.length 0 l.length

/-- The call `std::upper_bound(begin, end, v)`, as a position. -/
def upper_bound (l : List Nat) (v : Nat) : Nat :=
  partitionPointAux (fun a => !decide (v < a)) l l.length 0 l.length

/-- The call `container.insert(position, v)`. -/
def insertAt (l : List Nat) (k : Nat) (v : Nat) : List Nat := l.take k ++ v :: l.drop k

/-! ## Sprite.cpp -/

/-- Sprite.cpp lines 116-119. -/
def GetEntityListCount (w : World) (type : EntityType) : Nat :=
  (w.gEntityLists type).length % 65536

/-- Sprite.cpp lines 121-124. -/
def GetNumFreeEntities (w : World) : Nat := w._freeIdList.length % 65536

/-- Sprite.cpp lines 141-144. -/
def try_get_sprite (env : Env) (spriteIndex : Nat) : Option Nat :=
  if spriteIndex ≥ env.MAX_ENTITIES then none else some spriteIndex

/-- Sprite.cpp lines 146-154. -/
def get_sprite (env : Env) (spriteIndex : Nat) : Option Nat :=
  if spriteIndex = SPRITE_INDEX_NULL then none else try_get_sprite env spriteIndex

/-- The call `GetEntity(i)` at its default type `SpriteBase`: `get_sprite`
followed by `As<SpriteBase>`, which always succeeds (lines 67-70). -/
def GetEntity (env : Env) (spriteIndex : Nat) : Option Nat := get_sprite env spriteIndex

/-- Sprite.cpp lines 156-159: `gSpriteSpatialIndex[GetSpatialIndexOffset(x, y)]`.
The table is a `std::array` of `SPATIAL_INDEX_SIZE` vectors (line 48); at an
offset beyond it the read has no defined result, `none` here. -/
def GetEntityTileList (w : World) (x y : Int) : Option (List Nat) :=
  if GetSpatialIndexOffset x y < SPATIAL_INDEX_SIZE then
    some (w.gSpriteSpatialIndex (GetSpatialIndexOffset x y))
  else none

/-- The zoom level chosen by the switch of `SpriteBase::Invalidate` (lines 166-194). -/
def invalidateMaxZoom (type : EntityType) : Int :=
  match type with
  | .Vehicle => 2
  | .Guest => 2
  | .Staff => 2
  | .CrashedVehicleParticle => 0
  | .JumpingFountain => 0
  | .Duck => 1
  | .SteamParticle => 2
  | .MoneyEffect => 2
  | .ExplosionCloud => 2
  | .CrashSplash => 2
  | .ExplosionFlare => 2
  | .Balloon => 2
  | .Litter => 0
  | .Null => 0

/-- Sprite.cpp lines 161-197. -/
def Invalidate (w : World) (e : Nat) : World :=
  let s := w._spriteList e
  if s.sprite_left = LOCATION_NULL then w
  else
    { w with invalidated := w.invalidated ++
        [{ left := s.sprite_left, top := s.sprite_top, right := s.sprite_right,
           bottom := s.sprite_bottom, maxZoom := invalidateMaxZoom s.type }] }

/-- Sprite.cpp lines 199-205. -/
def ResetEntityLists (w : World) : World := { w with gEntityLists := fun _ => [] }

/-- Sprite.cpp lines 207-214: the identifiers `MAX_ENTITIES - 1, ..., 1, 0`. -/
def ResetFreeIds (env : Env) (w : World) : World :=
  { w with _freeIdList := (List.range env.MAX_ENTITIES).reverse }

/-- Sprite.cpp lines 450-456. -/
def SpriteSpatialInsert (w : World) (e : Nat) (x y : Int) : World :=
  let newIndex := GetSpatialIndexOffset x y
  let spatialVector := w.gSpriteSpatialIndex newIndex
  let sprite_index := (w._spriteList e).sprite_index
  { w with
    gSpriteSpatialIndex :=
      Function.update w.gSpriteSpatialIndex newIndex
        (insertAt spatialVector (lower_bound spatialVector sprite_index) sprite_index) }

/-- Sprite.cpp lines 255-269. -/
def reset_sprite_spatial_index (env : Env) (w : World) : World :=
  (List.range env.MAX_ENTITIES).foldl
    (fun acc i =>
      match GetEntity env i with
      | some e =>
        if (acc._spriteList e).type ≠ EntityType.Null then
          SpriteSpatialInsert acc e (acc._spriteList e).x (acc._spriteList e).y
        else acc
      | none => acc)
    { w with gSpriteSpatialIndex := fun _ => [] }

/-- Sprite.cpp lines 225-245.  The array has `MAX_ENTITIES` slots, all zeroed by
`memset`; the loop gives every slot `i` that `GetEntity(i)` finds the tag `Null`
and the identifier `i`, and clears its flashing flag. -/
def reset_sprite_list (env : Env) (w : World) : World :=
  let w1 : World :=
    { w with
      gSavedAge := 0
      _spriteList := fun i =>
        if i < env.MAX_ENTITIES then
          match GetEntity env i with
          | some _ => { zeroSprite with type := .Null, sprite_index := toUInt16 i }
          | none => zeroSprite
        else w._spriteList i
      _spriteFlashingList := fun i =>
        if i < env.MAX_ENTITIES then
          match GetEntity env i with
          | some _ => false
          | none => w._spriteFlashingList i
        else w._spriteFlashingList i }
  reset_sprite_spatial_index env (ResetFreeIds env (ResetEntityLists w1))

/-- Sprite.cpp lines 305-315. -/
def sprite_reset (w : World) (e : Nat) : World :=
  let sprite_index := (w._spriteList e).sprite_index
  { w with
    _spriteFlashingList := Function.update w._spriteFlashingList sprite_index false
    _spriteList :=
      Function.update w._spriteList e
        { zeroSprite with sprite_index := sprite_index, type := .Null } }

/-- Sprite.cpp lines 318-323.  `gEntityLists` has one list per real tag; the
tag `Null` (255) is outside the array and no caller passes it. -/
def AddToEntityList (w : World) (e : Nat) : World :=
  let ent := w._spriteList e
  let list := w.gEntityLists ent.type
  { w with
    gEntityLists :=
      Function.update w.gEntityLists ent.type
        (insertAt list (lower_bound list ent.sprite_index) ent.sprite_index) }

/-- Sprite.cpp lines 325-329.  The search runs over the reverse iterators, that
is over the reversed vector; `base()` of the position found is the matching
place of the vector itself. -/
def AddToFreeList (w : World) (index : Nat) : World :=
  let r := w._freeIdList.reverse
  { w with _freeIdList := (insertAt r (upper_bound r index) index).reverse }

/-- Sprite.cpp lines 331-339. -/
def RemoveFromEntityList (w : World) (e : Nat) : World :=
  let ent := w._spriteList e
  let list := w.gEntityLists ent.type
  let ptr := lower_bound list ent.sprite_index
  if list.get? ptr = some ent.sprite_index then
    { w with gEntityLists := Function.update w.gEntityLists ent.type (list.eraseIdx ptr) }
  else w

/-- Sprite.cpp lines 341-351; the counter is a `uint16_t`. -/
def GetMiscEntityCount (w : World) : Nat :=
  [EntityType.SteamParticle, EntityType.MoneyEffect, EntityType.CrashedVehicleParticle,
    EntityType.ExplosionCloud, EntityType.CrashSplash, EntityType.ExplosionFlare,
    EntityType.JumpingFountain, EntityType.Balloon, EntityType.Duck].foldl
    (fun count id => (count + GetEntityListCount w id) % 65536) 0

/-- Sprite.cpp lines 353-371. -/
def PrepareNewEntity (w : World) (e : Nat) (type : EntityType) : World :=
  let w1 := sprite_reset w e
  let w2 : World :=
    { w1 with
      _spriteList := Function.update w1._spriteList e { w1._spriteList e with type := type } }
  let w3 := AddToEntityList w2 e
  let w4 : World :=
    { w3 with
      _spriteList :=
        Function.update w3._spriteList e
          { w3._spriteList e with
            x := LOCATION_NULL, y := LOCATION_NULL, z := 0, sprite_width := 16,
            sprite_height_negative := 20, sprite_height_positive := 8,
            sprite_left := LOCATION_NULL } }
  SpriteSpatialInsert w4 e LOCATION_NULL 0

/-- Sprite.cpp lines 373-403.  `miscSlotsRemaining` is a `uint16_t`. -/
def CreateEntity (env : Env) (w : World) (type : EntityType) : World × Option Nat :=
  if w._freeIdList.length = 0 then (w, none)
  else if EntityTypeIsMiscEntity type ∧
      toUInt16 ((MAX_MISC_SPRITES : Int) - (GetMiscEntityCount w : Int)) ≥
        w._freeIdList.length then
    (w, none)
  else
    match GetEntity env (w._freeIdList.getLastD 0) with
    | none => (w, none)
    | some entity =>
      (PrepareNewEntity { w with _freeIdList := w._freeIdList.dropLast } entity type,
        some entity)

/-- Sprite.cpp lines 405-423; `index` is a `uint16_t`.  `std::next(id).base()` is
the place in the vector of the element the reverse iterator `id` points to. -/
def CreateEntityAt (env : Env) (w : World) (index : Nat) (type : EntityType) :
    World × Option Nat :=
  let r := w._freeIdList.reverse
  let id := lower_bound r index
  if r.get? id ≠ some index then (w, none)
  else
    match GetEntity env index with
    | none => (w, none)
    | some entity =>
      (PrepareNewEntity { w with _freeIdList := (r.eraseIdx id).reverse } entity type,
        some entity)

/-- Sprite.cpp lines 458-472. -/
def SpriteSpatialRemove (env : Env) (w : World) (e : Nat) : World :=
  let s := w._spriteList e
  let currentIndex := GetSpatialIndexOffset s.x s.y
  let spatialVector := w.gSpriteSpatialIndex currentIndex
  let index := lower_bound spatialVector s.sprite_index
  if spatialVector.get? index = some s.sprite_index then
    { w with
      gSpriteSpatialIndex :=
        Function.update w.gSpriteSpatialIndex currentIndex (spatialVector.eraseIdx index) }
  else reset_sprite_spatial_index env w

/-- Sprite.cpp lines 474-483. -/
def SpriteSpatialMove (env : Env) (w : World) (e : Nat) (x y : Int) : World :=
  let newIndex := GetSpatialIndexOffset x y
  let currentIndex := GetSpatialIndexOffset (w._spriteList e).x (w._spriteList e).y
  if newIndex = currentIndex then w
  else SpriteSpatialInsert (SpriteSpatialRemove env w e) e x y

/-- Sprite.cpp lines 527-538; the seven fields written are 16 bits wide. -/
def sprite_set_coordinates (env : Env) (w : World) (spritePos : CoordsXYZ) (e : Nat) : World :=
  let screenCoords := env.translate_3d_to_2d_with_z spritePos
  let s := w._spriteList e
  { w with
    _spriteList :=
      Function.update w._spriteList e
        { s with
          sprite_left := toInt16 (screenCoords.1 - s.sprite_width)
          sprite_right := toInt16 (screenCoords.1 + s.sprite_width)
          sprite_top := toInt16 (screenCoords.2 - s.sprite_height_negative)
          sprite_bottom := toInt16 (screenCoords.2 + s.sprite_height_positive)
          x := toInt16 spritePos.x
          y := toInt16 spritePos.y
          z := toInt16 spritePos.z } }

/-- Sprite.cpp lines 493-497: the location that `MoveTo` works with, the new
location with its `x` replaced by the sentinel when it is not valid. -/
def moveLoc (env : Env) (newLocation : CoordsXYZ) : CoordsXYZ :=
  if env.map_is_location_valid newLocation.x newLocation.y = false then
    { newLocation with x := LOCATION_NULL }
  else newLocation

/-- Sprite.cpp lines 485-513. -/
def MoveTo (env : Env) (w : World) (e : Nat) (newLocation : CoordsXYZ) : World :=
  let w1 := if (w._spriteList e).x ≠ LOCATION_NULL then Invalidate w e else w
  let loc : CoordsXYZ := moveLoc env newLocation
  let w2 := SpriteSpatialMove env w1 e loc.x loc.y
  if loc.x = LOCATION_NULL then
    { w2 with
      _spriteList :=
        Function.update w2._spriteList e
          { w2._spriteList e with
            sprite_left := LOCATION_NULL, x := toInt16 loc.x, y := toInt16 loc.y,
            z := toInt16 loc.z } }
  else Invalidate (sprite_set_coordinates env w2 loc e) e

/-- Sprite.cpp lines 515-518. -/
def GetLocation (s : SpriteBase) : CoordsXYZ := { x := s.x, y := s.y, z := s.z }

/-- Sprite.cpp lines 588-592.  The assertion `sprite_index < MAX_ENTITIES` is
left to the caller. -/
def sprite_set_flashing (w : World) (e : Nat) (flashing : Bool) : World :=
  { w with
    _spriteFlashingList :=
      Function.update w._spriteFlashingList (w._spriteList e).sprite_index flashing }

/-- Sprite.cpp lines 594-598. -/
def sprite_get_flashing (w : World) (e : Nat) : Bool :=
  w._spriteFlashingList (w._spriteList e).sprite_index

/-! ## EntityTweener.cpp -/

/-- Modelled from the spec: `Is<Peep>() || Is<Vehicle>()`, the tracked
categories (guests, staff, vehicles); `Is<Peep>` and `Is<Vehicle>` are defined
outside the sources. -/
def isPeepOrVehicle (type : EntityType) : Bool :=
  match type with
  | .Guest => true
  | .Staff => true
  | .Vehicle => true
  | _ => false

/-- The statements `it = std::find(...); if (it != end) *it = nullptr;` of
lines 68-70: the first entry pointing to `e` becomes a hole. -/
def clearFirst (l : List (Option Nat)) (e : Nat) : List (Option Nat) :=
  match l with
  | [] => []
  | a :: t => if a = some e then none :: t else a :: clearFirst t e

/-- EntityTweener.cpp lines 60-71. -/
def RemoveEntity (w : World) (e : Nat) : World :=
  if isPeepOrVehicle (w._spriteList e).type = false then w
  else { w with tweener := { w.tweener with Entities := clearFirst w.tweener.Entities e } }

/-- Sprite.cpp lines 544-558.  `peep->SetName({})` releases the name string of a
peep, a field inside `rest` that line 557 zeroes anyway. -/
def sprite_remove (env : Env) (w : World) (e : Nat) : World :=
  let w1 := RemoveEntity w e
  let w2 := RemoveFromEntityList w1 e
  let w3 := AddToFreeList w2 (w2._spriteList e).sprite_index
  let w4 := SpriteSpatialRemove env w3 e
  sprite_reset w4 e

/-- Modelled from the spec: the iteration `EntityList<T>()`, whose class is
defined outside the sources: it walks `gEntityLists[T]` in list order and
yields the entities that `GetEntity<T>` finds, skipping every identifier whose
slot does not hold the tag `T`. -/
def EntityList (env : Env) (w : World) (type : EntityType) : List Nat :=
  (w.gEntityLists type).filter
    (fun id =>
      match GetEntity env id with
      | some e => decide ((w._spriteList e).type = type)
      | none => false)

/-- Sprite.cpp lines 273-279, `NetworkSerialseEntityType<T>`: the entities that
are handed to `Serialise`, in the order of the iteration `EntityList<T>()`. -/
def NetworkSerialseEntityType (env : Env) (w : World) (type : EntityType) : List Nat :=
  EntityList env w type

/-- Sprite.cpp lines 281-284 with the instantiation of line 292: the fold over
`Guest, Staff, Vehicle, Litter`, from left to right. -/
def NetworkSerialiseEntityTypes (env : Env) (w : World) : List Nat :=
  NetworkSerialseEntityType env w .Guest ++
    (NetworkSerialseEntityType env w .Staff ++
      (NetworkSerialseEntityType env w .Vehicle ++ NetworkSerialseEntityType env w .Litter))

/-- Sprite.cpp lines 286-295, the build with the network.  `Serialise` and the
`ChecksumStream` are defined outside the sources; `digest` stands for both, a
function of the sequence of slots serialised. -/
def sprite_checksum {α : Type} (digest : List SpriteBase → α) (env : Env) (w : World) : α :=
  digest ((NetworkSerialiseEntityTypes env w).map w._spriteList)

/-- EntityTweener.cpp lines 18-35. -/
def PopulateEntities (env : Env) (w : World) : World :=
  let ents := EntityList env w .Guest ++ (EntityList env w .Staff ++ EntityList env w .Vehicle)
  { w with
    tweener :=
      { w.tweener with
        Entities := w.tweener.Entities ++ ents.map some
        PrePos := w.tweener.PrePos ++ ents.map (fun e => GetLocation (w._spriteList e)) } }

/-- EntityTweener.cpp lines 110-115. -/
def Reset (w : World) : World :=
  { w with tweener := { Entities := [], PrePos := [], PostPos := [] } }

/-- The loop of `EntityTweener::Restore` (lines 99-107) from some index on: the
entries of `Entities` and of `PostPos` still to visit.  A hole skips its
snapshot; reading `PostPos[i]` beyond the end of the vector has no defined
result (`none`). -/
def restoreLoop (env : Env) : List (Option Nat) → List CoordsXYZ → World → Option World
  | [], _, w => some w
  | none :: es, ps, w => restoreLoop env es ps.tail w
  | some _ :: _, [], _ => none
  | some e :: es, p :: ps, w =>
    restoreLoop env es ps (Invalidate (sprite_set_coordinates env w p e) e)

/-- EntityTweener.cpp lines 97-108. -/
def Restore (env : Env) (w : World) : Option World :=
  restoreLoop env w.tweener.Entities w.tweener.PostPos w

/-- EntityTweener.cpp lines 37-42. -/
def PreTick (env : Env) (w : World) : Option World :=
  match Restore env w with
  | none => none
  | some w1 => some (PopulateEntities env (Reset w1))

/-- EntityTweener.cpp lines 44-58. -/
def PostTick (w : World) : World :=
  { w with
    tweener :=
      { w.tweener with
        PostPos := w.tweener.PostPos ++
          w.tweener.Entities.map
            (fun ent =>
              match ent with
              | none => { x := 0, y := 0, z := 0 }
              | some e => GetLocation (w._spriteList e)) } }

/-- The function `std::round` followed by `static_cast<int32_t>`: the nearest
integer, a half rounded away from zero. -/
def stdRound (q : ℚ) : Int := if 0 ≤ q then ⌊q + 1 / 2⌋ else -⌊-q + 1 / 2⌋

/-- EntityTweener.cpp lines 75 and 89-91: one coordinate of the interpolated
position, `static_cast<int32_t>(std::round(posB * alpha + posA * inv))` with
`inv = 1.0f - alpha`, for a finite `alpha`.  The two integers are converted to
`float`; the subtraction, the two products and the sum are `float` operations. -/
def tweenCoord (env : Env) (alpha : ℚ) (posA posB : Int) : Int :=
  let inv := env.fl (1 - alpha)
  stdRound (env.fl (env.fl (env.fl (posB : ℚ) * alpha) + env.fl (env.fl (posA : ℚ) * inv)))

/-- EntityTweener.cpp lines 89-91: the interpolated position. -/
def tweenPos (env : Env) (alpha : ℚ) (posA posB : CoordsXYZ) : CoordsXYZ :=
  { x := tweenCoord env alpha posA.x posB.x
    y := tweenCoord env alpha posA.y posB.y
    z := tweenCoord env alpha posA.z posB.z }

/-- The loop of `EntityTweener::Tween` (lines 76-94) from some index on: the
entries of `Entities`, `PrePos` and `PostPos` still to visit.  A hole skips its
two snapshots; reading `PrePos[i]` or `PostPos[i]` beyond the end of the vector
has no defined result (`none`). -/
def tweenLoop (env : Env) (alpha : ℚ) :
    List (Option Nat) → List CoordsXYZ → List CoordsXYZ → World → Option World
  | [], _, _, w => some w
  | none :: es, as, bs, w => tweenLoop env alpha es as.tail bs.tail w
  | some e :: es, posA :: as, posB :: bs, w =>
    if posA = posB then tweenLoop env alpha es as bs w
    else
      tweenLoop env alpha es as bs
        (Invalidate (sprite_set_coordinates env w (tweenPos env alpha posA posB) e) e)
  | some _ :: _, _, _, _ => none

/-- EntityTweener.cpp lines 73-95. -/
def Tween (env : Env) (alpha : ℚ) (w : World) : Option World :=
  tweenLoop env alpha w.tweener.Entities w.tweener.PrePos w.tweener.PostPos w

/-- Consecutive calls of `Tween`, one for each `alpha` of the list in turn. -/
def tweenAll (env : Env) : List ℚ → World → Option World
  | [], w => some w
  | alpha :: rest, w =>
    match Tween env alpha w with
    | none => none
    | some w1 => tweenAll env rest w1

/-! ## Reachable states -/

/-- Every tracked entity stands at its post-tick snapshot: the situation in
which the simulation calls `PreTick`, where `Restore` writes back the positions
the entities already have. -/
def AtPostPos (w : World) : Prop :=
  ∀ k e, w.tweener.Entities.get? k = some (some e) →
    w.tweener.PostPos.get? k = some (GetLocation (w._spriteList e))

/-- The states of the registry: every state that `reset_sprite_list` leaves, from
any world whatever (any slots, any flashing flags, any content of the tweener,
which `reset_sprite_list` does not touch), and every state reached from there by
`CreateEntity` and `CreateEntityAt` with a real tag, by `sprite_remove` and
`MoveTo` on live entities and by `sprite_set_flashing` on live entities. -/
inductive RegReachable (env : Env) : World → Prop
  | reset (w : World) : RegReachable env (reset_sprite_list env w)
  | create (w : World) (type : EntityType) (h : RegReachable env w)
      (ht : type ≠ EntityType.Null) : RegReachable env (CreateEntity env w type).1
  | createAt (w : World) (index : Nat) (type : EntityType) (h : RegReachable env w)
      (ht : type ≠ EntityType.Null) : RegReachable env (CreateEntityAt env w index type).1
  | remove (w : World) (e : Nat) (h : RegReachable env w) (he : e < env.MAX_ENTITIES)
      (hl : (w._spriteList e).type ≠ EntityType.Null) : RegReachable env (sprite_remove env w e)
  | moveTo (w : World) (e : Nat) (p : CoordsXYZ) (h : RegReachable env w)
      (he : e < env.MAX_ENTITIES) (hl : (w._spriteList e).type ≠ EntityType.Null) :
      RegReachable env (MoveTo env w e p)
  | setFlashing (w : World) (e : Nat) (flashing : Bool) (h : RegReachable env w)
      (he : e < env.MAX_ENTITIES) (hl : (w._spriteList e).type ≠ EntityType.Null) :
      RegReachable env (sprite_set_flashing w e flashing)

/-- The operations on the registry that a replay consists of. -/
inductive Op
  | create (type : EntityType)
  | remove (e : Nat)
  | moveTo (e : Nat) (p : CoordsXYZ)

/-- The world after one operation of a replay. -/
def applyOp (env : Env) (w : World) : Op → World
  | .create type => (CreateEntity env w type).1
  | .remove e => sprite_remove env w e
  | .moveTo e p => MoveTo env w e p

/-- The world after the operations of a replay, in turn. -/
def replay (env : Env) : List Op → World → World
  | [], w => w
  | op :: ops, w => replay env ops (applyOp env w op)

/-- An operation as the simulation issues it: a real tag is created, a live
entity is removed or moved. -/
def validOp (env : Env) (w : World) : Op → Prop
  | .create type => type ≠ EntityType.Null
  | .remove e => e < env.MAX_ENTITIES ∧ (w._spriteList e).type ≠ EntityType.Null
  | .moveTo e _ => e < env.MAX_ENTITIES ∧ (w._spriteList e).type ≠ EntityType.Null

/-- Every operation of the replay is valid in the world it is applied to. -/
def ValidReplay (env : Env) : List Op → World → Prop
  | [], _ => True
  | op :: ops, w => validOp env w op ∧ ValidReplay env ops (applyOp env w op)

/-- Two worlds with the same registry: the same slots below `MAX_ENTITIES`, the
same per-type lists, free list and buckets. -/
def SameRegistry (env : Env) (w w1 : World) : Prop :=
  (∀ i, i < env.MAX_ENTITIES → w1._spriteList i = w._spriteList i) ∧
    w1.gEntityLists = w.gEntityLists ∧ w1._freeIdList = w._freeIdList ∧
    w1.gSpriteSpatialIndex = w.gSpriteSpatialIndex

/-- The states of a running game together with the phase they are in: `true`
inside a tick of the simulation, from the load of a park or from `PreTick` on,
where entities are created, destroyed and moved; `false` from `PostTick` to the
next `PreTick`, where frames are drawn with `Tween`.  A park is loaded with the
tweener reset. -/
inductive Simulation (env : Env) : Bool → World → Prop
  | reset (w : World) : Simulation env true (reset_sprite_list env (Reset w))
  | create (w : World) (type : EntityType) (h : Simulation env true w)
      (ht : type ≠ EntityType.Null) : Simulation env true (CreateEntity env w type).1
  | createAt (w : World) (index : Nat) (type : EntityType) (h : Simulation env true w)
      (ht : type ≠ EntityType.Null) : Simulation env true (CreateEntityAt env w index type).1
  | remove (w : World) (e : Nat) (h : Simulation env true w) (he : e < env.MAX_ENTITIES)
      (hl : (w._spriteList e).type ≠ EntityType.Null) :
      Simulation env true (sprite_remove env w e)
  | moveTo (w : World) (e : Nat) (p : CoordsXYZ) (h : Simulation env true w)
      (he : e < env.MAX_ENTITIES) (hl : (w._spriteList e).type ≠ EntityType.Null) :
      Simulation env true (MoveTo env w e p)
  | postTick (w : World) (h : Simulation env true w) : Simulation env false (PostTick w)
  | tween (alpha : ℚ) (w w1 : World) (h : Simulation env false w)
      (ht : Tween env alpha w = some w1) : Simulation env false w1
  | preTick (w w1 : World) (h : Simulation env false w) (hp : PreTick env w = some w1) :
      Simulation env true w1

/-- The slot that `PrepareNewEntity` leaves behind: a function of the identifier
and the tag alone. -/
def preparedSprite (e : Nat) (type : EntityType) : SpriteBase :=
  { type := type, sprite_height_negative := 20, sprite_index := e, x := LOCATION_NULL,
    y := LOCATION_NULL, z := 0, sprite_width := 16, sprite_height_positive := 8,
    sprite_left := LOCATION_NULL, sprite_top := 0, sprite_right := 0, sprite_bottom := 0,
    rest := 0 }

/-- The slot that `sprite_reset` leaves behind: all zero but the identifier, with
the tag `Null`. -/
def nullSprite (e : Nat) : SpriteBase :=
  { zeroSprite with sprite_index := e, type := EntityType.Null }

/-- The refusal of lines 381-391: a misc tag is asked for and the `uint16_t`
difference `MAX_MISC_SPRITES - GetMiscEntityCount()` is not below the number of
free slots. -/
def MiscRefused (w : World) (type : EntityType) : Prop :=
  EntityTypeIsMiscEntity type = true ∧
    toUInt16 ((MAX_MISC_SPRITES : Int) - (GetMiscEntityCount w : Int)) ≥ w._freeIdList.length

/-- The slot of the moved entity after `MoveTo` (lines 501-512), given the
location of `moveLoc`. -/
def movedSprite (env : Env) (s : SpriteBase) (loc : CoordsXYZ) : SpriteBase :=
  if loc.x = LOCATION_NULL then
    { s with sprite_left := LOCATION_NULL, x := toInt16 loc.x, y := toInt16 loc.y,
             z := toInt16 loc.z }
  else
    { s with
      sprite_left := toInt16 ((env.translate_3d_to_2d_with_z loc).1 - s.sprite_width)
      sprite_right := toInt16 ((env.translate_3d_to_2d_with_z loc).1 + s.sprite_width)
      sprite_top := toInt16 ((env.translate_3d_to_2d_with_z loc).2 - s.sprite_height_negative)
      sprite_bottom := toInt16 ((env.translate_3d_to_2d_with_z loc).2 + s.sprite_height_positive)
      x := toInt16 loc.x
      y := toInt16 loc.y
      z := toInt16 loc.z }

/-- The slot of an entity after `sprite_set_coordinates` (lines 527-538) put it
at `pos`. -/
def placedSprite (env : Env) (s : SpriteBase) (pos : CoordsXYZ) : SpriteBase :=
  { s with
    sprite_left := toInt16 ((env.translate_3d_to_2d_with_z pos).1 - s.sprite_width)
    sprite_right := toInt16 ((env.translate_3d_to_2d_with_z pos).1 + s.sprite_width)
    sprite_top := toInt16 ((env.translate_3d_to_2d_with_z pos).2 - s.sprite_height_negative)
    sprite_bottom := toInt16 ((env.translate_3d_to_2d_with_z pos).2 + s.sprite_height_positive)
    x := toInt16 pos.x
    y := toInt16 pos.y
    z := toInt16 pos.z }

/-- The buckets after `SpriteSpatialMove` took no repair path: unchanged when the
cell stays the same, otherwise `e` leaves its old bucket and enters the new one. -/
def movedIndex (w : World) (e : Nat) (x y : Int) : Nat → List Nat :=
  if GetSpatialIndexOffset x y = GetSpatialIndexOffset (w._spriteList e).x (w._spriteList e).y then
    w.gSpriteSpatialIndex
  else
    Function.update
      (Function.update w.gSpriteSpatialIndex
        (GetSpatialIndexOffset (w._spriteList e).x (w._spriteList e).y)
        ((w.gSpriteSpatialIndex
          (GetSpatialIndexOffset (w._spriteList e).x (w._spriteList e).y)).filter
            (fun a => decide (a ≠ e))))
      (GetSpatialIndexOffset x y)
      (insertAt (w.gSpriteSpatialIndex (GetSpatialIndexOffset x y))
        (lower_bound (w.gSpriteSpatialIndex (GetSpatialIndexOffset x y)) e) e)

/-- The buckets that `reset_sprite_spatial_index` builds from the slot table:
bucket `b` holds, in ascending order, the live slots whose position has the
offset `b`. -/
def rebuiltIndex (env : Env) (w : World) (b : Nat) : List Nat :=
  (List.range env.MAX_ENTITIES).filter
    (fun i => decide ((w._spriteList i).type ≠ EntityType.Null ∧
      GetSpatialIndexOffset (w._spriteList i).x (w._spriteList i).y = b))

/-- Two worlds that differ at most in the screen boxes of the slots and in the
invalidation log. -/
def SameButBox (w w1 : World) : Prop :=
  w1.gEntityLists = w.gEntityLists ∧ w1._freeIdList = w._freeIdList ∧
  w1._spriteFlashingList = w._spriteFlashingList ∧
  w1.gSpriteSpatialIndex = w.gSpriteSpatialIndex ∧ w1.tweener = w.tweener ∧
  w1.gSavedAge = w.gSavedAge ∧
  ∀ i, (w1._spriteList i).type = (w._spriteList i).type ∧
    (w1._spriteList i).sprite_index = (w._spriteList i).sprite_index ∧
    (w1._spriteList i).x = (w._spriteList i).x ∧ (w1._spriteList i).y = (w._spriteList i).y ∧
    (w1._spriteList i).z = (w._spriteList i).z ∧
    (w1._spriteList i).sprite_width = (w._spriteList i).sprite_width ∧
    (w1._spriteList i).sprite_height_negative = (w._spriteList i).sprite_height_negative ∧
    (w1._spriteList i).sprite_height_positive = (w._spriteList i).sprite_height_positive ∧
    (w1._spriteList i).rest = (w._spriteList i).rest

/-- Two worlds that differ at most in the positions and screen boxes of the
slots and in the invalidation log. -/
def SameButPos (w w1 : World) : Prop :=
  w1.gEntityLists = w.gEntityLists ∧ w1._freeIdList = w._freeIdList ∧
  w1._spriteFlashingList = w._spriteFlashingList ∧
  w1.gSpriteSpatialIndex = w.gSpriteSpatialIndex ∧ w1.tweener = w.tweener ∧
  w1.gSavedAge = w.gSavedAge ∧
  ∀ i, (w1._spriteList i).type = (w._spriteList i).type ∧
    (w1._spriteList i).sprite_index = (w._spriteList i).sprite_index ∧
    (w1._spriteList i).sprite_width = (w._spriteList i).sprite_width ∧
    (w1._spriteList i).sprite_height_negative = (w._spriteList i).sprite_height_negative ∧
    (w1._spriteList i).sprite_height_positive = (w._spriteList i).sprite_height_positive ∧
    (w1._spriteList i).rest = (w._spriteList i).rest

/-- The thirteen real tags, in the order of the enumeration: the indices of
`gEntityLists`. -/
def allEntityTypes : List EntityType :=
  [.Vehicle, .Guest, .Staff, .Litter, .SteamParticle, .MoneyEffect, .CrashedVehicleParticle,
    .ExplosionCloud, .CrashSplash, .ExplosionFlare, .JumpingFountain, .Balloon, .Duck]

/-- Sprite.cpp lines 216-219: the per-type list of a tag. -/
def GetEntityList (w : World) (id : EntityType) : List Nat := w.gEntityLists id

/-- Consecutive calls of `CreateEntity`, one for each tag of the list in turn;
the world after the last of them. -/
def createAll (env : Env) (w : World) : List EntityType → World
  | [] => w
  | t :: ts => createAll env (CreateEntity env w t).1 ts

/-- A value that a 16-bit signed field can hold. -/
def IsInt16 (v : Int) : Prop := -32768 ≤ v ∧ v ≤ 32767

instance (v : Int) : Decidable (IsInt16 v) :=
  inferInstanceAs (Decidable (-32768 ≤ v ∧ v ≤ 32767))

/-- The consistency of the registry: identifiers, free list, per-type lists and
spatial buckets all agree with the slot table. -/
structure RegInv (env : Env) (w : World) : Prop where
  idx : ∀ i, i < env.MAX_ENTITIES → (w._spriteList i).sprite_index = i
  rng : ∀ i, i < env.MAX_ENTITIES →
    IsInt16 (w._spriteList i).x ∧ IsInt16 (w._spriteList i).y ∧ IsInt16 (w._spriteList i).z
  free_desc : w._freeIdList.Pairwise (· > ·)
  free_mem : ∀ i, i ∈ w._freeIdList ↔
    i < env.MAX_ENTITIES ∧ (w._spriteList i).type = EntityType.Null
  list_asc : ∀ t, (w.gEntityLists t).Pairwise (· < ·)
  list_mem : ∀ t i, i ∈ w.gEntityLists t ↔
    i < env.MAX_ENTITIES ∧ (w._spriteList i).type = t ∧ t ≠ EntityType.Null
  bucket_asc : ∀ b, (w.gSpriteSpatialIndex b).Pairwise (· < ·)
  bucket_mem : ∀ b i, i ∈ w.gSpriteSpatialIndex b ↔
    i < env.MAX_ENTITIES ∧ (w._spriteList i).type ≠ EntityType.Null ∧
      GetSpatialIndexOffset (w._spriteList i).x (w._spriteList i).y = b

/-- The consistency of registry and tweener: the registry is consistent and the
tweener tracks live peeps and vehicles only, each at most once. -/
structure Inv (env : Env) (w : World) extends RegInv env w : Prop where
  tw_once : ∀ e, w.tweener.Entities.count (some e) ≤ 1
  tw_live : ∀ e, some e ∈ w.tweener.Entities →
    e < env.MAX_ENTITIES ∧ isPeepOrVehicle (w._spriteList e).type = true

/-- No entity occurs at two indices of the sequence. -/
def Once (es : List (Option Nat)) : Prop :=
  ∀ k1 k2 e, es.get? k1 = some (some e) → es.get? k2 = some (some e) → k1 = k2

/-- The consistency inside a tick: registry and tweener are consistent, every
entry of `Entities` has its pre-tick snapshot, a 16-bit position, and no
post-tick snapshot is taken yet. -/
structure TickInv (env : Env) (w : World) extends Inv env w : Prop where
  pre_len : w.tweener.PrePos.length = w.tweener.Entities.length
  post_nil : w.tweener.PostPos = []
  pre_rng : ∀ p ∈ w.tweener.PrePos, IsInt16 p.x ∧ IsInt16 p.y ∧ IsInt16 p.z

/-- The relation of a world `w` in which frames are drawn to the world `w0` that
`PostTick` left: `w0` is consistent with both snapshot vectors as long as
`Entities`, and `w` differs from it only in the positions and screen boxes of the
tracked entities whose two snapshots differ, and in the invalidation log. -/
def FrameOf (env : Env) (w0 w : World) : Prop :=
  Inv env w0 ∧ AtPostPos w0 ∧
    w0.tweener.PrePos.length = w0.tweener.Entities.length ∧
    w0.tweener.PostPos.length = w0.tweener.Entities.length ∧
    (∀ p ∈ w0.tweener.PrePos, IsInt16 p.x ∧ IsInt16 p.y ∧ IsInt16 p.z) ∧
    SameButPos w0 w ∧
    ∀ i, (∀ k a b, w0.tweener.Entities.get? k = some (some i) →
        w0.tweener.PrePos.get? k = some a → w0.tweener.PostPos.get? k = some b → a = b) →
      w._spriteList i = w0._spriteList i

/-- The consistency while frames are drawn: the world is in the relation
`FrameOf` to some world. -/
def FrameInv (env : Env) (w : World) : Prop := ∃ w0, FrameOf env w0 w

/-! ## Concrete instances -/

/-- An environment with `n` slots, with the range validation of the spec, as
screen projection `(y - x, (x + y) / 2 - z)`, and exact arithmetic for `fl`. -/
def exampleEnv (n : Nat) (h : n ≤ 65535) : Env :=
  { MAX_ENTITIES := n
    max_entities_le := h
    map_is_location_valid := map_is_location_valid
    valid_in_range := fun x y hv => by simpa [map_is_location_valid] using hv
    translate_3d_to_2d_with_z := fun p => (p.y - p.x, (p.x + p.y) / 2 - p.z)
    fl := fun q => q
    fl_exact := fun _ _ _ => rfl }

/-- Capacity 5, the size of the reuse example of the spec. -/
def env5 : Env := exampleEnv 5 (by decide)

/-- The globals at program start: zeroed slots, empty containers. -/
def startWorld : World :=
  { _spriteList := fun _ => zeroSprite
    gEntityLists := fun _ => []
    _freeIdList := []
    _spriteFlashingList := fun _ => false
    gSpriteSpatialIndex := fun _ => []
    tweener := { Entities := [], PrePos := [], PostPos := [] }
    invalidated := []
    gSavedAge := 0 }

/-- Capacity 5 after `reset_sprite_list`. -/
def reset5 : World := reset_sprite_list env5 startWorld

/-- Capacity 5 with one guest, in slot 0. -/
def one5 : World := (CreateEntity env5 reset5 EntityType.Guest).1

/-- Capacity 5 with one duck, put into slot 0 by `CreateEntityAt`: one misc
entity and four free slots. -/
def duck5 : World := (CreateEntityAt env5 reset5 0 EntityType.Duck).1

/-- The guest of `one5` moved to the valid location (33, 64, 5), in cell 258. -/
def moved5 : World := MoveTo env5 one5 0 { x := 33, y := 64, z := 5 }

/-- Capacity 5 with all five slots allocated to guests. -/
def full5 : World :=
  (CreateEntity env5 (CreateEntity env5 (CreateEntity env5 (CreateEntity env5 one5
    EntityType.Guest).1 EntityType.Guest).1 EntityType.Guest).1 EntityType.Guest).1

/-- The full world at the start of a tick: the tweener tracks the five guests. -/
def tracked5 : World := PopulateEntities env5 (Reset full5)

/-- A restart from `tracked5`: `reset_sprite_list` clears the registry and leaves
the tweener, which still refers to the slots 0 to 4; slot 0 then goes to a
litter item. -/
def stale5 : World :=
  (CreateEntity env5 (reset_sprite_list env5 tracked5) EntityType.Litter).1

/-- The same restart with a guest in slot 0, which is then set flashing: the
tweener refers to the guest once and its flashing flag is set. -/
def flagged5 : World :=
  sprite_set_flashing
    (CreateEntity env5 (reset_sprite_list env5 tracked5) EntityType.Guest).1 0 true

/-- The full world after the release of slot 3 and then of slot 1. -/
def holes5 : World := sprite_remove env5 (sprite_remove env5 full5 3) 1

/-- The world `holes5` by another history: entity 1 is destroyed before entity 3. -/
def holesAlt5 : World := sprite_remove env5 (sprite_remove env5 full5 1) 3

/-- Entities 0 and 2 of `full5` moved into the tile of (33, 64), entity 0 first. -/
def tileA5 : World :=
  MoveTo env5 (MoveTo env5 full5 0 { x := 33, y := 64, z := 5 }) 2 { x := 40, y := 70, z := 0 }

/-- Entities 2 and 0 of `full5` moved into the tile of (33, 64), entity 2 first. -/
def tileB5 : World :=
  MoveTo env5 (MoveTo env5 full5 2 { x := 40, y := 70, z := 0 }) 0 { x := 33, y := 64, z := 5 }

/-- The world `full5` with guest 0 put at (32, 64, 0), before the first tick. -/
def placed5 : World := MoveTo env5 full5 0 { x := 32, y := 64, z := 0 }

/-- The first tick begins: `PreTick` has tracked the five guests of `placed5`. -/
def tick5 : World := PopulateEntities env5 (Reset placed5)

/-- Inside the tick guest 0 walks to (48, 64, 0). -/
def walked5 : World := MoveTo env5 tick5 0 { x := 48, y := 64, z := 0 }

/-- The tick is over: `PostTick` has taken the second snapshots. -/
def frame5 : World := PostTick walked5

/-- A replay: a staff member, a guest and a litter item are created, the guest
walks to (33, 64, 5), the staff member is removed. -/
def replay5 : List Op :=
  [Op.create EntityType.Staff, Op.create EntityType.Guest, Op.create EntityType.Litter,
    Op.moveTo 1 { x := 33, y := 64, z := 5 }, Op.remove 0]

/-- The world `moved5` with a corrupted spatial index: every bucket is empty, so
the guest at (33, 64, 5) is missing from bucket 258. -/
def corrupt5 : World := { moved5 with gSpriteSpatialIndex := fun _ => [] }

/-- Capacity 301, one slot more than `MAX_MISC_SPRITES`. -/
def env301 : Env := exampleEnv 301 (by decide)

/-- Two ducks created after a reset with capacity 301: 2 misc entities, 299 free
slots. -/
def ducks301 : World :=
  createAll env301 (reset_sprite_list env301 startWorld) [EntityType.Duck, EntityType.Duck]

/-! ## Correctness of the binary search on sorted sequences -/

theorem getD_append_mem (l1 l2 : List Nat) (n : Nat) (h : n < (l1 ++ l2).length) :
    (n < l1.length ∧ (l1 ++ l2).getD n 0 ∈ l1) ∨ (l1.length ≤ n ∧ (l1 ++ l2).getD n 0 ∈ l2) := by
  by_cases hn : n < l1.length
  · left
    refine ⟨hn, ?_⟩
    rw [List.getD_append _ _ _ _ hn, List.getD_eq_getElem _ _ hn]
    exact List.getElem_mem _
  · right
    have hn' : l1.length ≤ n := Nat.le_of_not_lt hn
    refine ⟨hn', ?_⟩
    have h2 : n - l1.length < l2.length := by
      rw [List.length_append] at h
      omega
    rw [List.getD_append_right _ _ _ _ hn', List.getD_eq_getElem _ _ h2]
    exact List.getElem_mem _

theorem partitionPointAux_append (p : Nat → Bool) (l1 l2 : List Nat)
    (h1 : ∀ a ∈ l1, p a = true) (h2 : ∀ a ∈ l2, p a = false) :
    ∀ fuel first len, len ≤ fuel → first ≤ l1.length → l1.length ≤ first + len →
      first + len ≤ (l1 ++ l2).length →
      partitionPointAux p (l1 ++ l2) fuel first len = l1.length := by
  intro fuel
  induction fuel with
  | zero =>
    intro first len hf hlo hhi _
    simp only [partitionPointAux]
    omega
  | succ fuel ih =>
    intro first len hf hlo hhi hlen
    simp only [partitionPointAux]
    by_cases h0 : len = 0
    · simp only [h0, if_true]
      omega
    · simp only [h0, if_false]
      have hmid : first + len / 2 < (l1 ++ l2).length := by
        have : len / 2 < len := Nat.div_lt_self (Nat.pos_of_ne_zero h0) (by decide)
        omega
      rcases getD_append_mem l1 l2 _ hmid with ⟨hlt, hm⟩ | ⟨hge, hm⟩
      · rw [if_pos (h1 _ hm)]
        apply ih
        · omega
        · omega
        · omega
        · omega
      · have hf2 : p ((l1 ++ l2).getD (first + len / 2) 0) = false := h2 _ hm
        rw [hf2]
        simp only [Bool.false_eq_true, if_false]
        apply ih
        · omega
        · omega
        · omega
        · omega

theorem filter_split (p : Nat → Bool) (hp : ∀ a b, a < b → p b = true → p a = true) :
    ∀ l : List Nat, l.Pairwise (· < ·) → l.filter p ++ l.filter (fun a => !p a) = l := by
  intro l
  induction l with
  | nil => intro _; rfl
  | cons a t ih =>
    intro hl
    rw [List.pairwise_cons] at hl
    by_cases hpa : p a = true
    · simp only [List.filter_cons, hpa, if_true, Bool.not_true, Bool.false_eq_true, if_false,
        List.cons_append]
      rw [ih hl.2]
    · have hall : ∀ b ∈ t, p b = false := by
        intro b hb
        by_contra hc
        exact hpa (hp a b (hl.1 b hb) (by simpa using hc))
      have e1 : t.filter p = [] := by
        rw [List.filter_eq_nil_iff]
        intro b hb
        simp [hall b hb]
      have e2 : t.filter (fun a => !p a) = t := by
        rw [List.filter_eq_self]
        intro b hb
        simp [hall b hb]
      have hpa' : p a = false := by simpa using hpa
      simp only [List.filter_cons, hpa', Bool.false_eq_true, if_false, Bool.not_false, if_true,
        e1, e2, List.nil_append]

/-- On an ascending sequence the binary search returns the number of elements
that satisfy a downward closed test. -/
theorem partitionPoint_sorted (p : Nat → Bool) (hp : ∀ a b, a < b → p b = true → p a = true)
    (l : List Nat) (hl : l.Pairwise (· < ·)) :
    partitionPointAux p l l.length 0 l.length = (l.filter p).length := by
  have h := partitionPointAux_append p (l.filter p) (l.filter (fun a => !p a))
    (fun a ha => (List.mem_filter.1 ha).2)
    (fun a ha => by simpa using (List.mem_filter.1 ha).2)
    l.length 0 l.length (Nat.le_refl _) (Nat.zero_le _)
    (by simpa using List.length_filter_le p l)
    (by rw [filter_split p hp l hl]; omega)
  rw [filter_split p hp l hl] at h
  exact h

theorem take_partitionPoint (p : Nat → Bool) (hp : ∀ a b, a < b → p b = true → p a = true)
    (l : List Nat) (hl : l.Pairwise (· < ·)) :
    l.take (partitionPointAux p l l.length 0 l.length) = l.filter p := by
  rw [partitionPoint_sorted p hp l hl]
  have h : (l.filter p ++ l.filter (fun a => !p a)).take (l.filter p).length = l.filter p :=
    List.take_left' rfl
  rw [filter_split p hp l hl] at h
  exact h

theorem drop_partitionPoint (p : Nat → Bool) (hp : ∀ a b, a < b → p b = true → p a = true)
    (l : List Nat) (hl : l.Pairwise (· < ·)) :
    l.drop (partitionPointAux p l l.length 0 l.length) = l.filter (fun a => !p a) := by
  rw [partitionPoint_sorted p hp l hl]
  have h : (l.filter p ++ l.filter (fun a => !p a)).drop (l.filter p).length =
      l.filter (fun a => !p a) := List.drop_left' rfl
  rw [filter_split p hp l hl] at h
  exact h

theorem lt_closed (v : Nat) :
    ∀ a b : Nat, a < b → decide (b < v) = true → decide (a < v) = true := by
  intro a b hab hb
  simp only [decide_eq_true_eq] at *
  omega

theorem le_closed (v : Nat) :
    ∀ a b : Nat, a < b → (!decide (v < b)) = true → (!decide (v < a)) = true := by
  intro a b hab hb
  simp only [Bool.not_eq_true', decide_eq_false_iff_not] at *
  omega

theorem insertAt_partitionPoint (p : Nat → Bool)
    (hp : ∀ a b, a < b → p b = true → p a = true) (l : List Nat) (hl : l.Pairwise (· < ·))
    (v : Nat) :
    insertAt l (partitionPointAux p l l.length 0 l.length) v =
      l.filter p ++ v :: l.filter (fun a => !p a) := by
  unfold insertAt
  rw [take_partitionPoint p hp l hl, drop_partitionPoint p hp l hl]

theorem mem_split_insert (p : Nat → Bool) (l : List Nat) (v a : Nat) :
    a ∈ l.filter p ++ v :: l.filter (fun a => !p a) ↔ a = v ∨ a ∈ l := by
  simp only [List.mem_append, List.mem_filter, List.mem_cons, Bool.not_eq_true']
  constructor
  · rintro (h | h | h)
    · exact Or.inr h.1
    · exact Or.inl h
    · exact Or.inr h.1
  · rintro (h | h)
    · exact Or.inr (Or.inl h)
    · cases hpa : p a
      · exact Or.inr (Or.inr ⟨h, rfl⟩)
      · exact Or.inl ⟨h, rfl⟩

theorem filter_ne_split_insert (p : Nat → Bool) (hp : ∀ a b, a < b → p b = true → p a = true)
    (l : List Nat) (hl : l.Pairwise (· < ·)) (v : Nat) (hv : v ∉ l) :
    (l.filter p ++ v :: l.filter (fun a => !p a)).filter (fun a => decide (a ≠ v)) = l := by
  rw [List.filter_append, List.filter_cons]
  simp only [ne_eq, not_true_eq_false, decide_False, Bool.false_eq_true, if_false]
  rw [← List.filter_append, filter_split p hp l hl, List.filter_eq_self]
  intro a ha
  simp only [decide_not, Bool.not_eq_true', decide_eq_false_iff_not]
  intro h
  exact hv (h ▸ ha)

theorem pairwise_split_insert (p : Nat → Bool) (l : List Nat) (hl : l.Pairwise (· < ·))
    (v : Nat) (h1 : ∀ a ∈ l, p a = true → a < v) (h2 : ∀ a ∈ l, p a = false → v < a) :
    (l.filter p ++ v :: l.filter (fun a => !p a)).Pairwise (· < ·) := by
  rw [List.pairwise_append]
  refine ⟨hl.filter _, ?_, ?_⟩
  · rw [List.pairwise_cons]
    refine ⟨?_, hl.filter _⟩
    intro b hb
    rw [List.mem_filter] at hb
    exact h2 b hb.1 (by simpa using hb.2)
  · intro a ha b hb
    rw [List.mem_filter] at ha
    rw [List.mem_cons] at hb
    rcases hb with hb | hb
    · rw [hb]
      exact h1 a ha.1 ha.2
    · rw [List.mem_filter] at hb
      exact Nat.lt_trans (h1 a ha.1 ha.2) (h2 b hb.1 (by simpa using hb.2))

/-! ### Ascending sequences: the per-type lists and the buckets -/

theorem mem_insertAt_lower_bound (l : List Nat) (hl : l.Pairwise (· < ·)) (v a : Nat) :
    a ∈ insertAt l (lower_bound l v) v ↔ a = v ∨ a ∈ l := by
  unfold lower_bound
  rw [insertAt_partitionPoint _ (lt_closed v) l hl]
  exact mem_split_insert _ l v a

theorem pairwise_insertAt_lower_bound (l : List Nat) (hl : l.Pairwise (· < ·)) (v : Nat)
    (hv : v ∉ l) : (insertAt l (lower_bound l v) v).Pairwise (· < ·) := by
  unfold lower_bound
  rw [insertAt_partitionPoint _ (lt_closed v) l hl]
  apply pairwise_split_insert _ l hl v
  · intro a _ h
    simpa using h
  · intro a ha h
    have h3 : ¬ a < v := by simpa using h
    have h4 : a ≠ v := fun e => hv (e ▸ ha)
    omega

theorem filter_ne_insertAt_lower_bound (l : List Nat) (hl : l.Pairwise (· < ·)) (v : Nat)
    (hv : v ∉ l) : (insertAt l (lower_bound l v) v).filter (fun a => decide (a ≠ v)) = l := by
  unfold lower_bound
  rw [insertAt_partitionPoint _ (lt_closed v) l hl]
  exact filter_ne_split_insert _ (lt_closed v) l hl v hv

theorem count_eq_one_of_pairwise (l : List Nat) (hl : l.Pairwise (· < ·)) (v : Nat)
    (hv : v ∈ l) : l.count v = 1 := by
  have hnd : l.Nodup := hl.imp (fun h => Nat.ne_of_lt h)
  exact List.count_eq_one_of_mem hnd hv

/-- The upper part of an ascending sequence that holds `v` starts with `v`. -/
theorem filter_ge_eq_cons (l : List Nat) (hl : l.Pairwise (· < ·)) (v : Nat) (hv : v ∈ l) :
    l.filter (fun a => !decide (a < v)) = v :: l.filter (fun a => decide (v < a)) := by
  induction l with
  | nil => exact absurd hv (List.not_mem_nil v)
  | cons b t ih =>
    rw [List.pairwise_cons] at hl
    rcases List.mem_cons.1 hv with h | h
    · subst h
      have e : t.filter (fun a => !decide (a < v)) = t := by
        rw [List.filter_eq_self]
        intro a ha
        have := hl.1 a ha
        simp only [Bool.not_eq_true', decide_eq_false_iff_not]
        omega
      have e2 : t.filter (fun a => decide (v < a)) = t := by
        rw [List.filter_eq_self]
        intro a ha
        simpa using hl.1 a ha
      simp [List.filter_cons, e, e2]
    · have hb : b < v := hl.1 v h
      have hb2 : ¬ v < b := by omega
      simp only [List.filter_cons, hb, decide_True, Bool.not_true, Bool.false_eq_true, if_false,
        hb2, decide_False]
      exact ih hl.2 h

theorem get?_lower_bound (l : List Nat) (hl : l.Pairwise (· < ·)) (v : Nat) :
    l.get? (lower_bound l v) = some v ↔ v ∈ l := by
  rw [List.get?_eq_getElem?, ← List.head?_drop]
  unfold lower_bound
  rw [drop_partitionPoint _ (lt_closed v) l hl]
  constructor
  · intro h
    have hm := List.mem_of_mem_head? h
    exact (List.mem_filter.1 hm).1
  · intro h
    rw [filter_ge_eq_cons l hl v h]
    rfl

theorem eraseIdx_lower_bound (l : List Nat) (hl : l.Pairwise (· < ·)) (v : Nat) (hv : v ∈ l) :
    l.eraseIdx (lower_bound l v) = l.filter (fun a => decide (a ≠ v)) := by
  rw [List.eraseIdx_eq_take_drop_succ, ← List.tail_drop]
  unfold lower_bound
  rw [take_partitionPoint _ (lt_closed v) l hl, drop_partitionPoint _ (lt_closed v) l hl,
    filter_ge_eq_cons l hl v hv, List.tail_cons]
  have hs := filter_split _ (lt_closed v) l hl
  rw [filter_ge_eq_cons l hl v hv] at hs
  conv_rhs => rw [← hs]
  rw [List.filter_append, List.filter_cons]
  simp only [ne_eq, not_true_eq_false, decide_False, Bool.false_eq_true, if_false,
    List.filter_filter]
  congr 1
  · apply List.filter_congr
    intro a _
    by_cases h : a < v
    · have : a ≠ v := by omega
      simp [h, this]
    · simp [h]
  · apply List.filter_congr
    intro a _
    by_cases h : v < a
    · have : a ≠ v := by omega
      simp [h, this]
    · simp [h]

theorem length_insertAt (l : List Nat) (k v : Nat) : (insertAt l k v).length = l.length + 1 := by
  unfold insertAt
  rw [List.length_append, List.length_cons, ← Nat.add_assoc, Nat.add_right_cancel_iff,
    ← List.length_append, List.take_append_drop]

theorem length_filter_ne (l : List Nat) (hl : l.Nodup) (v : Nat) (hv : v ∈ l) :
    (l.filter (fun a => decide (a ≠ v))).length + 1 = l.length := by
  induction l with
  | nil => exact absurd hv (List.not_mem_nil v)
  | cons b t ih =>
    rw [List.nodup_cons] at hl
    rcases List.mem_cons.1 hv with h | h
    · subst h
      have e : t.filter (fun a => decide (a ≠ v)) = t := by
        rw [List.filter_eq_self]
        intro a ha
        have : a ≠ v := fun e => hl.1 (e ▸ ha)
        simpa using this
      rw [List.filter_cons]
      simp only [ne_eq, not_true_eq_false, decide_False, Bool.false_eq_true, if_false,
        List.length_cons]
      simp only [ne_eq] at e
      rw [e]
    · have hb : b ≠ v := fun e => hl.1 (e ▸ h)
      simp only [List.filter_cons, ne_eq, hb, not_false_eq_true, decide_True, if_true,
        List.length_cons]
      have := ih hl.2 h
      simp only [ne_eq] at this
      omega

theorem nodup_of_asc (l : List Nat) (hl : l.Pairwise (· < ·)) : l.Nodup :=
  hl.imp (fun h => Nat.ne_of_lt h)

theorem nodup_of_desc (l : List Nat) (hl : l.Pairwise (· > ·)) : l.Nodup :=
  hl.imp (fun h => Nat.ne_of_gt h)

/-! ### Descending sequences: the free list -/

theorem asc_reverse (f : List Nat) (hf : f.Pairwise (· > ·)) : f.reverse.Pairwise (· < ·) := by
  rw [List.pairwise_reverse]
  exact hf

theorem mem_free_insert (f : List Nat) (hf : f.Pairwise (· > ·)) (v a : Nat) :
    a ∈ (insertAt f.reverse (upper_bound f.reverse v) v).reverse ↔ a = v ∨ a ∈ f := by
  unfold upper_bound
  rw [List.mem_reverse, insertAt_partitionPoint _ (le_closed v) _ (asc_reverse f hf),
    mem_split_insert, List.mem_reverse]

theorem pairwise_free_insert (f : List Nat) (hf : f.Pairwise (· > ·)) (v : Nat) (hv : v ∉ f) :
    (insertAt f.reverse (upper_bound f.reverse v) v).reverse.Pairwise (· > ·) := by
  unfold upper_bound
  rw [List.pairwise_reverse, insertAt_partitionPoint _ (le_closed v) _ (asc_reverse f hf)]
  apply pairwise_split_insert _ _ (asc_reverse f hf) v
  · intro a ha h
    have h3 : ¬ v < a := by simpa using h
    have h4 : a ≠ v := fun e => hv (e ▸ List.mem_reverse.1 ha)
    omega
  · intro a _ h
    simpa using h

theorem filter_ne_free_insert (f : List Nat) (hf : f.Pairwise (· > ·)) (v : Nat) (hv : v ∉ f) :
    (insertAt f.reverse (upper_bound f.reverse v) v).reverse.filter (fun a => decide (a ≠ v)) =
      f := by
  unfold upper_bound
  rw [List.filter_reverse, insertAt_partitionPoint _ (le_closed v) _ (asc_reverse f hf),
    filter_ne_split_insert _ (le_closed v) _ (asc_reverse f hf) v
      (fun h => hv (List.mem_reverse.1 h)),
    List.reverse_reverse]

theorem length_free_insert (f : List Nat) (v : Nat) :
    (insertAt f.reverse (upper_bound f.reverse v) v).reverse.length = f.length + 1 := by
  rw [List.length_reverse, length_insertAt, List.length_reverse]

theorem free_found (f : List Nat) (hf : f.Pairwise (· > ·)) (v : Nat) :
    f.reverse.get? (lower_bound f.reverse v) = some v ↔ v ∈ f := by
  rw [get?_lower_bound _ (asc_reverse f hf), List.mem_reverse]

theorem free_erase (f : List Nat) (hf : f.Pairwise (· > ·)) (v : Nat) (hv : v ∈ f) :
    (f.reverse.eraseIdx (lower_bound f.reverse v)).reverse =
      f.filter (fun a => decide (a ≠ v)) := by
  rw [eraseIdx_lower_bound _ (asc_reverse f hf) v (List.mem_reverse.2 hv), List.filter_reverse,
    List.reverse_reverse]

theorem free_last (f : List Nat) (hf : f.Pairwise (· > ·)) (hne : f ≠ []) :
    f.getLastD 0 ∈ f ∧ (∀ a ∈ f, f.getLastD 0 ≤ a) ∧
      f.dropLast = f.filter (fun a => decide (a ≠ f.getLastD 0)) := by
  rcases List.eq_nil_or_concat f with h | ⟨L, b, h⟩
  · exact absurd h hne
  · rw [List.concat_eq_append] at h
    subst h
    rw [List.getLastD_concat, List.dropLast_concat]
    rw [List.pairwise_append] at hf
    refine ⟨by simp, ?_, ?_⟩
    · intro a ha
      rcases List.mem_append.1 ha with h | h
      · exact Nat.le_of_lt (hf.2.2 a h b (by simp))
      · have : a = b := by simpa using h
        omega
    · rw [List.filter_append]
      have e : L.filter (fun a => decide (a ≠ b)) = L := by
        rw [List.filter_eq_self]
        intro a ha
        have := hf.2.2 a ha b (by simp)
        have : a ≠ b := by omega
        simpa using this
      rw [e]
      simp

/-! ## Narrowing and quantization -/

theorem toInt16_of_isInt16 (v : Int) (h : IsInt16 v) : toInt16 v = v := by
  unfold toInt16
  unfold IsInt16 at h
  omega

theorem isInt16_toInt16 (v : Int) : IsInt16 (toInt16 v) := by
  unfold toInt16 IsInt16
  omega

theorem toUInt16_of_lt (i : Nat) (h : i < 65536) : toUInt16 (i : Int) = i := by
  unfold toUInt16
  omega

theorem offset_null (y : Int) :
    GetSpatialIndexOffset LOCATION_NULL y = SPATIAL_INDEX_LOCATION_NULL := by
  simp [GetSpatialIndexOffset, SPATIAL_INDEX_LOCATION_NULL, SPATIAL_INDEX_SIZE,
    sizeofSpriteSpatialIndex, MAXIMUM_MAP_SIZE_TECHNICAL]

theorem offset_toInt16 (x y : Int)
    (h : x = LOCATION_NULL ∨ (0 ≤ x ∧ x < 8192 ∧ 0 ≤ y ∧ y < 8192)) :
    GetSpatialIndexOffset (toInt16 x) (toInt16 y) = GetSpatialIndexOffset x y := by
  rcases h with h | h
  · subst h
    have e : toInt16 LOCATION_NULL = LOCATION_NULL := by decide
    rw [e, offset_null, offset_null]
  · rw [toInt16_of_isInt16 x (by unfold IsInt16; omega),
      toInt16_of_isInt16 y (by unfold IsInt16; omega)]

/-! ## What each operation does to each global -/

theorem PrepareNewEntity_spriteList (w : World) (e : Nat) (type : EntityType)
    (hidx : (w._spriteList e).sprite_index = e) :
    (PrepareNewEntity w e type)._spriteList =
      Function.update w._spriteList e (preparedSprite e type) := by
  simp [PrepareNewEntity, sprite_reset, AddToEntityList, SpriteSpatialInsert, preparedSprite,
    zeroSprite, hidx]

theorem PrepareNewEntity_gEntityLists (w : World) (e : Nat) (type : EntityType)
    (hidx : (w._spriteList e).sprite_index = e) :
    (PrepareNewEntity w e type).gEntityLists =
      Function.update w.gEntityLists type
        (insertAt (w.gEntityLists type) (lower_bound (w.gEntityLists type) e) e) := by
  simp [PrepareNewEntity, sprite_reset, AddToEntityList, SpriteSpatialInsert, zeroSprite, hidx]

theorem PrepareNewEntity_gSpriteSpatialIndex (w : World) (e : Nat) (type : EntityType)
    (hidx : (w._spriteList e).sprite_index = e) :
    (PrepareNewEntity w e type).gSpriteSpatialIndex =
      Function.update w.gSpriteSpatialIndex SPATIAL_INDEX_LOCATION_NULL
        (insertAt (w.gSpriteSpatialIndex SPATIAL_INDEX_LOCATION_NULL)
          (lower_bound (w.gSpriteSpatialIndex SPATIAL_INDEX_LOCATION_NULL) e) e) := by
  simp [PrepareNewEntity, sprite_reset, AddToEntityList, SpriteSpatialInsert, zeroSprite, hidx,
    offset_null]

theorem PrepareNewEntity_spriteFlashingList (w : World) (e : Nat) (type : EntityType)
    (hidx : (w._spriteList e).sprite_index = e) :
    (PrepareNewEntity w e type)._spriteFlashingList =
      Function.update w._spriteFlashingList e false := by
  simp [PrepareNewEntity, sprite_reset, AddToEntityList, SpriteSpatialInsert, hidx]

theorem PrepareNewEntity_freeIdList (w : World) (e : Nat) (type : EntityType) :
    (PrepareNewEntity w e type)._freeIdList = w._freeIdList := rfl

theorem PrepareNewEntity_tweener (w : World) (e : Nat) (type : EntityType) :
    (PrepareNewEntity w e type).tweener = w.tweener := rfl

theorem PrepareNewEntity_invalidated (w : World) (e : Nat) (type : EntityType) :
    (PrepareNewEntity w e type).invalidated = w.invalidated := rfl

theorem PrepareNewEntity_gSavedAge (w : World) (e : Nat) (type : EntityType) :
    (PrepareNewEntity w e type).gSavedAge = w.gSavedAge := rfl

/-! ## Creation keeps the registry consistent -/

theorem not_mem_list_of_null (env : Env) (w : World) (hI : RegInv env w) (e : Nat)
    (hn : (w._spriteList e).type = EntityType.Null) (t : EntityType) : e ∉ w.gEntityLists t := by
  intro h
  have := (hI.list_mem t e).1 h
  exact this.2.2 (this.2.1 ▸ hn)

theorem not_mem_bucket_of_null (env : Env) (w : World) (hI : RegInv env w) (e : Nat)
    (hn : (w._spriteList e).type = EntityType.Null) (b : Nat) : e ∉ w.gSpriteSpatialIndex b := by
  intro h
  exact ((hI.bucket_mem b e).1 h).2.1 hn

theorem not_tracked_of_null (env : Env) (w : World) (hI : Inv env w) (e : Nat)
    (hn : (w._spriteList e).type = EntityType.Null) : some e ∉ w.tweener.Entities := by
  intro h
  have := (hI.tw_live e h).2
  rw [hn] at this
  exact absurd this (by decide)

theorem RegInv_prepare (env : Env) (w : World) (hI : RegInv env w) (e : Nat)
    (type : EntityType) (he : e ∈ w._freeIdList) (ht : type ≠ EntityType.Null) :
    RegInv env (PrepareNewEntity
      { w with _freeIdList := w._freeIdList.filter (fun a => decide (a ≠ e)) } e type) := by
  have hec := (hI.free_mem e).1 he
  have hidx : (({ w with _freeIdList := w._freeIdList.filter (fun a => decide (a ≠ e)) } :
      World)._spriteList e).sprite_index = e := hI.idx e hec.1
  refine ⟨?_, ?_, ?_, ?_, ?_, ?_, ?_, ?_⟩
  · intro i hi
    rw [PrepareNewEntity_spriteList _ _ _ hidx]
    by_cases h : i = e
    · subst h
      simp [preparedSprite]
    · simp only [Function.update_noteq h]
      exact hI.idx i hi
  · intro i hi
    rw [PrepareNewEntity_spriteList _ _ _ hidx]
    by_cases h : i = e
    · subst h
      simp [preparedSprite, IsInt16, LOCATION_NULL]
    · simp only [Function.update_noteq h]
      exact hI.rng i hi
  · rw [PrepareNewEntity_freeIdList]
    exact hI.free_desc.filter _
  · intro i
    rw [PrepareNewEntity_freeIdList, PrepareNewEntity_spriteList _ _ _ hidx]
    simp only [List.mem_filter, decide_eq_true_eq]
    by_cases h : i = e
    · subst h
      simp [preparedSprite, ht]
    · simp only [Function.update_noteq h, ne_eq, h, not_false_eq_true, and_true]
      exact hI.free_mem i
  · intro t
    rw [PrepareNewEntity_gEntityLists _ _ _ hidx]
    by_cases h : t = type
    · subst h
      simp only [Function.update_same]
      exact pairwise_insertAt_lower_bound _ (hI.list_asc t) e
        (not_mem_list_of_null env w hI e hec.2 t)
    · simp only [Function.update_noteq h]
      exact hI.list_asc t
  · intro t i
    rw [PrepareNewEntity_gEntityLists _ _ _ hidx, PrepareNewEntity_spriteList _ _ _ hidx]
    by_cases h : t = type
    · subst h
      simp only [Function.update_same]
      rw [mem_insertAt_lower_bound _ (hI.list_asc t)]
      by_cases h2 : i = e
      · subst h2
        simp [preparedSprite, ht, hec.1]
      · simp only [Function.update_noteq h2, h2, false_or]
        exact hI.list_mem t i
    · simp only [Function.update_noteq h]
      by_cases h2 : i = e
      · subst h2
        simp only [Function.update_same, preparedSprite]
        constructor
        · intro hm
          exact absurd hm (not_mem_list_of_null env w hI i hec.2 t)
        · intro hm
          exact absurd hm.2.1.symm h
      · simp only [Function.update_noteq h2]
        exact hI.list_mem t i
  · intro b
    rw [PrepareNewEntity_gSpriteSpatialIndex _ _ _ hidx]
    by_cases h : b = SPATIAL_INDEX_LOCATION_NULL
    · subst h
      simp only [Function.update_same]
      exact pairwise_insertAt_lower_bound _ (hI.bucket_asc _) e
        (not_mem_bucket_of_null env w hI e hec.2 _)
    · simp only [Function.update_noteq h]
      exact hI.bucket_asc b
  · intro b i
    rw [PrepareNewEntity_gSpriteSpatialIndex _ _ _ hidx, PrepareNewEntity_spriteList _ _ _ hidx]
    by_cases h : b = SPATIAL_INDEX_LOCATION_NULL
    · subst h
      simp only [Function.update_same]
      rw [mem_insertAt_lower_bound _ (hI.bucket_asc _)]
      by_cases h2 : i = e
      · subst h2
        simp [preparedSprite, ht, hec.1, offset_null]
      · simp only [Function.update_noteq h2, h2, false_or]
        exact hI.bucket_mem _ i
    · simp only [Function.update_noteq h]
      by_cases h2 : i = e
      · subst h2
        simp only [Function.update_same, preparedSprite, offset_null]
        constructor
        · intro hm
          exact absurd hm (not_mem_bucket_of_null env w hI i hec.2 b)
        · intro hm
          exact absurd hm.2.2.symm h
      · simp only [Function.update_noteq h2]
        exact hI.bucket_mem b i

theorem Inv_prepare (env : Env) (w : World) (hI : Inv env w) (e : Nat) (type : EntityType)
    (he : e ∈ w._freeIdList) (ht : type ≠ EntityType.Null) :
    Inv env (PrepareNewEntity
      { w with _freeIdList := w._freeIdList.filter (fun a => decide (a ≠ e)) } e type) := by
  have hec := (hI.free_mem e).1 he
  have hidx : (({ w with _freeIdList := w._freeIdList.filter (fun a => decide (a ≠ e)) } :
      World)._spriteList e).sprite_index = e := hI.idx e hec.1
  refine ⟨RegInv_prepare env w hI.toRegInv e type he ht, ?_, ?_⟩
  · intro t
    rw [PrepareNewEntity_tweener]
    exact hI.tw_once t
  · intro t htr
    rw [PrepareNewEntity_tweener] at htr
    rw [PrepareNewEntity_spriteList _ _ _ hidx]
    have hne : t ≠ e := by
      intro h
      subst h
      exact not_tracked_of_null env w hI t hec.2 htr
    simp only [Function.update_noteq hne]
    exact hI.tw_live t htr

theorem GetEntity_of_lt (env : Env) (i : Nat) (h : i < env.MAX_ENTITIES) :
    GetEntity env i = some i := by
  have := env.max_entities_le
  unfold GetEntity get_sprite try_get_sprite SPRITE_INDEX_NULL
  rw [if_neg (by omega), if_neg (by omega)]

theorem GetEntity_eq_some (env : Env) (i e : Nat) :
    GetEntity env i = some e ↔ i < env.MAX_ENTITIES ∧ e = i := by
  constructor
  · intro h
    unfold GetEntity get_sprite try_get_sprite at h
    split at h
    · exact absurd h (by simp)
    · split at h
      · exact absurd h (by simp)
      · refine ⟨by omega, ?_⟩
        simp only [Option.some.injEq] at h
        exact h.symm
  · rintro ⟨h1, h2⟩
    rw [h2]
    exact GetEntity_of_lt env i h1

theorem CreateEntity_refused (env : Env) (w : World) (type : EntityType)
    (h : w._freeIdList = [] ∨ MiscRefused w type) : CreateEntity env w type = (w, none) := by
  unfold CreateEntity
  by_cases h0 : w._freeIdList.length = 0
  · rw [if_pos h0]
  · rw [if_neg h0]
    rcases h with h | h
    · rw [h] at h0
      exact absurd rfl h0
    · unfold MiscRefused at h
      rw [if_pos h]

theorem CreateEntity_granted (env : Env) (w : World) (hI : RegInv env w) (type : EntityType)
    (h0 : w._freeIdList ≠ []) (h1 : ¬ MiscRefused w type) :
    CreateEntity env w type =
      (PrepareNewEntity
        { w with _freeIdList := w._freeIdList.filter (fun a => decide (a ≠ w._freeIdList.getLastD 0)) }
        (w._freeIdList.getLastD 0) type, some (w._freeIdList.getLastD 0)) := by
  have hl := free_last w._freeIdList hI.free_desc h0
  have hlt := ((hI.free_mem _).1 hl.1).1
  unfold MiscRefused at h1
  unfold CreateEntity
  rw [if_neg (by simpa using h0), if_neg h1, GetEntity_of_lt env _ hlt]
  simp only
  rw [hl.2.2]

theorem CreateEntity_none (env : Env) (w : World) (type : EntityType)
    (h : (CreateEntity env w type).2 = none) : (CreateEntity env w type).1 = w := by
  by_cases h0 : w._freeIdList.length = 0
  · unfold CreateEntity
    rw [if_pos h0]
  · by_cases h1 : EntityTypeIsMiscEntity type = true ∧
        toUInt16 ((MAX_MISC_SPRITES : Int) - (GetMiscEntityCount w : Int)) ≥ w._freeIdList.length
    · unfold CreateEntity
      rw [if_neg h0, if_pos h1]
    · cases hg : GetEntity env (w._freeIdList.getLastD 0) with
      | none =>
        unfold CreateEntity
        rw [if_neg h0, if_neg h1]
        simp only [hg]
      | some e =>
        unfold CreateEntity at h
        rw [if_neg h0, if_neg h1] at h
        simp only [hg] at h
        exact absurd h (by simp)

theorem RegInv_CreateEntity (env : Env) (w : World) (hI : RegInv env w) (type : EntityType)
    (ht : type ≠ EntityType.Null) : RegInv env (CreateEntity env w type).1 := by
  by_cases h : w._freeIdList = [] ∨ MiscRefused w type
  · rw [CreateEntity_refused env w type h]
    exact hI
  · rw [not_or] at h
    rw [CreateEntity_granted env w hI type h.1 h.2]
    exact RegInv_prepare env w hI _ type (free_last w._freeIdList hI.free_desc h.1).1 ht

theorem Inv_CreateEntity (env : Env) (w : World) (hI : Inv env w) (type : EntityType)
    (ht : type ≠ EntityType.Null) : Inv env (CreateEntity env w type).1 := by
  by_cases h : w._freeIdList = [] ∨ MiscRefused w type
  · rw [CreateEntity_refused env w type h]
    exact hI
  · rw [not_or] at h
    rw [CreateEntity_granted env w hI.toRegInv type h.1 h.2]
    exact Inv_prepare env w hI _ type (free_last w._freeIdList hI.free_desc h.1).1 ht

theorem CreateEntityAt_refused (env : Env) (w : World) (hI : RegInv env w) (index : Nat)
    (type : EntityType) (h : index ∉ w._freeIdList) :
    CreateEntityAt env w index type = (w, none) := by
  unfold CreateEntityAt
  simp only
  rw [if_pos]
  rw [Ne, free_found w._freeIdList hI.free_desc index]
  exact h

theorem CreateEntityAt_granted (env : Env) (w : World) (hI : RegInv env w) (index : Nat)
    (type : EntityType) (h : index ∈ w._freeIdList) :
    CreateEntityAt env w index type =
      (PrepareNewEntity
        { w with _freeIdList := w._freeIdList.filter (fun a => decide (a ≠ index)) }
        index type, some index) := by
  have hlt := ((hI.free_mem _).1 h).1
  unfold CreateEntityAt
  simp only
  rw [if_neg, GetEntity_of_lt env _ hlt]
  · simp only
    rw [free_erase w._freeIdList hI.free_desc index h]
  · rw [Ne, not_not, free_found w._freeIdList hI.free_desc index]
    exact h

theorem RegInv_CreateEntityAt (env : Env) (w : World) (hI : RegInv env w) (index : Nat)
    (type : EntityType) (ht : type ≠ EntityType.Null) :
    RegInv env (CreateEntityAt env w index type).1 := by
  by_cases h : index ∈ w._freeIdList
  · rw [CreateEntityAt_granted env w hI index type h]
    exact RegInv_prepare env w hI _ type h ht
  · rw [CreateEntityAt_refused env w hI index type h]
    exact hI

theorem Inv_CreateEntityAt (env : Env) (w : World) (hI : Inv env w) (index : Nat)
    (type : EntityType) (ht : type ≠ EntityType.Null) :
    Inv env (CreateEntityAt env w index type).1 := by
  by_cases h : index ∈ w._freeIdList
  · rw [CreateEntityAt_granted env w hI.toRegInv index type h]
    exact Inv_prepare env w hI _ type h ht
  · rw [CreateEntityAt_refused env w hI.toRegInv index type h]
    exact hI

/-! ## Removal -/

theorem RemoveEntity_spriteList (w : World) (e : Nat) :
    (RemoveEntity w e)._spriteList = w._spriteList := by
  unfold RemoveEntity
  split <;> rfl

theorem RemoveEntity_gEntityLists (w : World) (e : Nat) :
    (RemoveEntity w e).gEntityLists = w.gEntityLists := by
  unfold RemoveEntity
  split <;> rfl

theorem RemoveEntity_freeIdList (w : World) (e : Nat) :
    (RemoveEntity w e)._freeIdList = w._freeIdList := by
  unfold RemoveEntity
  split <;> rfl

theorem RemoveEntity_spriteFlashingList (w : World) (e : Nat) :
    (RemoveEntity w e)._spriteFlashingList = w._spriteFlashingList := by
  unfold RemoveEntity
  split <;> rfl

theorem RemoveEntity_gSpriteSpatialIndex (w : World) (e : Nat) :
    (RemoveEntity w e).gSpriteSpatialIndex = w.gSpriteSpatialIndex := by
  unfold RemoveEntity
  split <;> rfl

theorem RemoveEntity_invalidated (w : World) (e : Nat) :
    (RemoveEntity w e).invalidated = w.invalidated := by
  unfold RemoveEntity
  split <;> rfl

theorem RemoveEntity_gSavedAge (w : World) (e : Nat) :
    (RemoveEntity w e).gSavedAge = w.gSavedAge := by
  unfold RemoveEntity
  split <;> rfl

/-- On a consistent registry the removal of a live entity takes no repair path:
the world it leaves, global by global. -/
theorem sprite_remove_eq (env : Env) (w : World) (hI : RegInv env w) (e : Nat)
    (he : e < env.MAX_ENTITIES) (hl : (w._spriteList e).type ≠ EntityType.Null) :
    sprite_remove env w e =
      { _spriteList := Function.update w._spriteList e (nullSprite e)
        gEntityLists := Function.update w.gEntityLists (w._spriteList e).type
          ((w.gEntityLists (w._spriteList e).type).filter (fun a => decide (a ≠ e)))
        _freeIdList := (insertAt w._freeIdList.reverse (upper_bound w._freeIdList.reverse e) e).reverse
        _spriteFlashingList := Function.update w._spriteFlashingList e false
        gSpriteSpatialIndex := Function.update w.gSpriteSpatialIndex
          (GetSpatialIndexOffset (w._spriteList e).x (w._spriteList e).y)
          ((w.gSpriteSpatialIndex (GetSpatialIndexOffset (w._spriteList e).x
            (w._spriteList e).y)).filter (fun a => decide (a ≠ e)))
        tweener := (RemoveEntity w e).tweener
        invalidated := w.invalidated
        gSavedAge := w.gSavedAge } := by
  have hidx := hI.idx e he
  have hm1 : e ∈ w.gEntityLists (w._spriteList e).type := (hI.list_mem _ e).2 ⟨he, rfl, hl⟩
  have hm2 : e ∈ w.gSpriteSpatialIndex (GetSpatialIndexOffset (w._spriteList e).x
      (w._spriteList e).y) := (hI.bucket_mem _ e).2 ⟨he, hl, rfl⟩
  have hf1 := (get?_lower_bound _ (hI.list_asc _) e).2 hm1
  have hf2 := (get?_lower_bound _ (hI.bucket_asc _) e).2 hm2
  have he1 := eraseIdx_lower_bound _ (hI.list_asc _) e hm1
  have he2 := eraseIdx_lower_bound _ (hI.bucket_asc _) e hm2
  simp only [sprite_remove, RemoveFromEntityList, AddToFreeList, SpriteSpatialRemove, sprite_reset,
    RemoveEntity_spriteList, RemoveEntity_gEntityLists, RemoveEntity_freeIdList,
    RemoveEntity_spriteFlashingList, RemoveEntity_gSpriteSpatialIndex, RemoveEntity_invalidated,
    RemoveEntity_gSavedAge, hidx, hf1, hf2, he1, he2, if_true, nullSprite]

theorem length_clearFirst (l : List (Option Nat)) (e : Nat) :
    (clearFirst l e).length = l.length := by
  induction l with
  | nil => rfl
  | cons a t ih =>
    unfold clearFirst
    split
    · rfl
    · simp only [List.length_cons, ih]

theorem mem_clearFirst_of_ne (l : List (Option Nat)) (e a : Nat) (h : a ≠ e) :
    some a ∈ clearFirst l e ↔ some a ∈ l := by
  induction l with
  | nil => rfl
  | cons b t ih =>
    unfold clearFirst
    split
    · rename_i hb
      subst hb
      simp [h]
    · simp only [List.mem_cons, ih]

theorem count_clearFirst_le (l : List (Option Nat)) (e a : Nat) :
    (clearFirst l e).count (some a) ≤ l.count (some a) := by
  induction l with
  | nil => exact Nat.le_refl _
  | cons b t ih =>
    unfold clearFirst
    split
    · rename_i hb
      subst hb
      rw [List.count_cons, List.count_cons]
      simp only [beq_iff_eq, reduceCtorEq, if_false, Nat.add_zero]
      omega
    · rw [List.count_cons, List.count_cons]
      omega

theorem not_mem_clearFirst (l : List (Option Nat)) (e : Nat) (h : l.count (some e) ≤ 1) :
    some e ∉ clearFirst l e := by
  induction l with
  | nil => simp [clearFirst]
  | cons b t ih =>
    unfold clearFirst
    split
    · rename_i hb
      subst hb
      rw [List.count_cons_self] at h
      have h0 : t.count (some e) = 0 := by omega
      rw [List.count_eq_zero] at h0
      simp [h0]
    · rename_i hb
      rw [List.count_cons_of_ne (fun h => hb h.symm)] at h
      simp only [List.mem_cons, not_or]
      exact ⟨fun h => hb h.symm, ih h⟩

theorem not_tracked_after_remove (env : Env) (w : World) (hI : Inv env w) (e : Nat) :
    some e ∉ (RemoveEntity w e).tweener.Entities := by
  unfold RemoveEntity
  split
  · rename_i h
    intro hm
    have := (hI.tw_live e hm).2
    rw [h] at this
    exact absurd this (by decide)
  · exact not_mem_clearFirst _ e (hI.tw_once e)

theorem mem_RemoveEntity (w : World) (e a : Nat)
    (h : some a ∈ (RemoveEntity w e).tweener.Entities) : some a ∈ w.tweener.Entities := by
  unfold RemoveEntity at h
  split at h
  · exact h
  · by_cases hae : a = e
    · subst hae
      by_contra hc
      have h0 : w.tweener.Entities.count (some a) ≤ 1 := by
        rw [List.count_eq_zero.2 hc]
        omega
      exact not_mem_clearFirst _ a h0 h
    · exact (mem_clearFirst_of_ne _ e a hae).1 h

theorem count_RemoveEntity_le (w : World) (e a : Nat) :
    (RemoveEntity w e).tweener.Entities.count (some a) ≤ w.tweener.Entities.count (some a) := by
  unfold RemoveEntity
  split
  · exact Nat.le_refl _
  · exact count_clearFirst_le _ e a

theorem not_mem_free_of_live (env : Env) (w : World) (hI : RegInv env w) (e : Nat)
    (hl : (w._spriteList e).type ≠ EntityType.Null) : e ∉ w._freeIdList := by
  intro h
  exact hl ((hI.free_mem e).1 h).2

theorem RegInv_sprite_remove (env : Env) (w : World) (hI : RegInv env w) (e : Nat)
    (he : e < env.MAX_ENTITIES) (hl : (w._spriteList e).type ≠ EntityType.Null) :
    RegInv env (sprite_remove env w e) := by
  rw [sprite_remove_eq env w hI e he hl]
  have hnf := not_mem_free_of_live env w hI e hl
  refine ⟨?_, ?_, ?_, ?_, ?_, ?_, ?_, ?_⟩
  · intro i hi
    by_cases h : i = e
    · subst h
      simp [nullSprite]
    · simp only [Function.update_noteq h]
      exact hI.idx i hi
  · intro i hi
    by_cases h : i = e
    · subst h
      simp [nullSprite, zeroSprite, IsInt16]
    · simp only [Function.update_noteq h]
      exact hI.rng i hi
  · exact pairwise_free_insert _ hI.free_desc e hnf
  · intro i
    simp only
    rw [mem_free_insert _ hI.free_desc]
    by_cases h : i = e
    · subst h
      simp [nullSprite, he]
    · simp only [Function.update_noteq h, h, false_or]
      exact hI.free_mem i
  · intro t
    by_cases h : t = (w._spriteList e).type
    · subst h
      simp only [Function.update_same]
      exact (hI.list_asc _).filter _
    · simp only [Function.update_noteq h]
      exact hI.list_asc t
  · intro t i
    by_cases h : t = (w._spriteList e).type
    · subst h
      simp only [Function.update_same, List.mem_filter, decide_eq_true_eq]
      by_cases h2 : i = e
      · subst h2
        simp [nullSprite, Ne.symm hl]
      · simp only [Function.update_noteq h2, ne_eq, h2, not_false_eq_true, and_true]
        exact hI.list_mem _ i
    · simp only [Function.update_noteq h]
      by_cases h2 : i = e
      · subst h2
        simp only [Function.update_same, nullSprite]
        constructor
        · intro hm
          exact absurd ((hI.list_mem t i).1 hm).2.1.symm h
        · intro hm
          exact absurd hm.2.1.symm hm.2.2
      · simp only [Function.update_noteq h2]
        exact hI.list_mem t i
  · intro b
    by_cases h : b = GetSpatialIndexOffset (w._spriteList e).x (w._spriteList e).y
    · subst h
      simp only [Function.update_same]
      exact (hI.bucket_asc _).filter _
    · simp only [Function.update_noteq h]
      exact hI.bucket_asc b
  · intro b i
    by_cases h2 : i = e
    · subst h2
      simp only [Function.update_same, nullSprite, ne_eq, not_true_eq_false, false_and, and_false,
        iff_false]
      by_cases h : b = GetSpatialIndexOffset (w._spriteList i).x (w._spriteList i).y
      · subst h
        simp
      · simp only [Function.update_noteq h]
        intro hm
        exact h ((hI.bucket_mem b i).1 hm).2.2.symm
    · simp only [Function.update_noteq h2]
      by_cases h : b = GetSpatialIndexOffset (w._spriteList e).x (w._spriteList e).y
      · subst h
        simp only [Function.update_same, List.mem_filter, decide_eq_true_eq, ne_eq, h2,
          not_false_eq_true, and_true]
        exact hI.bucket_mem _ i
      · simp only [Function.update_noteq h]
        exact hI.bucket_mem b i

theorem Inv_sprite_remove (env : Env) (w : World) (hI : Inv env w) (e : Nat)
    (he : e < env.MAX_ENTITIES) (hl : (w._spriteList e).type ≠ EntityType.Null) :
    Inv env (sprite_remove env w e) := by
  refine ⟨RegInv_sprite_remove env w hI.toRegInv e he hl, ?_, ?_⟩
  · intro a
    rw [sprite_remove_eq env w hI.toRegInv e he hl]
    exact Nat.le_trans (count_RemoveEntity_le w e a) (hI.tw_once a)
  · intro a ha
    rw [sprite_remove_eq env w hI.toRegInv e he hl] at ha ⊢
    have hne : a ≠ e := by
      intro h
      subst h
      exact not_tracked_after_remove env w hI a ha
    simp only [Function.update_noteq hne]
    exact hI.tw_live a (mem_RemoveEntity w e a ha)

/-! ## Reset -/

theorem foldl_preserve {α : Type} (P : World → Prop) (f : World → α → World)
    (hf : ∀ w a, P w → P (f w a)) : ∀ (l : List α) (w : World), P w → P (l.foldl f w) := by
  intro l
  induction l with
  | nil => intro w h; exact h
  | cons a t ih => intro w h; exact ih _ (hf w a h)

/-- The rebuild of the spatial index changes the buckets only. -/
theorem reset_sprite_spatial_index_frame (env : Env) (w : World) :
    (reset_sprite_spatial_index env w)._spriteList = w._spriteList ∧
    (reset_sprite_spatial_index env w).gEntityLists = w.gEntityLists ∧
    (reset_sprite_spatial_index env w)._freeIdList = w._freeIdList ∧
    (reset_sprite_spatial_index env w)._spriteFlashingList = w._spriteFlashingList ∧
    (reset_sprite_spatial_index env w).tweener = w.tweener ∧
    (reset_sprite_spatial_index env w).invalidated = w.invalidated ∧
    (reset_sprite_spatial_index env w).gSavedAge = w.gSavedAge := by
  unfold reset_sprite_spatial_index
  apply foldl_preserve (fun acc => acc._spriteList = w._spriteList ∧
    acc.gEntityLists = w.gEntityLists ∧ acc._freeIdList = w._freeIdList ∧
    acc._spriteFlashingList = w._spriteFlashingList ∧ acc.tweener = w.tweener ∧
    acc.invalidated = w.invalidated ∧ acc.gSavedAge = w.gSavedAge)
  · intro acc i h
    split
    · split
      · exact h
      · exact h
    · exact h
  · exact ⟨rfl, rfl, rfl, rfl, rfl, rfl, rfl⟩

theorem reset_sprite_spatial_index_of_null (env : Env) (w : World)
    (h : ∀ i, i < env.MAX_ENTITIES → (w._spriteList i).type = EntityType.Null) :
    reset_sprite_spatial_index env w = { w with gSpriteSpatialIndex := fun _ => [] } := by
  unfold reset_sprite_spatial_index
  apply foldl_preserve (fun acc => acc = { w with gSpriteSpatialIndex := fun _ => [] })
  · intro acc i hacc
    subst hacc
    cases hg : GetEntity env i with
    | none => rfl
    | some e =>
      have := (GetEntity_eq_some env i e).1 hg
      simp only [h e (this.2 ▸ this.1), ne_eq, not_true_eq_false, if_false]
  · rfl

theorem reset_sprite_list_eq (env : Env) (w : World) :
    reset_sprite_list env w =
      { _spriteList := fun i => if i < env.MAX_ENTITIES then nullSprite i else w._spriteList i
        gEntityLists := fun _ => []
        _freeIdList := (List.range env.MAX_ENTITIES).reverse
        _spriteFlashingList := fun i => if i < env.MAX_ENTITIES then false else w._spriteFlashingList i
        gSpriteSpatialIndex := fun _ => []
        tweener := w.tweener
        invalidated := w.invalidated
        gSavedAge := 0 } := by
  have hcap := env.max_entities_le
  unfold reset_sprite_list
  simp only
  rw [reset_sprite_spatial_index_of_null]
  · simp only [ResetFreeIds, ResetEntityLists, World.mk.injEq, and_true, true_and]
    constructor
    · funext i
      by_cases hi : i < env.MAX_ENTITIES
      · simp only [hi, if_true, nullSprite, GetEntity_of_lt env i hi]
        rw [toUInt16_of_lt i (by omega)]
      · simp only [hi, if_false]
    · funext i
      by_cases hi : i < env.MAX_ENTITIES
      · simp only [hi, if_true, GetEntity_of_lt env i hi]
      · simp only [hi, if_false]
  · intro i hi
    simp only [ResetFreeIds, ResetEntityLists, hi, if_true, GetEntity_of_lt env i hi]

theorem RegInv_reset_sprite_list (env : Env) (w : World) :
    RegInv env (reset_sprite_list env w) := by
  rw [reset_sprite_list_eq]
  refine ⟨?_, ?_, ?_, ?_, ?_, ?_, ?_, ?_⟩
  · intro i hi
    simp [hi, nullSprite]
  · intro i hi
    simp [hi, nullSprite, zeroSprite, IsInt16]
  · simp only
    rw [List.pairwise_reverse]
    exact List.pairwise_lt_range _
  · intro i
    simp only [List.mem_reverse, List.mem_range]
    constructor
    · intro hi
      simp [hi, nullSprite]
    · intro hi
      exact hi.1
  · intro t
    exact List.Pairwise.nil
  · intro t i
    simp only [List.not_mem_nil, false_iff, not_and, not_not]
    intro hi ht
    simp only [hi, if_true, nullSprite] at ht
    exact ht.symm
  · intro b
    exact List.Pairwise.nil
  · intro b i
    simp only [List.not_mem_nil, false_iff, not_and]
    intro hi ht
    simp [hi, nullSprite] at ht

theorem Inv_reset_sprite_list (env : Env) (w : World) (h : ∀ e, some e ∉ w.tweener.Entities) :
    Inv env (reset_sprite_list env w) := by
  refine ⟨RegInv_reset_sprite_list env w, ?_, ?_⟩
  · intro e
    rw [reset_sprite_list_eq]
    rw [List.count_eq_zero.2 (h e)]
    omega
  · intro e he
    rw [reset_sprite_list_eq] at he
    exact absurd he (h e)

/-! ## Moving -/

theorem Invalidate_frame (w : World) (e : Nat) :
    (Invalidate w e)._spriteList = w._spriteList ∧
    (Invalidate w e).gEntityLists = w.gEntityLists ∧
    (Invalidate w e)._freeIdList = w._freeIdList ∧
    (Invalidate w e)._spriteFlashingList = w._spriteFlashingList ∧
    (Invalidate w e).gSpriteSpatialIndex = w.gSpriteSpatialIndex ∧
    (Invalidate w e).tweener = w.tweener ∧
    (Invalidate w e).gSavedAge = w.gSavedAge := by
  unfold Invalidate
  simp only
  split
  · exact ⟨rfl, rfl, rfl, rfl, rfl, rfl, rfl⟩
  · exact ⟨rfl, rfl, rfl, rfl, rfl, rfl, rfl⟩

/-- The consistency of the registry does not look at the invalidation log. -/
theorem RegInv_of_fields (env : Env) (w w1 : World) (hI : RegInv env w)
    (h1 : w1._spriteList = w._spriteList) (h2 : w1.gEntityLists = w.gEntityLists)
    (h3 : w1._freeIdList = w._freeIdList) (h4 : w1.gSpriteSpatialIndex = w.gSpriteSpatialIndex) :
    RegInv env w1 := by
  refine ⟨?_, ?_, ?_, ?_, ?_, ?_, ?_, ?_⟩
  · rw [h1]; exact hI.idx
  · rw [h1]; exact hI.rng
  · rw [h3]; exact hI.free_desc
  · rw [h1, h3]; exact hI.free_mem
  · rw [h2]; exact hI.list_asc
  · rw [h1, h2]; exact hI.list_mem
  · rw [h4]; exact hI.bucket_asc
  · rw [h1, h4]; exact hI.bucket_mem

theorem SpriteSpatialRemove_frame (env : Env) (w : World) (e : Nat) :
    (SpriteSpatialRemove env w e)._spriteList = w._spriteList ∧
    (SpriteSpatialRemove env w e).gEntityLists = w.gEntityLists ∧
    (SpriteSpatialRemove env w e)._freeIdList = w._freeIdList ∧
    (SpriteSpatialRemove env w e)._spriteFlashingList = w._spriteFlashingList ∧
    (SpriteSpatialRemove env w e).tweener = w.tweener ∧
    (SpriteSpatialRemove env w e).invalidated = w.invalidated ∧
    (SpriteSpatialRemove env w e).gSavedAge = w.gSavedAge := by
  unfold SpriteSpatialRemove
  simp only
  split
  · exact ⟨rfl, rfl, rfl, rfl, rfl, rfl, rfl⟩
  · exact reset_sprite_spatial_index_frame env w

theorem SpriteSpatialMove_frame (env : Env) (w : World) (e : Nat) (x y : Int) :
    (SpriteSpatialMove env w e x y)._spriteList = w._spriteList ∧
    (SpriteSpatialMove env w e x y).gEntityLists = w.gEntityLists ∧
    (SpriteSpatialMove env w e x y)._freeIdList = w._freeIdList ∧
    (SpriteSpatialMove env w e x y)._spriteFlashingList = w._spriteFlashingList ∧
    (SpriteSpatialMove env w e x y).tweener = w.tweener ∧
    (SpriteSpatialMove env w e x y).invalidated = w.invalidated ∧
    (SpriteSpatialMove env w e x y).gSavedAge = w.gSavedAge := by
  unfold SpriteSpatialMove
  simp only
  split
  · exact ⟨rfl, rfl, rfl, rfl, rfl, rfl, rfl⟩
  · exact SpriteSpatialRemove_frame env w e

theorem SpriteSpatialMove_index (env : Env) (w : World) (hI : RegInv env w) (e : Nat)
    (he : e < env.MAX_ENTITIES) (hl : (w._spriteList e).type ≠ EntityType.Null) (x y : Int) :
    (SpriteSpatialMove env w e x y).gSpriteSpatialIndex = movedIndex w e x y := by
  have hidx := hI.idx e he
  have hm : e ∈ w.gSpriteSpatialIndex (GetSpatialIndexOffset (w._spriteList e).x
      (w._spriteList e).y) := (hI.bucket_mem _ e).2 ⟨he, hl, rfl⟩
  have hf := (get?_lower_bound _ (hI.bucket_asc _) e).2 hm
  have he2 := eraseIdx_lower_bound _ (hI.bucket_asc _) e hm
  unfold SpriteSpatialMove movedIndex
  simp only
  split
  · rfl
  · rename_i hne
    simp only [SpriteSpatialInsert, SpriteSpatialRemove, hidx, hf, he2, if_true,
      Function.update_noteq hne]

theorem MoveTo_eq (env : Env) (w : World) (e : Nat) (p : CoordsXYZ) :
    MoveTo env w e p =
      if (moveLoc env p).x = LOCATION_NULL then
        { SpriteSpatialMove env (if (w._spriteList e).x ≠ LOCATION_NULL then Invalidate w e else w)
            e (moveLoc env p).x (moveLoc env p).y with
          _spriteList := Function.update w._spriteList e
            (movedSprite env (w._spriteList e) (moveLoc env p)) }
      else
        Invalidate
          { SpriteSpatialMove env (if (w._spriteList e).x ≠ LOCATION_NULL then Invalidate w e else w)
              e (moveLoc env p).x (moveLoc env p).y with
            _spriteList := Function.update w._spriteList e
              (movedSprite env (w._spriteList e) (moveLoc env p)) } e := by
  have hs : (SpriteSpatialMove env (if (w._spriteList e).x ≠ LOCATION_NULL then Invalidate w e
      else w) e (moveLoc env p).x (moveLoc env p).y)._spriteList = w._spriteList := by
    rw [(SpriteSpatialMove_frame env _ e _ _).1]
    split
    · exact (Invalidate_frame w e).1
    · rfl
  unfold MoveTo
  simp only
  by_cases hx : (moveLoc env p).x = LOCATION_NULL
  · rw [if_pos hx, if_pos hx, hs]
    simp only [movedSprite, hx, if_true]
  · rw [if_neg hx, if_neg hx]
    unfold sprite_set_coordinates
    simp only
    rw [hs]
    simp only [movedSprite, hx, if_false]

theorem MoveTo_frame (env : Env) (w : World) (e : Nat) (p : CoordsXYZ) :
    (MoveTo env w e p)._spriteList =
      Function.update w._spriteList e (movedSprite env (w._spriteList e) (moveLoc env p)) ∧
    (MoveTo env w e p).gEntityLists = w.gEntityLists ∧
    (MoveTo env w e p)._freeIdList = w._freeIdList ∧
    (MoveTo env w e p)._spriteFlashingList = w._spriteFlashingList ∧
    (MoveTo env w e p).tweener = w.tweener ∧
    (MoveTo env w e p).gSavedAge = w.gSavedAge := by
  have h2 := SpriteSpatialMove_frame env
    (if (w._spriteList e).x ≠ LOCATION_NULL then Invalidate w e else w) e
    (moveLoc env p).x (moveLoc env p).y
  have h1 : (if (w._spriteList e).x ≠ LOCATION_NULL then Invalidate w e else w).gEntityLists =
        w.gEntityLists ∧
      (if (w._spriteList e).x ≠ LOCATION_NULL then Invalidate w e else w)._freeIdList =
        w._freeIdList ∧
      (if (w._spriteList e).x ≠ LOCATION_NULL then Invalidate w e else w)._spriteFlashingList =
        w._spriteFlashingList ∧
      (if (w._spriteList e).x ≠ LOCATION_NULL then Invalidate w e else w).tweener = w.tweener ∧
      (if (w._spriteList e).x ≠ LOCATION_NULL then Invalidate w e else w).gSavedAge =
        w.gSavedAge := by
    have := Invalidate_frame w e
    split
    · exact ⟨this.2.1, this.2.2.1, this.2.2.2.1, this.2.2.2.2.2.1, this.2.2.2.2.2.2⟩
    · exact ⟨rfl, rfl, rfl, rfl, rfl⟩
  rw [MoveTo_eq]
  split
  · exact ⟨rfl, h2.2.1.trans h1.1, h2.2.2.1.trans h1.2.1, h2.2.2.2.1.trans h1.2.2.1,
      h2.2.2.2.2.1.trans h1.2.2.2.1, h2.2.2.2.2.2.2.trans h1.2.2.2.2⟩
  · have h3 := Invalidate_frame
      { SpriteSpatialMove env (if (w._spriteList e).x ≠ LOCATION_NULL then Invalidate w e else w)
          e (moveLoc env p).x (moveLoc env p).y with
        _spriteList := Function.update w._spriteList e
          (movedSprite env (w._spriteList e) (moveLoc env p)) } e
    exact ⟨h3.1, h3.2.1.trans (h2.2.1.trans h1.1), h3.2.2.1.trans (h2.2.2.1.trans h1.2.1),
      h3.2.2.2.1.trans (h2.2.2.2.1.trans h1.2.2.1),
      h3.2.2.2.2.2.1.trans (h2.2.2.2.2.1.trans h1.2.2.2.1),
      h3.2.2.2.2.2.2.trans (h2.2.2.2.2.2.2.trans h1.2.2.2.2)⟩

theorem MoveTo_index (env : Env) (w : World) (hI : RegInv env w) (e : Nat)
    (he : e < env.MAX_ENTITIES) (hl : (w._spriteList e).type ≠ EntityType.Null) (p : CoordsXYZ) :
    (MoveTo env w e p).gSpriteSpatialIndex = movedIndex w e (moveLoc env p).x (moveLoc env p).y := by
  have hw1 : ∀ w1 : World, w1._spriteList = w._spriteList → w1.gEntityLists = w.gEntityLists →
      w1._freeIdList = w._freeIdList → w1.gSpriteSpatialIndex = w.gSpriteSpatialIndex →
      (SpriteSpatialMove env w1 e (moveLoc env p).x (moveLoc env p).y).gSpriteSpatialIndex =
        movedIndex w e (moveLoc env p).x (moveLoc env p).y := by
    intro w1 h1 h2 h3 h4
    have hI1 := RegInv_of_fields env w w1 hI h1 h2 h3 h4
    rw [SpriteSpatialMove_index env w1 hI1 e he (by rw [h1]; exact hl)]
    unfold movedIndex
    rw [h1, h4]
  have h0 : (SpriteSpatialMove env (if (w._spriteList e).x ≠ LOCATION_NULL then Invalidate w e
      else w) e (moveLoc env p).x (moveLoc env p).y).gSpriteSpatialIndex =
      movedIndex w e (moveLoc env p).x (moveLoc env p).y := by
    split
    · have f := Invalidate_frame w e
      exact hw1 _ f.1 f.2.1 f.2.2.1 f.2.2.2.2.1
    · exact hw1 w rfl rfl rfl rfl
  rw [MoveTo_eq]
  split
  · exact h0
  · exact (Invalidate_frame _ e).2.2.2.2.1.trans h0

theorem moveLoc_cases (env : Env) (p : CoordsXYZ) :
    (env.map_is_location_valid p.x p.y = false ∧
        moveLoc env p = { x := LOCATION_NULL, y := p.y, z := p.z }) ∨
      (env.map_is_location_valid p.x p.y = true ∧ moveLoc env p = p ∧
        0 ≤ p.x ∧ p.x < 8192 ∧ 0 ≤ p.y ∧ p.y < 8192) := by
  unfold moveLoc
  cases hv : env.map_is_location_valid p.x p.y
  · left
    simp
  · right
    have := env.valid_in_range p.x p.y hv
    simp only [MAXIMUM_MAP_SIZE_TECHNICAL, Nat.cast_ofNat] at this
    refine ⟨rfl, by simp, ?_, ?_, ?_, ?_⟩ <;> omega

theorem moveLoc_range (env : Env) (p : CoordsXYZ) :
    (moveLoc env p).x = LOCATION_NULL ∨
      (0 ≤ (moveLoc env p).x ∧ (moveLoc env p).x < 8192 ∧
        0 ≤ (moveLoc env p).y ∧ (moveLoc env p).y < 8192) := by
  rcases moveLoc_cases env p with ⟨_, h⟩ | ⟨_, h, hr⟩
  · left
    rw [h]
  · right
    rw [h]
    exact hr

theorem movedSprite_type (env : Env) (s : SpriteBase) (loc : CoordsXYZ) :
    (movedSprite env s loc).type = s.type := by
  unfold movedSprite
  split <;> rfl

theorem movedSprite_sprite_index (env : Env) (s : SpriteBase) (loc : CoordsXYZ) :
    (movedSprite env s loc).sprite_index = s.sprite_index := by
  unfold movedSprite
  split <;> rfl

theorem movedSprite_x (env : Env) (s : SpriteBase) (loc : CoordsXYZ) :
    (movedSprite env s loc).x = toInt16 loc.x := by
  unfold movedSprite
  split <;> rfl

theorem movedSprite_y (env : Env) (s : SpriteBase) (loc : CoordsXYZ) :
    (movedSprite env s loc).y = toInt16 loc.y := by
  unfold movedSprite
  split <;> rfl

theorem movedSprite_z (env : Env) (s : SpriteBase) (loc : CoordsXYZ) :
    (movedSprite env s loc).z = toInt16 loc.z := by
  unfold movedSprite
  split <;> rfl

theorem movedSprite_offset (env : Env) (s : SpriteBase) (p : CoordsXYZ) :
    GetSpatialIndexOffset (movedSprite env s (moveLoc env p)).x
        (movedSprite env s (moveLoc env p)).y =
      GetSpatialIndexOffset (moveLoc env p).x (moveLoc env p).y := by
  rw [movedSprite_x, movedSprite_y]
  exact offset_toInt16 _ _ (moveLoc_range env p)

theorem movedIndex_asc (env : Env) (w : World) (hI : RegInv env w) (e : Nat) (x y : Int) (b : Nat) :
    (movedIndex w e x y b).Pairwise (· < ·) := by
  unfold movedIndex
  split
  · exact hI.bucket_asc b
  · rename_i hne
    by_cases h1 : b = GetSpatialIndexOffset x y
    · subst h1
      simp only [Function.update_same]
      apply pairwise_insertAt_lower_bound _ (hI.bucket_asc _)
      intro hm
      exact hne ((hI.bucket_mem _ e).1 hm).2.2.symm
    · simp only [Function.update_noteq h1]
      by_cases h2 : b = GetSpatialIndexOffset (w._spriteList e).x (w._spriteList e).y
      · subst h2
        simp only [Function.update_same]
        exact (hI.bucket_asc _).filter _
      · simp only [Function.update_noteq h2]
        exact hI.bucket_asc b

theorem mem_movedIndex_self (env : Env) (w : World) (hI : RegInv env w) (e : Nat)
    (he : e < env.MAX_ENTITIES) (hl : (w._spriteList e).type ≠ EntityType.Null) (x y : Int)
    (b : Nat) : e ∈ movedIndex w e x y b ↔ GetSpatialIndexOffset x y = b := by
  unfold movedIndex
  split
  · rename_i heq
    rw [hI.bucket_mem b e, heq]
    simp [he, hl]
  · rename_i hne
    by_cases h1 : b = GetSpatialIndexOffset x y
    · subst h1
      simp only [Function.update_same, mem_insertAt_lower_bound _ (hI.bucket_asc _), true_or]
    · simp only [Function.update_noteq h1]
      have h1' : ¬ GetSpatialIndexOffset x y = b := fun h => h1 h.symm
      simp only [h1', iff_false]
      by_cases h2 : b = GetSpatialIndexOffset (w._spriteList e).x (w._spriteList e).y
      · subst h2
        simp
      · simp only [Function.update_noteq h2]
        intro hm
        exact h2 ((hI.bucket_mem b e).1 hm).2.2.symm

theorem mem_movedIndex_other (env : Env) (w : World) (hI : RegInv env w) (e : Nat) (x y : Int)
    (b i : Nat) (hi : i ≠ e) : i ∈ movedIndex w e x y b ↔ i ∈ w.gSpriteSpatialIndex b := by
  unfold movedIndex
  split
  · rfl
  · by_cases h1 : b = GetSpatialIndexOffset x y
    · subst h1
      simp only [Function.update_same, mem_insertAt_lower_bound _ (hI.bucket_asc _), hi, false_or]
    · simp only [Function.update_noteq h1]
      by_cases h2 : b = GetSpatialIndexOffset (w._spriteList e).x (w._spriteList e).y
      · subst h2
        simp [hi]
      · simp only [Function.update_noteq h2]

theorem MoveTo_type (env : Env) (w : World) (e : Nat) (p : CoordsXYZ) (i : Nat) :
    ((MoveTo env w e p)._spriteList i).type = (w._spriteList i).type := by
  rw [(MoveTo_frame env w e p).1]
  by_cases h : i = e
  · subst h
    simp only [Function.update_same, movedSprite_type]
  · simp only [Function.update_noteq h]

theorem RegInv_MoveTo (env : Env) (w : World) (hI : RegInv env w) (e : Nat)
    (he : e < env.MAX_ENTITIES) (hl : (w._spriteList e).type ≠ EntityType.Null) (p : CoordsXYZ) :
    RegInv env (MoveTo env w e p) := by
  have hf := MoveTo_frame env w e p
  have hb := MoveTo_index env w hI e he hl p
  have hty : ∀ i, ((MoveTo env w e p)._spriteList i).type = (w._spriteList i).type := by
    intro i
    rw [hf.1]
    by_cases h : i = e
    · subst h
      simp only [Function.update_same, movedSprite_type]
    · simp only [Function.update_noteq h]
  refine ⟨?_, ?_, ?_, ?_, ?_, ?_, ?_, ?_⟩
  · intro i hi
    rw [hf.1]
    by_cases h : i = e
    · subst h
      simp only [Function.update_same, movedSprite_sprite_index]
      exact hI.idx i hi
    · simp only [Function.update_noteq h]
      exact hI.idx i hi
  · intro i hi
    rw [hf.1]
    by_cases h : i = e
    · subst h
      simp only [Function.update_same, movedSprite_x, movedSprite_y, movedSprite_z]
      exact ⟨isInt16_toInt16 _, isInt16_toInt16 _, isInt16_toInt16 _⟩
    · simp only [Function.update_noteq h]
      exact hI.rng i hi
  · rw [hf.2.2.1]
    exact hI.free_desc
  · intro i
    rw [hf.2.2.1, hty]
    exact hI.free_mem i
  · rw [hf.2.1]
    exact hI.list_asc
  · intro t i
    rw [hf.2.1, hty]
    exact hI.list_mem t i
  · intro b
    rw [hb]
    exact movedIndex_asc env w hI e _ _ b
  · intro b i
    rw [hb, hty]
    by_cases h : i = e
    · subst h
      rw [mem_movedIndex_self env w hI i he hl, hf.1]
      simp only [Function.update_same, movedSprite_offset]
      simp [he, hl]
    · rw [mem_movedIndex_other env w hI e _ _ b i h, hf.1]
      simp only [Function.update_noteq h]
      exact hI.bucket_mem b i

theorem Inv_MoveTo (env : Env) (w : World) (hI : Inv env w) (e : Nat)
    (he : e < env.MAX_ENTITIES) (hl : (w._spriteList e).type ≠ EntityType.Null) (p : CoordsXYZ) :
    Inv env (MoveTo env w e p) := by
  have hf := MoveTo_frame env w e p
  refine ⟨RegInv_MoveTo env w hI.toRegInv e he hl p, ?_, ?_⟩
  · rw [hf.2.2.2.2.1]
    exact hI.tw_once
  · intro a ha
    rw [hf.2.2.2.2.1] at ha
    rw [MoveTo_type]
    exact hI.tw_live a ha

/-! ## The tweener snapshots -/

theorem RegInv_of_core (env : Env) (w w1 : World) (hI : RegInv env w)
    (hs : ∀ i, (w1._spriteList i).type = (w._spriteList i).type ∧
      (w1._spriteList i).sprite_index = (w._spriteList i).sprite_index ∧
      (w1._spriteList i).x = (w._spriteList i).x ∧ (w1._spriteList i).y = (w._spriteList i).y ∧
      (w1._spriteList i).z = (w._spriteList i).z)
    (h2 : w1.gEntityLists = w.gEntityLists) (h3 : w1._freeIdList = w._freeIdList)
    (h4 : w1.gSpriteSpatialIndex = w.gSpriteSpatialIndex) : RegInv env w1 := by
  refine ⟨?_, ?_, ?_, ?_, ?_, ?_, ?_, ?_⟩
  · intro i hi
    rw [(hs i).2.1]
    exact hI.idx i hi
  · intro i hi
    rw [(hs i).2.2.1, (hs i).2.2.2.1, (hs i).2.2.2.2]
    exact hI.rng i hi
  · rw [h3]
    exact hI.free_desc
  · intro i
    rw [h3, (hs i).1]
    exact hI.free_mem i
  · rw [h2]
    exact hI.list_asc
  · intro t i
    rw [h2, (hs i).1]
    exact hI.list_mem t i
  · rw [h4]
    exact hI.bucket_asc
  · intro b i
    rw [h4, (hs i).1, (hs i).2.2.1, (hs i).2.2.2.1]
    exact hI.bucket_mem b i

theorem Inv_of_core (env : Env) (w w1 : World) (hI : Inv env w)
    (hs : ∀ i, (w1._spriteList i).type = (w._spriteList i).type ∧
      (w1._spriteList i).sprite_index = (w._spriteList i).sprite_index ∧
      (w1._spriteList i).x = (w._spriteList i).x ∧ (w1._spriteList i).y = (w._spriteList i).y ∧
      (w1._spriteList i).z = (w._spriteList i).z)
    (h2 : w1.gEntityLists = w.gEntityLists) (h3 : w1._freeIdList = w._freeIdList)
    (h4 : w1.gSpriteSpatialIndex = w.gSpriteSpatialIndex)
    (h5 : ∀ e, w1.tweener.Entities.count (some e) ≤ 1)
    (h6 : ∀ e, some e ∈ w1.tweener.Entities →
      e < env.MAX_ENTITIES ∧ isPeepOrVehicle (w._spriteList e).type = true) : Inv env w1 := by
  refine ⟨RegInv_of_core env w w1 hI.toRegInv hs h2 h3 h4, h5, ?_⟩
  intro e he
  rw [(hs e).1]
  exact h6 e he

theorem Inv_PostTick (env : Env) (w : World) (hI : Inv env w) : Inv env (PostTick w) :=
  Inv_of_core env w (PostTick w) hI (fun _ => ⟨rfl, rfl, rfl, rfl, rfl⟩) rfl rfl rfl
    hI.tw_once hI.tw_live

/-- One step of `Restore` on an entity that stands at the snapshot written back:
only the screen box of the slot and the invalidation log change. -/
theorem restore_step_core (env : Env) (w : World) (e : Nat)
    (hr : IsInt16 (w._spriteList e).x ∧ IsInt16 (w._spriteList e).y ∧ IsInt16 (w._spriteList e).z) :
    SameButBox w (Invalidate (sprite_set_coordinates env w (GetLocation (w._spriteList e)) e) e) := by
  have hf := Invalidate_frame (sprite_set_coordinates env w (GetLocation (w._spriteList e)) e) e
  refine ⟨hf.2.1, hf.2.2.1, hf.2.2.2.1, hf.2.2.2.2.1, hf.2.2.2.2.2.1, hf.2.2.2.2.2.2, ?_⟩
  intro i
  rw [hf.1]
  unfold sprite_set_coordinates
  simp only
  by_cases h : i = e
  · subst h
    simp only [Function.update_same, GetLocation, toInt16_of_isInt16 _ hr.1,
      toInt16_of_isInt16 _ hr.2.1, toInt16_of_isInt16 _ hr.2.2, and_self]
  · simp only [Function.update_noteq h, and_self]

theorem SameButBox_refl (w : World) : SameButBox w w :=
  ⟨rfl, rfl, rfl, rfl, rfl, rfl, fun _ => ⟨rfl, rfl, rfl, rfl, rfl, rfl, rfl, rfl, rfl⟩⟩

theorem SameButBox_trans (a b c : World) (h1 : SameButBox a b) (h2 : SameButBox b c) :
    SameButBox a c := by
  obtain ⟨a1, a2, a3, a4, a5, a6, a7⟩ := h1
  obtain ⟨b1, b2, b3, b4, b5, b6, b7⟩ := h2
  refine ⟨b1.trans a1, b2.trans a2, b3.trans a3, b4.trans a4, b5.trans a5, b6.trans a6, ?_⟩
  intro i
  obtain ⟨c1, c2, c3, c4, c5, c6, c7, c8, c9⟩ := a7 i
  obtain ⟨d1, d2, d3, d4, d5, d6, d7, d8, d9⟩ := b7 i
  exact ⟨d1.trans c1, d2.trans c2, d3.trans c3, d4.trans c4, d5.trans c5, d6.trans c6,
    d7.trans c7, d8.trans c8, d9.trans c9⟩

theorem restoreLoop_core (env : Env) :
    ∀ (es : List (Option Nat)) (ps : List CoordsXYZ) (w : World),
      (∀ k e, es.get? k = some (some e) →
        ps.get? k = some (GetLocation (w._spriteList e)) ∧
          IsInt16 (w._spriteList e).x ∧ IsInt16 (w._spriteList e).y ∧ IsInt16 (w._spriteList e).z) →
      ∃ w1, restoreLoop env es ps w = some w1 ∧ SameButBox w w1 := by
  intro es
  induction es with
  | nil =>
    intro ps w _
    exact ⟨w, rfl, SameButBox_refl w⟩
  | cons a t ih =>
    intro ps w hg
    cases a with
    | none =>
      have := ih ps.tail w (by
        intro k e hk
        have h := hg (k + 1) e (by simpa using hk)
        refine ⟨?_, h.2⟩
        rw [← h.1]
        cases ps <;> simp)
      simpa [restoreLoop] using this
    | some e =>
      have h0 := hg 0 e (by simp)
      cases ps with
      | nil => simp at h0
      | cons p ps1 =>
        have hp : p = GetLocation (w._spriteList e) := by simpa using h0.1
        subst hp
        have hc := restore_step_core env w e h0.2
        have hstep : restoreLoop env (some e :: t) (GetLocation (w._spriteList e) :: ps1) w =
            restoreLoop env t ps1
              (Invalidate (sprite_set_coordinates env w (GetLocation (w._spriteList e)) e) e) := rfl
        rw [hstep]
        generalize Invalidate (sprite_set_coordinates env w (GetLocation (w._spriteList e)) e) e = W
          at hc ⊢
        obtain ⟨w1, hw1, hc1⟩ := ih ps1 W (by
          intro k e1 hk
          have h := hg (k + 1) e1 (by simpa using hk)
          obtain ⟨_, _, _, _, _, _, c7⟩ := hc
          obtain ⟨_, _, c3, c4, c5, _⟩ := c7 e1
          have hgl : GetLocation (W._spriteList e1) = GetLocation (w._spriteList e1) := by
            unfold GetLocation
            rw [c3, c4, c5]
          rw [hgl, c3, c4, c5]
          simpa using h)
        exact ⟨w1, hw1, SameButBox_trans _ _ _ hc hc1⟩

theorem mem_EntityList (env : Env) (w : World) (t : EntityType) (e : Nat) :
    e ∈ EntityList env w t ↔
      e ∈ w.gEntityLists t ∧ e < env.MAX_ENTITIES ∧ (w._spriteList e).type = t := by
  unfold EntityList
  rw [List.mem_filter]
  by_cases h : e < env.MAX_ENTITIES
  · rw [GetEntity_of_lt env e h]
    simp [h]
  · have hn : GetEntity env e = none := by
      cases hg : GetEntity env e with
      | none => rfl
      | some a => exact absurd ((GetEntity_eq_some env e a).1 hg).1 h
    rw [hn]
    simp [h]

theorem nodup_EntityList (env : Env) (w : World) (hI : RegInv env w) (t : EntityType) :
    (EntityList env w t).Nodup := by
  unfold EntityList
  exact (nodup_of_asc _ (hI.list_asc t)).filter _

theorem tracked_nodup (env : Env) (w : World) (hI : RegInv env w) :
    (EntityList env w .Guest ++ (EntityList env w .Staff ++ EntityList env w .Vehicle)).Nodup := by
  rw [List.nodup_append]
  refine ⟨nodup_EntityList env w hI _, ?_, ?_⟩
  · rw [List.nodup_append]
    refine ⟨nodup_EntityList env w hI _, nodup_EntityList env w hI _, ?_⟩
    intro a h1 h2
    have t1 := ((mem_EntityList env w _ a).1 h1).2.2
    have t2 := ((mem_EntityList env w _ a).1 h2).2.2
    rw [t1] at t2
    exact absurd t2 (by decide)
  · intro a h1 h2
    have t1 := ((mem_EntityList env w _ a).1 h1).2.2
    rcases List.mem_append.1 h2 with h | h
    · have t2 := ((mem_EntityList env w _ a).1 h).2.2
      rw [t1] at t2
      exact absurd t2 (by decide)
    · have t2 := ((mem_EntityList env w _ a).1 h).2.2
      rw [t1] at t2
      exact absurd t2 (by decide)

theorem tracked_live (env : Env) (w : World) (e : Nat)
    (h : e ∈ EntityList env w .Guest ++ (EntityList env w .Staff ++ EntityList env w .Vehicle)) :
    e < env.MAX_ENTITIES ∧ isPeepOrVehicle (w._spriteList e).type = true := by
  rcases List.mem_append.1 h with h | h
  · have := (mem_EntityList env w _ e).1 h
    exact ⟨this.2.1, by rw [this.2.2]; rfl⟩
  · rcases List.mem_append.1 h with h | h
    · have := (mem_EntityList env w _ e).1 h
      exact ⟨this.2.1, by rw [this.2.2]; rfl⟩
    · have := (mem_EntityList env w _ e).1 h
      exact ⟨this.2.1, by rw [this.2.2]; rfl⟩

theorem count_map_some (l : List Nat) (e : Nat) : (l.map some).count (some e) = l.count e := by
  induction l with
  | nil => rfl
  | cons a t ih =>
    rw [List.map_cons, List.count_cons, List.count_cons, ih]
    simp

theorem Restore_core (env : Env) (w : World) (hI : Inv env w) (ha : AtPostPos w) :
    ∃ w1, Restore env w = some w1 ∧ SameButBox w w1 := by
  unfold Restore
  apply restoreLoop_core
  intro k e hk
  have hm : some e ∈ w.tweener.Entities := List.get?_mem hk
  exact ⟨ha k e hk, hI.rng e (hI.tw_live e hm).1⟩

theorem Inv_Populate_Reset (env : Env) (w : World) (hI : Inv env w) :
    Inv env (PopulateEntities env (Reset w)) := by
  refine Inv_of_core env w (PopulateEntities env (Reset w)) hI
    (fun _ => ⟨rfl, rfl, rfl, rfl, rfl⟩) rfl rfl rfl ?_ ?_
  · intro e
    have hc : (PopulateEntities env (Reset w)).tweener.Entities.count (some e) =
        (EntityList env w .Guest ++
          (EntityList env w .Staff ++ EntityList env w .Vehicle)).count e :=
      count_map_some _ e
    rw [hc]
    exact List.nodup_iff_count_le_one.1 (tracked_nodup env w hI.toRegInv) e
  · intro e he
    have he2 : some e ∈ (EntityList env w .Guest ++
        (EntityList env w .Staff ++ EntityList env w .Vehicle)).map some := he
    simp only [List.mem_map, Option.some.injEq, exists_eq_right] at he2
    exact tracked_live env w e he2

theorem Inv_SameButBox (env : Env) (w w1 : World) (hI : Inv env w) (h : SameButBox w w1) :
    Inv env w1 := by
  obtain ⟨h1, h2, _, h4, h5, _, h7⟩ := h
  refine Inv_of_core env w w1 hI
    (fun i => ⟨(h7 i).1, (h7 i).2.1, (h7 i).2.2.1, (h7 i).2.2.2.1, (h7 i).2.2.2.2.1⟩) h1 h2 h4
    ?_ ?_
  · rw [h5]
    exact hI.tw_once
  · rw [h5]
    exact hI.tw_live

theorem Inv_PreTick (env : Env) (w w1 : World) (hI : Inv env w) (ha : AtPostPos w)
    (hp : PreTick env w = some w1) : Inv env w1 := by
  obtain ⟨wr, hr, hc⟩ := Restore_core env w hI ha
  unfold PreTick at hp
  rw [hr] at hp
  simp only [Option.some.injEq] at hp
  subst hp
  exact Inv_Populate_Reset env wr (Inv_SameButBox env w wr hI hc)

/-- Every reachable state of the registry is consistent. -/
theorem RegInv_of_RegReachable (env : Env) (w : World) (h : RegReachable env w) :
    RegInv env w := by
  induction h with
  | reset w => exact RegInv_reset_sprite_list env w
  | create w type _ ht ih => exact RegInv_CreateEntity env w ih type ht
  | createAt w index type _ ht ih => exact RegInv_CreateEntityAt env w ih index type ht
  | remove w e _ he hl ih => exact RegInv_sprite_remove env w ih e he hl
  | moveTo w e p _ he hl ih => exact RegInv_MoveTo env w ih e he hl p
  | setFlashing w e flashing _ _ _ ih =>
    exact RegInv_of_fields env w (sprite_set_flashing w e flashing) ih rfl rfl rfl rfl

/-! ## Counting slots -/

theorem length_eq_filter_range (n : Nat) (l : List Nat) (P : Nat → Bool) (hl : l.Nodup)
    (hm : ∀ i, i ∈ l ↔ i < n ∧ P i = true) : l.length = ((List.range n).filter P).length := by
  apply List.Perm.length_eq
  rw [List.perm_ext_iff_of_nodup hl ((List.nodup_range n).filter _)]
  intro i
  rw [hm i, List.mem_filter, List.mem_range]

theorem type_partition (f : Nat → EntityType) (l : List Nat) :
    (l.filter (fun i => decide (f i = EntityType.Null))).length +
      ((allEntityTypes.map (fun t => (l.filter (fun i => decide (f i = t))).length)).sum) =
      l.length := by
  induction l with
  | nil => rfl
  | cons a t ih =>
    simp only [allEntityTypes, List.map_cons, List.map_nil, List.sum_cons, List.sum_nil,
      List.filter_cons, List.length_cons] at ih ⊢
    cases h : f a <;> simp only [reduceCtorEq, decide_False, decide_True, if_true,
      Bool.false_eq_true, if_false, List.length_cons] <;> omega

theorem length_free (env : Env) (w : World) (hI : RegInv env w) :
    w._freeIdList.length = ((List.range env.MAX_ENTITIES).filter
      (fun i => decide ((w._spriteList i).type = EntityType.Null))).length := by
  apply length_eq_filter_range _ _ _ (nodup_of_desc _ hI.free_desc)
  intro i
  rw [hI.free_mem i]
  simp

theorem length_list (env : Env) (w : World) (hI : RegInv env w) (t : EntityType)
    (ht : t ≠ EntityType.Null) :
    (w.gEntityLists t).length = ((List.range env.MAX_ENTITIES).filter
      (fun i => decide ((w._spriteList i).type = t))).length := by
  apply length_eq_filter_range _ _ _ (nodup_of_asc _ (hI.list_asc t))
  intro i
  rw [hI.list_mem t i]
  simp [ht]

/-- The free list and the thirteen per-type lists share out the slots. -/
theorem slots_shared (env : Env) (w : World) (hI : RegInv env w) :
    w._freeIdList.length + (allEntityTypes.map (fun t => (w.gEntityLists t).length)).sum =
      env.MAX_ENTITIES := by
  have h := type_partition (fun i => (w._spriteList i).type) (List.range env.MAX_ENTITIES)
  rw [List.length_range] at h
  rw [length_free env w hI]
  have e : allEntityTypes.map (fun t => (w.gEntityLists t).length) =
      allEntityTypes.map (fun t => ((List.range env.MAX_ENTITIES).filter
        (fun i => decide ((w._spriteList i).type = t))).length) := by
    apply List.map_congr_left
    intro t ht
    apply length_list env w hI t
    intro hn
    subst hn
    exact absurd ht (by decide)
  rw [e]
  exact h

theorem length_le_sum (l : List EntityType) (g : EntityType → Nat) (t : EntityType)
    (h : t ∈ l) : g t ≤ (l.map g).sum := by
  induction l with
  | nil => exact absurd h (List.not_mem_nil t)
  | cons a r ih =>
    rw [List.map_cons, List.sum_cons]
    rcases List.mem_cons.1 h with h1 | h1
    · subst h1
      omega
    · have := ih h1
      omega

theorem length_free_le (env : Env) (w : World) (hI : RegInv env w) :
    w._freeIdList.length ≤ env.MAX_ENTITIES := by
  have := slots_shared env w hI
  omega

theorem length_list_le (env : Env) (w : World) (hI : RegInv env w) (t : EntityType)
    (ht : t ∈ allEntityTypes) : (w.gEntityLists t).length ≤ env.MAX_ENTITIES := by
  have h1 := slots_shared env w hI
  have h2 : (w.gEntityLists t).length ≤
      (allEntityTypes.map (fun t => (w.gEntityLists t).length)).sum :=
    length_le_sum allEntityTypes (fun t => (w.gEntityLists t).length) t ht
  omega

/-! ## Successful creation -/

theorem CreateEntity_some (env : Env) (w : World) (hI : RegInv env w) (type : EntityType) (id : Nat)
    (hc : (CreateEntity env w type).2 = some id) :
    id ∈ w._freeIdList ∧ (∀ j ∈ w._freeIdList, id ≤ j) ∧
      (CreateEntity env w type).1 =
        PrepareNewEntity { w with _freeIdList := w._freeIdList.filter (fun a => decide (a ≠ id)) }
          id type := by
  by_cases hr : w._freeIdList = [] ∨ MiscRefused w type
  · rw [CreateEntity_refused env w type hr] at hc
    exact absurd hc (by simp)
  · rw [not_or] at hr
    rw [CreateEntity_granted env w hI type hr.1 hr.2] at hc ⊢
    simp only [Option.some.injEq] at hc
    have hl := free_last w._freeIdList hI.free_desc hr.1
    rw [hc] at hl
    simp only [hc]
    exact ⟨hl.1, hl.2.1, trivial⟩

theorem CreateEntityAt_some (env : Env) (w : World) (hI : RegInv env w) (index : Nat)
    (type : EntityType) (id : Nat) (hc : (CreateEntityAt env w index type).2 = some id) :
    id = index ∧ id ∈ w._freeIdList ∧
      (CreateEntityAt env w index type).1 =
        PrepareNewEntity { w with _freeIdList := w._freeIdList.filter (fun a => decide (a ≠ id)) }
          id type := by
  by_cases hm : index ∈ w._freeIdList
  · rw [CreateEntityAt_granted env w hI index type hm] at hc ⊢
    simp only [Option.some.injEq] at hc
    subst hc
    exact ⟨rfl, hm, rfl⟩
  · rw [CreateEntityAt_refused env w hI index type hm] at hc
    exact absurd hc (by simp)

/-! ## What creation and removal leave behind -/

theorem filter_ne_of_not_mem (l : List Nat) (e : Nat) (h : e ∉ l) :
    l.filter (fun a => decide (a ≠ e)) = l := by
  rw [List.filter_eq_self]
  intro a ha
  have : a ≠ e := fun h2 => h (h2 ▸ ha)
  simpa using this

/-- The world after a successful creation, on a consistent registry. -/
theorem prepare_post (env : Env) (w : World) (hI : RegInv env w) (id : Nat) (type : EntityType)
    (hid : id ∈ w._freeIdList) (w1 : World)
    (hw : w1 = PrepareNewEntity
      { w with _freeIdList := w._freeIdList.filter (fun a => decide (a ≠ id)) } id type) :
    w1._spriteList id = preparedSprite id type ∧
    (w._spriteList id).sprite_index = id ∧
    w1._spriteFlashingList id = false ∧
    (w1.gEntityLists type).count id = 1 ∧
    (∀ t, t ≠ type → id ∉ w1.gEntityLists t) ∧
    (w1.gSpriteSpatialIndex SPATIAL_INDEX_LOCATION_NULL).count id = 1 ∧
    (∀ b, b ≠ SPATIAL_INDEX_LOCATION_NULL → id ∉ w1.gSpriteSpatialIndex b) ∧
    w1._freeIdList = w._freeIdList.filter (fun a => decide (a ≠ id)) := by
  have hec := (hI.free_mem id).1 hid
  have hidx : (({ w with _freeIdList := w._freeIdList.filter (fun a => decide (a ≠ id)) } :
      World)._spriteList id).sprite_index = id := hI.idx id hec.1
  subst hw
  refine ⟨?_, hI.idx id hec.1, ?_, ?_, ?_, ?_, ?_, rfl⟩
  · rw [PrepareNewEntity_spriteList _ _ _ hidx]
    simp only [Function.update_same]
  · rw [PrepareNewEntity_spriteFlashingList _ _ _ hidx]
    simp only [Function.update_same]
  · rw [PrepareNewEntity_gEntityLists _ _ _ hidx]
    simp only [Function.update_same]
    apply count_eq_one_of_pairwise
    · exact pairwise_insertAt_lower_bound _ (hI.list_asc _) id
        (not_mem_list_of_null env w hI id hec.2 _)
    · rw [mem_insertAt_lower_bound _ (hI.list_asc _)]
      exact Or.inl rfl
  · intro t ht
    rw [PrepareNewEntity_gEntityLists _ _ _ hidx]
    simp only [Function.update_noteq ht]
    exact not_mem_list_of_null env w hI id hec.2 t
  · rw [PrepareNewEntity_gSpriteSpatialIndex _ _ _ hidx]
    simp only [Function.update_same]
    apply count_eq_one_of_pairwise
    · exact pairwise_insertAt_lower_bound _ (hI.bucket_asc _) id
        (not_mem_bucket_of_null env w hI id hec.2 _)
    · rw [mem_insertAt_lower_bound _ (hI.bucket_asc _)]
      exact Or.inl rfl
  · intro b hb
    rw [PrepareNewEntity_gSpriteSpatialIndex _ _ _ hidx]
    simp only [Function.update_noteq hb]
    exact not_mem_bucket_of_null env w hI id hec.2 b

theorem map_clear_of_not_mem (l : List (Option Nat)) (e : Nat) (h : some e ∉ l) :
    l.map (fun a => if a = some e then none else a) = l := by
  induction l with
  | nil => rfl
  | cons b t ih =>
    rw [List.mem_cons, not_or] at h
    have hb : b ≠ some e := fun h2 => h.1 h2.symm
    simp only [List.map_cons, hb, if_false, ih h.2]

theorem clearFirst_eq_map (l : List (Option Nat)) (e : Nat) (h : l.count (some e) ≤ 1) :
    clearFirst l e = l.map (fun a => if a = some e then none else a) := by
  induction l with
  | nil => rfl
  | cons b t ih =>
    unfold clearFirst
    by_cases hb : b = some e
    · subst hb
      rw [List.count_cons_self] at h
      have h0 : t.count (some e) = 0 := by omega
      rw [List.count_eq_zero] at h0
      simp only [if_true, List.map_cons, map_clear_of_not_mem t e h0]
    · rw [List.count_cons_of_ne (fun h => hb h.symm)] at h
      simp only [hb, if_false, List.map_cons, ih h]

theorem RemoveEntity_tweener (env : Env) (w : World) (hI : Inv env w) (e : Nat) :
    (RemoveEntity w e).tweener =
      { w.tweener with
        Entities := w.tweener.Entities.map (fun a => if a = some e then none else a) } := by
  unfold RemoveEntity
  split
  · rename_i h
    have hn : some e ∉ w.tweener.Entities := by
      intro hm
      have := (hI.tw_live e hm).2
      rw [h] at this
      exact absurd this (by decide)
    rw [map_clear_of_not_mem _ e hn]
  · rw [clearFirst_eq_map _ e (hI.tw_once e)]

/-! ## The loops of the tweener -/

/-- One write of a position, `sprite_set_coordinates` followed by `Invalidate`:
the slot of the entity is replaced, the other globals but the invalidation log
stay. -/
theorem place_step (env : Env) (w : World) (p : CoordsXYZ) (e : Nat) :
    (Invalidate (sprite_set_coordinates env w p e) e)._spriteList =
      Function.update w._spriteList e (placedSprite env (w._spriteList e) p) ∧
    (Invalidate (sprite_set_coordinates env w p e) e).gEntityLists = w.gEntityLists ∧
    (Invalidate (sprite_set_coordinates env w p e) e)._freeIdList = w._freeIdList ∧
    (Invalidate (sprite_set_coordinates env w p e) e)._spriteFlashingList =
      w._spriteFlashingList ∧
    (Invalidate (sprite_set_coordinates env w p e) e).gSpriteSpatialIndex =
      w.gSpriteSpatialIndex ∧
    (Invalidate (sprite_set_coordinates env w p e) e).tweener = w.tweener ∧
    (Invalidate (sprite_set_coordinates env w p e) e).gSavedAge = w.gSavedAge := by
  have hf := Invalidate_frame (sprite_set_coordinates env w p e) e
  rw [hf.1, hf.2.1, hf.2.2.1, hf.2.2.2.1, hf.2.2.2.2.1, hf.2.2.2.2.2.1, hf.2.2.2.2.2.2]
  exact ⟨rfl, rfl, rfl, rfl, rfl, rfl, rfl⟩

theorem once_of_count (es : List (Option Nat)) (h : ∀ e, es.count (some e) ≤ 1) : Once es := by
  induction es with
  | nil =>
    intro k1 k2 e h1 _
    simp at h1
  | cons a t ih =>
    have ht : Once t := by
      apply ih
      intro e
      exact Nat.le_trans (List.count_le_count_cons _ _ _) (h e)
    have hhead : ∀ k e, a = some e → t.get? k = some (some e) → False := by
      intro k e ha hk
      have hm : some e ∈ t := List.get?_mem hk
      have hc := h e
      rw [ha, List.count_cons_self] at hc
      have h0 : t.count (some e) = 0 := by omega
      exact (List.count_eq_zero.1 h0) hm
    intro k1 k2 e h1 h2
    cases k1 with
    | zero =>
      cases k2 with
      | zero => rfl
      | succ k2 =>
        simp only [List.get?_cons_zero, Option.some.injEq] at h1
        simp only [List.get?_cons_succ] at h2
        exact absurd (hhead k2 e h1 h2) id
    | succ k1 =>
      cases k2 with
      | zero =>
        simp only [List.get?_cons_zero, Option.some.injEq] at h2
        simp only [List.get?_cons_succ] at h1
        exact absurd (hhead k1 e h2 h1) id
      | succ k2 =>
        simp only [List.get?_cons_succ] at h1 h2
        rw [ht k1 k2 e h1 h2]

theorem once_tail (a : Option Nat) (t : List (Option Nat)) (h : Once (a :: t)) : Once t := by
  intro k1 k2 e h1 h2
  have := h (k1 + 1) (k2 + 1) e (by simpa using h1) (by simpa using h2)
  omega

theorem once_head (e : Nat) (t : List (Option Nat)) (h : Once (some e :: t)) : some e ∉ t := by
  intro hm
  obtain ⟨k, hk⟩ := List.mem_iff_get?.1 hm
  have := h 0 (k + 1) e (by simp) (by simpa using hk)
  omega

theorem get?_tail_eq (l : List CoordsXYZ) (k : Nat) : l.tail.get? k = l.get? (k + 1) := by
  cases l with
  | nil => simp
  | cons a t => simp

/-- What `Tween` does: with both snapshot vectors as long as `Entities` and no
entity tracked twice, the loop ends; it changes slots and invalidation log only,
leaves the slot of every entity that is not tracked, and gives the entity of
entry `k` its slot placed at the interpolated position, or leaves it when the two
snapshots of the entry are equal. -/
theorem tweenLoop_spec (env : Env) (alpha : ℚ) :
    ∀ (es : List (Option Nat)) (as bs : List CoordsXYZ) (w : World),
      Once es → es.length ≤ as.length → es.length ≤ bs.length →
      ∃ w1, tweenLoop env alpha es as bs w = some w1 ∧
        (w1.gEntityLists = w.gEntityLists ∧ w1._freeIdList = w._freeIdList ∧
          w1._spriteFlashingList = w._spriteFlashingList ∧
          w1.gSpriteSpatialIndex = w.gSpriteSpatialIndex ∧ w1.tweener = w.tweener ∧
          w1.gSavedAge = w.gSavedAge) ∧
        (∀ i, some i ∉ es → w1._spriteList i = w._spriteList i) ∧
        ∀ k i a b, es.get? k = some (some i) → as.get? k = some a → bs.get? k = some b →
          w1._spriteList i =
            if a = b then w._spriteList i
            else placedSprite env (w._spriteList i) (tweenPos env alpha a b) := by
  intro es
  induction es with
  | nil =>
    intro as bs w _ _ _
    refine ⟨w, rfl, ⟨rfl, rfl, rfl, rfl, rfl, rfl⟩, fun _ _ => rfl, ?_⟩
    intro k i a b hk
    simp at hk
  | cons x t ih =>
    intro as bs w ho hla hlb
    simp only [List.length_cons] at hla hlb
    have hot := once_tail x t ho
    cases x with
    | none =>
      obtain ⟨w1, h1, h2, h3, h4⟩ := ih as.tail bs.tail w hot
        (by rw [List.length_tail]; omega) (by rw [List.length_tail]; omega)
      refine ⟨w1, by rw [tweenLoop]; exact h1, h2, ?_, ?_⟩
      · intro i hi
        exact h3 i (fun hm => hi (List.mem_cons_of_mem _ hm))
      · intro k i a b hk ha hb
        cases k with
        | zero => simp at hk
        | succ k =>
          simp only [List.get?_cons_succ] at hk
          exact h4 k i a b hk (by rw [get?_tail_eq]; exact ha) (by rw [get?_tail_eq]; exact hb)
    | some e =>
      have hne := once_head e t ho
      cases as with
      | nil => simp at hla
      | cons a0 as =>
        cases bs with
        | nil => simp at hlb
        | cons b0 bs =>
          simp only [List.length_cons] at hla hlb
          by_cases hab : a0 = b0
          · obtain ⟨w1, h1, h2, h3, h4⟩ := ih as bs w hot (by omega) (by omega)
            refine ⟨w1, by rw [tweenLoop, if_pos hab]; exact h1, h2, ?_, ?_⟩
            · intro i hi
              exact h3 i (fun hm => hi (List.mem_cons_of_mem _ hm))
            · intro k i a b hk ha hb
              cases k with
              | zero =>
                simp only [List.get?_cons_zero, Option.some.injEq] at hk ha hb
                subst hk ha hb
                rw [if_pos hab]
                exact h3 e hne
              | succ k =>
                simp only [List.get?_cons_succ] at hk ha hb
                exact h4 k i a b hk ha hb
          · have hs := place_step env w (tweenPos env alpha a0 b0) e
            obtain ⟨w1, h1, h2, h3, h4⟩ := ih as bs
              (Invalidate (sprite_set_coordinates env w (tweenPos env alpha a0 b0) e) e) hot
              (by omega) (by omega)
            refine ⟨w1, by rw [tweenLoop, if_neg hab]; exact h1, ?_, ?_, ?_⟩
            · exact ⟨h2.1.trans hs.2.1, h2.2.1.trans hs.2.2.1, h2.2.2.1.trans hs.2.2.2.1,
                h2.2.2.2.1.trans hs.2.2.2.2.1, h2.2.2.2.2.1.trans hs.2.2.2.2.2.1,
                h2.2.2.2.2.2.trans hs.2.2.2.2.2.2⟩
            · intro i hi
              have hie : i ≠ e := fun h => hi (by rw [h]; exact List.mem_cons_self _ _)
              rw [h3 i (fun hm => hi (List.mem_cons_of_mem _ hm)), hs.1,
                Function.update_noteq hie]
            · intro k i a b hk ha hb
              cases k with
              | zero =>
                simp only [List.get?_cons_zero, Option.some.injEq] at hk ha hb
                subst hk ha hb
                rw [if_neg hab, h3 e hne, hs.1, Function.update_same]
              | succ k =>
                simp only [List.get?_cons_succ] at hk ha hb
                have hie : i ≠ e := by
                  intro h
                  subst h
                  exact hne (List.get?_mem hk)
                rw [h4 k i a b hk ha hb, hs.1, Function.update_noteq hie]

/-- What `Restore` does: with `PostPos` as long as `Entities` and no entity
tracked twice, the loop ends; it changes slots and invalidation log only, leaves
the slot of every entity that is not tracked, and gives the entity of entry `k`
its slot placed at the post-tick snapshot of the entry. -/
theorem restoreLoop_spec (env : Env) :
    ∀ (es : List (Option Nat)) (ps : List CoordsXYZ) (w : World),
      Once es → es.length ≤ ps.length →
      ∃ w1, restoreLoop env es ps w = some w1 ∧
        (w1.gEntityLists = w.gEntityLists ∧ w1._freeIdList = w._freeIdList ∧
          w1._spriteFlashingList = w._spriteFlashingList ∧
          w1.gSpriteSpatialIndex = w.gSpriteSpatialIndex ∧ w1.tweener = w.tweener ∧
          w1.gSavedAge = w.gSavedAge) ∧
        (∀ i, some i ∉ es → w1._spriteList i = w._spriteList i) ∧
        ∀ k i p, es.get? k = some (some i) → ps.get? k = some p →
          w1._spriteList i = placedSprite env (w._spriteList i) p := by
  intro es
  induction es with
  | nil =>
    intro ps w _ _
    refine ⟨w, rfl, ⟨rfl, rfl, rfl, rfl, rfl, rfl⟩, fun _ _ => rfl, ?_⟩
    intro k i p hk
    simp at hk
  | cons x t ih =>
    intro ps w ho hl
    simp only [List.length_cons] at hl
    have hot := once_tail x t ho
    cases x with
    | none =>
      obtain ⟨w1, h1, h2, h3, h4⟩ := ih ps.tail w hot (by rw [List.length_tail]; omega)
      refine ⟨w1, by rw [restoreLoop]; exact h1, h2, ?_, ?_⟩
      · intro i hi
        exact h3 i (fun hm => hi (List.mem_cons_of_mem _ hm))
      · intro k i p hk hp
        cases k with
        | zero => simp at hk
        | succ k =>
          simp only [List.get?_cons_succ] at hk
          exact h4 k i p hk (by rw [get?_tail_eq]; exact hp)
    | some e =>
      have hne := once_head e t ho
      cases ps with
      | nil => simp at hl
      | cons p0 ps =>
        simp only [List.length_cons] at hl
        have hs := place_step env w p0 e
        obtain ⟨w1, h1, h2, h3, h4⟩ := ih ps
          (Invalidate (sprite_set_coordinates env w p0 e) e) hot (by omega)
        refine ⟨w1, by rw [restoreLoop]; exact h1, ?_, ?_, ?_⟩
        · exact ⟨h2.1.trans hs.2.1, h2.2.1.trans hs.2.2.1, h2.2.2.1.trans hs.2.2.2.1,
            h2.2.2.2.1.trans hs.2.2.2.2.1, h2.2.2.2.2.1.trans hs.2.2.2.2.2.1,
            h2.2.2.2.2.2.trans hs.2.2.2.2.2.2⟩
        · intro i hi
          have hie : i ≠ e := fun h => hi (by rw [h]; exact List.mem_cons_self _ _)
          rw [h3 i (fun hm => hi (List.mem_cons_of_mem _ hm)), hs.1, Function.update_noteq hie]
        · intro k i p hk hp
          cases k with
          | zero =>
            simp only [List.get?_cons_zero, Option.some.injEq] at hk hp
            subst hk hp
            rw [h3 e hne, hs.1, Function.update_same]
          | succ k =>
            simp only [List.get?_cons_succ] at hk hp
            have hie : i ≠ e := by
              intro h
              subst h
              exact hne (List.get?_mem hk)
            rw [h4 k i p hk hp, hs.1, Function.update_noteq hie]

/-! ## The consistency inside a tick -/

theorem CreateEntity_tweener (env : Env) (w : World) (type : EntityType) :
    (CreateEntity env w type).1.tweener = w.tweener := by
  unfold CreateEntity
  split
  · rfl
  · split
    · rfl
    · split <;> rfl

theorem CreateEntityAt_tweener (env : Env) (w : World) (index : Nat) (type : EntityType) :
    (CreateEntityAt env w index type).1.tweener = w.tweener := by
  unfold CreateEntityAt
  simp only
  split
  · rfl
  · split <;> rfl

theorem sprite_remove_tweener (env : Env) (w : World) (hI : Inv env w) (e : Nat)
    (he : e < env.MAX_ENTITIES) (hl : (w._spriteList e).type ≠ EntityType.Null) :
    (sprite_remove env w e).tweener =
      { w.tweener with
        Entities := w.tweener.Entities.map (fun a => if a = some e then none else a) } := by
  rw [sprite_remove_eq env w hI.toRegInv e he hl]
  exact RemoveEntity_tweener env w hI e

theorem TickInv_of_tweener (env : Env) (w w1 : World) (hT : TickInv env w) (hI : Inv env w1)
    (ht : w1.tweener = w.tweener) : TickInv env w1 :=
  ⟨hI, by rw [ht]; exact hT.pre_len, by rw [ht]; exact hT.post_nil, by rw [ht]; exact hT.pre_rng⟩

theorem TickInv_reset (env : Env) (w : World) : TickInv env (reset_sprite_list env (Reset w)) := by
  refine ⟨Inv_reset_sprite_list env (Reset w) (fun e h => by simp [Reset] at h), ?_, ?_, ?_⟩
  · rw [reset_sprite_list_eq]
    rfl
  · rw [reset_sprite_list_eq]
    rfl
  · rw [reset_sprite_list_eq]
    intro p hp
    simp [Reset] at hp

theorem TickInv_sprite_remove (env : Env) (w : World) (hT : TickInv env w) (e : Nat)
    (he : e < env.MAX_ENTITIES) (hl : (w._spriteList e).type ≠ EntityType.Null) :
    TickInv env (sprite_remove env w e) := by
  have ht := sprite_remove_tweener env w hT.toInv e he hl
  refine ⟨Inv_sprite_remove env w hT.toInv e he hl, ?_, ?_, ?_⟩
  · rw [ht]
    simp only [List.length_map]
    exact hT.pre_len
  · rw [ht]
    exact hT.post_nil
  · rw [ht]
    exact hT.pre_rng

/-- The post-tick snapshot of entry `k` after `PostTick`, when none was taken
before. -/
theorem PostTick_get? (w : World) (h : w.tweener.PostPos = []) (k : Nat) (e : Nat)
    (hk : w.tweener.Entities.get? k = some (some e)) :
    (PostTick w).tweener.PostPos.get? k = some (GetLocation (w._spriteList e)) := by
  unfold PostTick
  simp only [h, List.nil_append, List.get?_eq_getElem?, List.getElem?_map]
  rw [List.get?_eq_getElem?] at hk
  rw [hk]
  rfl

theorem SameButPos_refl (w : World) : SameButPos w w :=
  ⟨rfl, rfl, rfl, rfl, rfl, rfl, fun _ => ⟨rfl, rfl, rfl, rfl, rfl, rfl⟩⟩

theorem FrameOf_PostTick (env : Env) (w : World) (hT : TickInv env w) :
    FrameOf env (PostTick w) (PostTick w) := by
  refine ⟨Inv_PostTick env w hT.toInv, ?_, hT.pre_len, ?_, hT.pre_rng, SameButPos_refl _,
    fun _ _ => rfl⟩
  · intro k e hk
    exact PostTick_get? w hT.post_nil k e hk
  · show (w.tweener.PostPos ++ _).length = w.tweener.Entities.length
    rw [hT.post_nil]
    simp

/-! ## The consistency while frames are drawn -/

theorem entry_of_tracked (es : List (Option Nat)) (as bs : List CoordsXYZ)
    (hla : as.length = es.length) (hlb : bs.length = es.length) (i : Nat) (hm : some i ∈ es) :
    ∃ k a b, es.get? k = some (some i) ∧ as.get? k = some a ∧ bs.get? k = some b := by
  obtain ⟨k, hk⟩ := List.mem_iff_get?.1 hm
  have hlt : k < es.length := by
    rw [List.get?_eq_getElem?] at hk
    exact (List.getElem?_eq_some_iff.1 hk).1
  exact ⟨k, as.get ⟨k, by omega⟩, bs.get ⟨k, by omega⟩, hk, List.get?_eq_get _, List.get?_eq_get _⟩

/-- In a world in which frames are drawn `Tween` returns, and leaves such a
world, for the same world of `PostTick`. -/
theorem FrameOf_Tween (env : Env) (alpha : ℚ) (w0 w : World) (h : FrameOf env w0 w) :
    ∃ w1, Tween env alpha w = some w1 ∧ FrameOf env w0 w1 ∧
      (∀ i, some i ∉ w0.tweener.Entities → w1._spriteList i = w._spriteList i) ∧
      ∀ k i a b, w0.tweener.Entities.get? k = some (some i) →
        w0.tweener.PrePos.get? k = some a → w0.tweener.PostPos.get? k = some b →
        w1._spriteList i =
          if a = b then w._spriteList i
          else placedSprite env (w._spriteList i) (tweenPos env alpha a b) := by
  obtain ⟨hI, hA, hla, hlb, hr, hS, hE⟩ := h
  obtain ⟨s1, s2, s3, s4, s5, s6, s7⟩ := hS
  obtain ⟨w1, h1, h2, h3, h4⟩ := tweenLoop_spec env alpha w0.tweener.Entities w0.tweener.PrePos
    w0.tweener.PostPos w (once_of_count _ hI.tw_once) (by omega) (by omega)
  refine ⟨w1, by unfold Tween; rw [s5]; exact h1, ?_, h3, h4⟩
  refine ⟨hI, hA, hla, hlb, hr, ?_, ?_⟩
  · refine ⟨h2.1.trans s1, h2.2.1.trans s2, h2.2.2.1.trans s3, h2.2.2.2.1.trans s4,
      h2.2.2.2.2.1.trans s5, h2.2.2.2.2.2.trans s6, ?_⟩
    intro i
    by_cases hm : some i ∈ w0.tweener.Entities
    · obtain ⟨k, a, b, hk, ha, hb⟩ := entry_of_tracked _ _ _ hla hlb i hm
      rw [h4 k i a b hk ha hb]
      split
      · exact s7 i
      · exact s7 i
    · rw [h3 i hm]
      exact s7 i
  · intro i hi
    by_cases hm : some i ∈ w0.tweener.Entities
    · obtain ⟨k, a, b, hk, ha, hb⟩ := entry_of_tracked _ _ _ hla hlb i hm
      rw [h4 k i a b hk ha hb, if_pos (hi k a b hk ha hb)]
      exact hE i hi
    · rw [h3 i hm]
      exact hE i hi

/-- In a world in which frames are drawn `tweenAll` returns, and leaves such a
world. -/
theorem FrameOf_tweenAll (env : Env) (w0 : World) (alphas : List ℚ) :
    ∀ w, FrameOf env w0 w → ∃ w1, tweenAll env alphas w = some w1 ∧ FrameOf env w0 w1 := by
  induction alphas with
  | nil =>
    intro w h
    exact ⟨w, rfl, h⟩
  | cons alpha rest ih =>
    intro w h
    obtain ⟨w1, h1, h2, _⟩ := FrameOf_Tween env alpha w0 w h
    obtain ⟨w2, h3, h4⟩ := ih w1 h2
    refine ⟨w2, ?_, h4⟩
    rw [tweenAll, h1]
    exact h3

/-- In a world in which frames are drawn `PreTick` returns; it leaves a world
consistent inside a tick in which every slot has the position it had when
`PostTick` ran. -/
theorem FrameOf_PreTick (env : Env) (w0 w : World) (h : FrameOf env w0 w) :
    ∃ w1, PreTick env w = some w1 ∧ TickInv env w1 ∧
      ∀ i, GetLocation (w1._spriteList i) = GetLocation (w0._spriteList i) := by
  obtain ⟨hI, hA, hla, hlb, hr, hS, hE⟩ := h
  obtain ⟨s1, s2, s3, s4, s5, s6, s7⟩ := hS
  obtain ⟨wr, h1, h2, h3, h4⟩ := restoreLoop_spec env w0.tweener.Entities w0.tweener.PostPos w
    (once_of_count _ hI.tw_once) (by omega)
  have hslot : ∀ i, (wr._spriteList i).type = (w0._spriteList i).type ∧
      (wr._spriteList i).sprite_index = (w0._spriteList i).sprite_index ∧
      (wr._spriteList i).x = (w0._spriteList i).x ∧ (wr._spriteList i).y = (w0._spriteList i).y ∧
      (wr._spriteList i).z = (w0._spriteList i).z ∧
      (wr._spriteList i).sprite_width = (w0._spriteList i).sprite_width ∧
      (wr._spriteList i).sprite_height_negative = (w0._spriteList i).sprite_height_negative ∧
      (wr._spriteList i).sprite_height_positive = (w0._spriteList i).sprite_height_positive ∧
      (wr._spriteList i).rest = (w0._spriteList i).rest := by
    intro i
    by_cases hm : some i ∈ w0.tweener.Entities
    · obtain ⟨k, a, b, hk, ha, hb⟩ := entry_of_tracked _ _ _ hla hlb i hm
      have hb2 := hA k i hk
      rw [hb2] at hb
      simp only [Option.some.injEq] at hb
      have hrng := hI.rng i (hI.tw_live i hm).1
      rw [h4 k i _ hk hb2]
      obtain ⟨t1, t2, t3, t4, t5, t6⟩ := s7 i
      refine ⟨t1, t2, ?_, ?_, ?_, t3, t4, t5, t6⟩
      · exact toInt16_of_isInt16 _ hrng.1
      · exact toInt16_of_isInt16 _ hrng.2.1
      · exact toInt16_of_isInt16 _ hrng.2.2
    · rw [h3 i hm, hE i (fun k a b hk _ _ => absurd (List.get?_mem hk) hm)]
      exact ⟨rfl, rfl, rfl, rfl, rfl, rfl, rfl, rfl, rfl⟩
  have hB : SameButBox w0 wr :=
    ⟨h2.1.trans s1, h2.2.1.trans s2, h2.2.2.1.trans s3, h2.2.2.2.1.trans s4,
      h2.2.2.2.2.1.trans s5, h2.2.2.2.2.2.trans s6, hslot⟩
  have hIr : Inv env wr := Inv_SameButBox env w0 wr hI hB
  refine ⟨PopulateEntities env (Reset wr), ?_, ?_, ?_⟩
  · unfold PreTick Restore
    rw [s5, h1]
  · refine ⟨Inv_Populate_Reset env wr hIr, ?_, rfl, ?_⟩
    · simp [PopulateEntities, Reset]
    · intro p hp
      simp only [PopulateEntities, Reset, List.nil_append, List.mem_map] at hp
      obtain ⟨e, he, rfl⟩ := hp
      exact hIr.rng e (tracked_live env (Reset wr) e he).1
  · intro i
    show GetLocation (wr._spriteList i) = GetLocation (w0._spriteList i)
    unfold GetLocation
    rw [(hslot i).2.2.1, (hslot i).2.2.2.1, (hslot i).2.2.2.2.1]

/-- Every state of the simulation is consistent for its phase. -/
theorem inv_of_Simulation (env : Env) (b : Bool) (w : World) (h : Simulation env b w) :
    (b = true → TickInv env w) ∧ (b = false → FrameInv env w) := by
  induction h with
  | reset w => exact ⟨fun _ => TickInv_reset env w, fun h => absurd h (by simp)⟩
  | create w type _ ht ih =>
    refine ⟨fun _ => ?_, fun h => absurd h (by simp)⟩
    exact TickInv_of_tweener env w _ (ih.1 rfl) (Inv_CreateEntity env w (ih.1 rfl).toInv type ht)
      (CreateEntity_tweener env w type)
  | createAt w index type _ ht ih =>
    refine ⟨fun _ => ?_, fun h => absurd h (by simp)⟩
    exact TickInv_of_tweener env w _ (ih.1 rfl)
      (Inv_CreateEntityAt env w (ih.1 rfl).toInv index type ht)
      (CreateEntityAt_tweener env w index type)
  | remove w e _ he hl ih =>
    exact ⟨fun _ => TickInv_sprite_remove env w (ih.1 rfl) e he hl, fun h => absurd h (by simp)⟩
  | moveTo w e p _ he hl ih =>
    refine ⟨fun _ => ?_, fun h => absurd h (by simp)⟩
    exact TickInv_of_tweener env w _ (ih.1 rfl) (Inv_MoveTo env w (ih.1 rfl).toInv e he hl p)
      (MoveTo_frame env w e p).2.2.2.2.1
  | postTick w _ ih =>
    exact ⟨fun h => absurd h (by simp), fun _ => ⟨PostTick w, FrameOf_PostTick env w (ih.1 rfl)⟩⟩
  | tween alpha w w1 _ ht ih =>
    refine ⟨fun h => absurd h (by simp), fun _ => ?_⟩
    obtain ⟨w0, h0⟩ := ih.2 rfl
    obtain ⟨w2, h2, h3, _⟩ := FrameOf_Tween env alpha w0 w h0
    rw [ht] at h2
    simp only [Option.some.injEq] at h2
    subst h2
    exact ⟨w0, h3⟩
  | preTick w w1 _ hp ih =>
    refine ⟨fun _ => ?_, fun h => absurd h (by simp)⟩
    obtain ⟨w0, h0⟩ := ih.2 rfl
    obtain ⟨w2, h2, h3, _⟩ := FrameOf_PreTick env w0 w h0
    rw [hp] at h2
    simp only [Option.some.injEq] at h2
    subst h2
    exact h3

/-! ## The interpolation at the two ends -/

theorem stdRound_int (a : Int) : stdRound (a : ℚ) = a := by
  have h2 : ⌊(1 / 2 : ℚ)⌋ = 0 := by
    rw [Int.floor_eq_iff]
    constructor <;> norm_num
  unfold stdRound
  split
  · rw [Int.floor_int_add, h2, add_zero]
  · rw [← Int.cast_neg, Int.floor_int_add, h2, add_zero, neg_neg]

theorem fl_int (env : Env) (a : Int) (ha : IsInt16 a) : env.fl (a : ℚ) = (a : ℚ) := by
  obtain ⟨h1, h2⟩ := ha
  exact env.fl_exact a (by omega) (by omega)

theorem fl_zero (env : Env) : env.fl 0 = 0 := by
  have := env.fl_exact 0 (by decide) (by decide)
  simpa using this

theorem fl_one (env : Env) : env.fl 1 = 1 := by
  have := env.fl_exact 1 (by decide) (by decide)
  simpa using this

/-- At `alpha = 0.0` the interpolation of two 16-bit coordinates is the first,
exactly. -/
theorem tweenCoord_zero (env : Env) (a b : Int) (ha : IsInt16 a) (hb : IsInt16 b) :
    tweenCoord env 0 a b = a := by
  unfold tweenCoord
  simp only [sub_zero, mul_zero, fl_one, fl_zero, fl_int env a ha, fl_int env b hb, mul_one,
    zero_add, stdRound_int]

/-- At `alpha = 1.0` the interpolation of two 16-bit coordinates is the second,
exactly. -/
theorem tweenCoord_one (env : Env) (a b : Int) (ha : IsInt16 a) (hb : IsInt16 b) :
    tweenCoord env 1 a b = b := by
  unfold tweenCoord
  simp only [sub_self, mul_zero, fl_zero, fl_int env a ha, fl_int env b hb, mul_one,
    add_zero, stdRound_int]

theorem GetLocation_placedSprite (env : Env) (s : SpriteBase) (p : CoordsXYZ) :
    GetLocation (placedSprite env s p) =
      { x := toInt16 p.x, y := toInt16 p.y, z := toInt16 p.z } := rfl

/-- What `Tween` does in a world whose tweener tracks no entity twice and has
both snapshot vectors as long as `Entities`. -/
theorem Tween_spec (env : Env) (alpha : ℚ) (w : World) (ho : Once w.tweener.Entities)
    (hla : w.tweener.Entities.length ≤ w.tweener.PrePos.length)
    (hlb : w.tweener.Entities.length ≤ w.tweener.PostPos.length) :
    ∃ w1, Tween env alpha w = some w1 ∧
      (∀ i, some i ∉ w.tweener.Entities → w1._spriteList i = w._spriteList i) ∧
      ∀ k i a b, w.tweener.Entities.get? k = some (some i) →
        w.tweener.PrePos.get? k = some a → w.tweener.PostPos.get? k = some b →
        w1._spriteList i =
          if a = b then w._spriteList i
          else placedSprite env (w._spriteList i) (tweenPos env alpha a b) := by
  obtain ⟨w1, h1, _, h3, h4⟩ := tweenLoop_spec env alpha w.tweener.Entities w.tweener.PrePos
    w.tweener.PostPos w ho hla hlb
  exact ⟨w1, h1, h3, h4⟩

/-! ## Holes in the tweener -/

theorem not_mem_map_clear (es : List (Option Nat)) (e : Nat) :
    some e ∉ es.map (fun a => if a = some e then none else a) := by
  intro hm
  obtain ⟨a, _, ha⟩ := List.mem_map.1 hm
  by_cases h : a = some e
  · rw [if_pos h] at ha
    exact absurd ha (by simp)
  · rw [if_neg h] at ha
    exact h ha

theorem get?_map_clear (es : List (Option Nat)) (e f k : Nat) (hne : e ≠ f)
    (hk : es.get? k = some (some f)) :
    (es.map (fun a => if a = some e then none else a)).get? k = some (some f) := by
  rw [List.get?_eq_getElem?] at hk ⊢
  rw [List.getElem?_map, hk, Option.map_some', if_neg]
  intro h
  simp only [Option.some.injEq] at h
  exact hne h.symm

/-- The slot of an entity that the tweener does not track is neither written nor
read by `Tween`: the call leaves the slot, and with any other content of the slot
it does the same to all other slots. -/
theorem Tween_indep (env : Env) (alpha : ℚ) (w : World) (ho : Once w.tweener.Entities)
    (hla : w.tweener.PrePos.length = w.tweener.Entities.length)
    (hlb : w.tweener.PostPos.length = w.tweener.Entities.length) (e : Nat)
    (he : some e ∉ w.tweener.Entities) (s : SpriteBase) :
    ∃ w1 v1, Tween env alpha w = some w1 ∧
      Tween env alpha { w with _spriteList := Function.update w._spriteList e s } = some v1 ∧
      w1._spriteList e = w._spriteList e ∧ v1._spriteList e = s ∧
      ∀ i, i ≠ e → v1._spriteList i = w1._spriteList i := by
  obtain ⟨w1, h1, h2, h3⟩ := Tween_spec env alpha w ho (by omega) (by omega)
  obtain ⟨v1, g1, g2, g3⟩ := Tween_spec env alpha
    { w with _spriteList := Function.update w._spriteList e s } ho
    (by show w.tweener.Entities.length ≤ w.tweener.PrePos.length; omega)
    (by show w.tweener.Entities.length ≤ w.tweener.PostPos.length; omega)
  refine ⟨w1, v1, h1, g1, h2 e he, ?_, ?_⟩
  · rw [g2 e he]
    exact Function.update_same _ _ _
  · intro i hi
    by_cases hm : some i ∈ w.tweener.Entities
    · obtain ⟨k, a, b, hk, ha, hb⟩ := entry_of_tracked _ _ _ hla hlb i hm
      rw [h3 k i a b hk ha hb, g3 k i a b hk ha hb]
      simp only [Function.update_noteq hi]
    · rw [h2 i hm, g2 i hm]
      exact Function.update_noteq hi _ _

/-! ## Replays from a reset -/

theorem SameRegistry_reset (env : Env) (wa wb : World) :
    SameRegistry env (reset_sprite_list env wa) (reset_sprite_list env wb) := by
  rw [reset_sprite_list_eq env wa, reset_sprite_list_eq env wb]
  refine ⟨?_, rfl, rfl, rfl⟩
  intro i hi
  simp only [if_pos hi]

theorem update_agree {β : Type} (n : Nat) (f g : Nat → β) (e : Nat) (v : β)
    (h : ∀ i, i < n → g i = f i) : ∀ i, i < n → Function.update g e v i = Function.update f e v i := by
  intro i hi
  by_cases hie : i = e
  · subst hie
    rw [Function.update_same, Function.update_same]
  · rw [Function.update_noteq hie, Function.update_noteq hie]
    exact h i hi

theorem MiscRefused_congr (w w1 : World) (type : EntityType)
    (h2 : w1.gEntityLists = w.gEntityLists) (h3 : w1._freeIdList = w._freeIdList) :
    MiscRefused w1 type ↔ MiscRefused w type := by
  unfold MiscRefused GetMiscEntityCount GetEntityListCount
  rw [h2, h3]

theorem SameRegistry_CreateEntity (env : Env) (w w1 : World) (hI : RegInv env w)
    (hI1 : RegInv env w1) (hs : SameRegistry env w w1) (type : EntityType) :
    SameRegistry env (CreateEntity env w type).1 (CreateEntity env w1 type).1 := by
  obtain ⟨h1, h2, h3, h4⟩ := hs
  by_cases hr : w._freeIdList = [] ∨ MiscRefused w type
  · have hr1 : w1._freeIdList = [] ∨ MiscRefused w1 type := by
      rw [h3, MiscRefused_congr w w1 type h2 h3]
      exact hr
    rw [CreateEntity_refused env w type hr, CreateEntity_refused env w1 type hr1]
    exact ⟨h1, h2, h3, h4⟩
  · have hr1 : ¬ (w1._freeIdList = [] ∨ MiscRefused w1 type) := by
      rw [h3, MiscRefused_congr w w1 type h2 h3]
      exact hr
    rw [not_or] at hr hr1
    have hl := free_last w._freeIdList hI.free_desc hr.1
    have hlt := ((hI.free_mem _).1 hl.1).1
    rw [CreateEntity_granted env w hI type hr.1 hr.2,
      CreateEntity_granted env w1 hI1 type hr1.1 hr1.2, h3]
    have hxa := hI.idx _ hlt
    have hxb : (w1._spriteList (w._freeIdList.getLastD 0)).sprite_index =
        w._freeIdList.getLastD 0 := by
      rw [h1 _ hlt]
      exact hxa
    generalize w._freeIdList.filter (fun a => decide (a ≠ w._freeIdList.getLastD 0)) = F
    refine ⟨?_, ?_, rfl, ?_⟩ <;> dsimp only
    · rw [PrepareNewEntity_spriteList { w with _freeIdList := F } _ type hxa,
        PrepareNewEntity_spriteList { w1 with _freeIdList := F } _ type hxb]
      exact update_agree _ _ _ _ _ h1
    · rw [PrepareNewEntity_gEntityLists { w with _freeIdList := F } _ type hxa,
        PrepareNewEntity_gEntityLists { w1 with _freeIdList := F } _ type hxb]
      simp only [h2]
    · rw [PrepareNewEntity_gSpriteSpatialIndex { w with _freeIdList := F } _ type hxa,
        PrepareNewEntity_gSpriteSpatialIndex { w1 with _freeIdList := F } _ type hxb]
      simp only [h4]

theorem SameRegistry_sprite_remove (env : Env) (w w1 : World) (hI : RegInv env w)
    (hI1 : RegInv env w1) (hs : SameRegistry env w w1) (e : Nat) (he : e < env.MAX_ENTITIES)
    (hl : (w._spriteList e).type ≠ EntityType.Null) :
    SameRegistry env (sprite_remove env w e) (sprite_remove env w1 e) := by
  obtain ⟨h1, h2, h3, h4⟩ := hs
  have hl1 : (w1._spriteList e).type ≠ EntityType.Null := by
    rw [h1 e he]
    exact hl
  rw [sprite_remove_eq env w hI e he hl, sprite_remove_eq env w1 hI1 e he hl1]
  refine ⟨?_, ?_, ?_, ?_⟩
  · exact update_agree _ _ _ _ _ h1
  · simp only [h1 e he, h2]
  · simp only [h3]
  · simp only [h1 e he, h4]

theorem SameRegistry_MoveTo (env : Env) (w w1 : World) (hI : RegInv env w)
    (hI1 : RegInv env w1) (hs : SameRegistry env w w1) (e : Nat) (he : e < env.MAX_ENTITIES)
    (hl : (w._spriteList e).type ≠ EntityType.Null) (p : CoordsXYZ) :
    SameRegistry env (MoveTo env w e p) (MoveTo env w1 e p) := by
  obtain ⟨h1, h2, h3, h4⟩ := hs
  have hl1 : (w1._spriteList e).type ≠ EntityType.Null := by
    rw [h1 e he]
    exact hl
  have hf := MoveTo_frame env w e p
  have hf1 := MoveTo_frame env w1 e p
  refine ⟨?_, ?_, ?_, ?_⟩
  · rw [hf.1, hf1.1, h1 e he]
    exact update_agree _ _ _ _ _ h1
  · rw [hf.2.1, hf1.2.1, h2]
  · rw [hf.2.2.1, hf1.2.2.1, h3]
  · rw [MoveTo_index env w hI e he hl p, MoveTo_index env w1 hI1 e he hl1 p]
    unfold movedIndex
    rw [h1 e he, h4]

theorem RegInv_applyOp (env : Env) (w : World) (hI : RegInv env w) (op : Op)
    (hv : validOp env w op) : RegInv env (applyOp env w op) := by
  cases op with
  | create type => exact RegInv_CreateEntity env w hI type hv
  | remove e => exact RegInv_sprite_remove env w hI e hv.1 hv.2
  | moveTo e p => exact RegInv_MoveTo env w hI e hv.1 hv.2 p

theorem SameRegistry_applyOp (env : Env) (w w1 : World) (hI : RegInv env w)
    (hI1 : RegInv env w1) (hs : SameRegistry env w w1) (op : Op) (hv : validOp env w op) :
    SameRegistry env (applyOp env w op) (applyOp env w1 op) ∧ validOp env w1 op := by
  cases op with
  | create type => exact ⟨SameRegistry_CreateEntity env w w1 hI hI1 hs type, hv⟩
  | remove e =>
    refine ⟨SameRegistry_sprite_remove env w w1 hI hI1 hs e hv.1 hv.2, hv.1, ?_⟩
    rw [hs.1 e hv.1]
    exact hv.2
  | moveTo e p =>
    refine ⟨SameRegistry_MoveTo env w w1 hI hI1 hs e hv.1 hv.2 p, hv.1, ?_⟩
    rw [hs.1 e hv.1]
    exact hv.2

/-- Two replays of the same valid operations from worlds with the same registry
end in worlds with the same registry. -/
theorem replay_same (env : Env) (ops : List Op) :
    ∀ w w1, RegInv env w → RegInv env w1 → SameRegistry env w w1 → ValidReplay env ops w →
      SameRegistry env (replay env ops w) (replay env ops w1) ∧
        RegInv env (replay env ops w) ∧ RegInv env (replay env ops w1) ∧
        ValidReplay env ops w1 := by
  induction ops with
  | nil =>
    intro w w1 hI hI1 hs _
    exact ⟨hs, hI, hI1, trivial⟩
  | cons op ops ih =>
    intro w w1 hI hI1 hs hv
    obtain ⟨hv1, hv2⟩ := hv
    have h1 := SameRegistry_applyOp env w w1 hI hI1 hs op hv1
    have h2 := ih (applyOp env w op) (applyOp env w1 op) (RegInv_applyOp env w hI op hv1)
      (RegInv_applyOp env w1 hI1 op h1.2) h1.1 hv2
    exact ⟨h2.1, h2.2.1, h2.2.2.1, h1.2, h2.2.2.2⟩

/-- In a consistent registry the iteration `EntityList<T>()` skips nothing. -/
theorem EntityList_eq (env : Env) (w : World) (hI : RegInv env w) (t : EntityType) :
    EntityList env w t = w.gEntityLists t := by
  unfold EntityList
  rw [List.filter_eq_self]
  intro a ha
  have hm := (hI.list_mem t a).1 ha
  rw [GetEntity_of_lt env a hm.1]
  simp [hm.2.1]

theorem NetworkSerialiseEntityTypes_eq (env : Env) (w : World) (hI : RegInv env w) :
    NetworkSerialiseEntityTypes env w =
      GetEntityList w .Guest ++
        (GetEntityList w .Staff ++ (GetEntityList w .Vehicle ++ GetEntityList w .Litter)) := by
  unfold NetworkSerialiseEntityTypes NetworkSerialseEntityType GetEntityList
  rw [EntityList_eq env w hI, EntityList_eq env w hI, EntityList_eq env w hI,
    EntityList_eq env w hI]

theorem mem_NetworkSerialiseEntityTypes (env : Env) (w : World) (hI : RegInv env w) (i : Nat) :
    i ∈ NetworkSerialiseEntityTypes env w ↔
      i < env.MAX_ENTITIES ∧
        ((w._spriteList i).type = EntityType.Guest ∨ (w._spriteList i).type = EntityType.Staff ∨
          (w._spriteList i).type = EntityType.Vehicle ∨
          (w._spriteList i).type = EntityType.Litter) := by
  rw [NetworkSerialiseEntityTypes_eq env w hI]
  unfold GetEntityList
  simp only [List.mem_append, hI.list_mem]
  constructor
  · rintro (h | h | h | h)
    · exact ⟨h.1, Or.inl h.2.1⟩
    · exact ⟨h.1, Or.inr (Or.inl h.2.1)⟩
    · exact ⟨h.1, Or.inr (Or.inr (Or.inl h.2.1))⟩
    · exact ⟨h.1, Or.inr (Or.inr (Or.inr h.2.1))⟩
  · rintro ⟨hi, h | h | h | h⟩
    · exact Or.inl ⟨hi, h, by decide⟩
    · exact Or.inr (Or.inl ⟨hi, h, by decide⟩)
    · exact Or.inr (Or.inr (Or.inl ⟨hi, h, by decide⟩))
    · exact Or.inr (Or.inr (Or.inr ⟨hi, h, by decide⟩))

/-- Worlds with the same consistent registry hand the same entities with the same
slots to `Serialise`. -/
theorem serial_same (env : Env) (w w1 : World) (hI : RegInv env w) (hI1 : RegInv env w1)
    (hs : SameRegistry env w w1) :
    NetworkSerialiseEntityTypes env w1 = NetworkSerialiseEntityTypes env w ∧
      (NetworkSerialiseEntityTypes env w1).map w1._spriteList =
        (NetworkSerialiseEntityTypes env w).map w._spriteList := by
  have hid : NetworkSerialiseEntityTypes env w1 = NetworkSerialiseEntityTypes env w := by
    rw [NetworkSerialiseEntityTypes_eq env w hI, NetworkSerialiseEntityTypes_eq env w1 hI1]
    unfold GetEntityList
    rw [hs.2.1]
  refine ⟨hid, ?_⟩
  rw [hid]
  apply List.map_congr_left
  intro a ha
  exact hs.1 a ((mem_NetworkSerialiseEntityTypes env w hI a).1 ha).1

/-! ## The quantization of positions -/

/-- While `floor2(x, 32)` fits the `int16_t` it is stored in, the offset is the
tile row times 256 plus the tile column, the column taken modulo 256 by the
`uint8_t` it is stored in; the comparison with `sizeof(gSpriteSpatialIndex)`
lets all these values pass. -/
theorem offset_wide (x y : Int) (hx0 : 0 ≤ x) (hx1 : x < 32768) (hy0 : 0 ≤ y) (hy1 : y ≤ 65535) :
    GetSpatialIndexOffset x y = (x / 32 * 256 + y / 32 % 256).toNat := by
  obtain ⟨a, ha⟩ := Int.eq_ofNat_of_zero_le (Int.ediv_nonneg hx0 (by decide : (0 : Int) ≤ 32))
  obtain ⟨b, hb⟩ := Int.eq_ofNat_of_zero_le
    (Int.emod_nonneg (y / 32) (by decide : (256 : Int) ≠ 0))
  have ha1 : a < 1024 := by omega
  have hb1 : b < 256 := by omega
  have hxn : x ≠ LOCATION_NULL := by
    unfold LOCATION_NULL
    omega
  have hcx : clamp x 0 65535 = x := by
    unfold clamp
    rw [if_neg (by omega), if_neg (by omega)]
  have hcy : clamp y 0 65535 = y := by
    unfold clamp
    rw [if_neg (by omega), if_neg (by omega)]
  have hfl : toInt16 (floor2 x 32) * 8 = ((256 * a : Nat) : Int) := by
    unfold floor2
    rw [toInt16_of_isInt16 _ (by unfold IsInt16; omega)]
    push_cast
    omega
  have hty : toUInt8 (y / 32) = ((b : Nat) : Int) := by
    unfold toUInt8
    omega
  have hor : Int.lor ((256 * a : Nat) : Int) ((b : Nat) : Int) = ((256 * a + b : Nat) : Int) := by
    show ((256 * a ||| b : Nat) : Int) = _
    rw [← Nat.mul_add_lt_is_or (by omega : b < 2 ^ 8) a]
  unfold GetSpatialIndexOffset
  simp only [hxn, ne_eq, not_false_eq_true, if_true, hcx, hcy, hfl, hty, hor]
  have hs : toSizeT ((256 * a + b : Nat) : Int) = 256 * a + b := by
    unfold toSizeT
    omega
  rw [hs, if_neg (by unfold sizeofSpriteSpatialIndex SPATIAL_INDEX_SIZE MAXIMUM_MAP_SIZE_TECHNICAL; omega),
    ha, hb]
  omega

/-- Inside the map the offset is the tile row times 256 plus the tile column. -/
theorem offset_in_range (x y : Int) (hx0 : 0 ≤ x) (hx1 : x < 8192) (hy0 : 0 ≤ y) (hy1 : y < 8192) :
    GetSpatialIndexOffset x y = (x / 32 * 256 + y / 32).toNat := by
  rw [offset_wide x y hx0 (by omega) hy0 (by omega)]
  congr 2
  omega

/-! ## The rebuild of the spatial index -/

/-- Inserting an identifier above all elements of an ascending bucket appends
it. -/
theorem insertAt_lower_bound_above (l : List Nat) (hl : l.Pairwise (· < ·)) (v : Nat)
    (hv : ∀ a ∈ l, a < v) : insertAt l (lower_bound l v) v = l ++ [v] := by
  unfold lower_bound
  rw [insertAt_partitionPoint _ (lt_closed v) l hl]
  have h1 : l.filter (fun a => decide (a < v)) = l := by
    rw [List.filter_eq_self]
    intro a ha
    simpa using hv a ha
  have h2 : l.filter (fun a => !decide (a < v)) = [] := by
    rw [List.filter_eq_nil_iff]
    intro a ha
    simpa using hv a ha
  rw [h1, h2]

/-- The first `n` steps of the loop of `reset_sprite_spatial_index`: bucket `b`
holds, in ascending order, the live slots below `n` whose position has the
offset `b`. -/
theorem rebuild_steps (env : Env) (w : World)
    (hidx : ∀ i, i < env.MAX_ENTITIES → (w._spriteList i).sprite_index = i) (n : Nat)
    (hn : n ≤ env.MAX_ENTITIES) :
    ((List.range n).foldl
        (fun (acc : World) (i : Nat) =>
          match GetEntity env i with
          | some e =>
            if (acc._spriteList e).type ≠ EntityType.Null then
              SpriteSpatialInsert acc e (acc._spriteList e).x (acc._spriteList e).y
            else acc
          | none => acc)
        { w with gSpriteSpatialIndex := fun _ => [] })._spriteList = w._spriteList ∧
      ∀ b, ((List.range n).foldl
        (fun (acc : World) (i : Nat) =>
          match GetEntity env i with
          | some e =>
            if (acc._spriteList e).type ≠ EntityType.Null then
              SpriteSpatialInsert acc e (acc._spriteList e).x (acc._spriteList e).y
            else acc
          | none => acc)
        { w with gSpriteSpatialIndex := fun _ => [] }).gSpriteSpatialIndex b =
        (List.range n).filter (fun i => decide ((w._spriteList i).type ≠ EntityType.Null ∧
          GetSpatialIndexOffset (w._spriteList i).x (w._spriteList i).y = b)) := by
  induction n with
  | zero => exact ⟨rfl, fun _ => rfl⟩
  | succ n ih =>
    obtain ⟨h1, h2⟩ := ih (by omega)
    rw [List.range_succ, List.foldl_append]
    simp only [List.foldl_cons, List.foldl_nil, GetEntity_of_lt env n (by omega)]
    generalize (List.range n).foldl _ _ = acc at h1 h2 ⊢
    rw [h1]
    by_cases hl : (w._spriteList n).type = EntityType.Null
    · simp only [hl, ne_eq, not_true_eq_false, if_false]
      refine ⟨h1, ?_⟩
      intro b
      rw [h2 b, List.filter_append]
      simp [hl]
    · simp only [ne_eq, hl, not_false_eq_true, if_true]
      refine ⟨h1, ?_⟩
      intro b
      unfold SpriteSpatialInsert
      simp only [h1, hidx n (by omega)]
      rw [List.filter_append]
      by_cases hb : GetSpatialIndexOffset (w._spriteList n).x (w._spriteList n).y = b
      · subst hb
        rw [Function.update_same, h2]
        rw [insertAt_lower_bound_above]
        · simp [hl]
        · exact List.Pairwise.filter _ (List.pairwise_lt_range n)
        · intro a ha
          exact List.mem_range.1 (List.mem_filter.1 ha).1
      · rw [Function.update_noteq (fun h => hb h.symm), h2]
        simp [hl, hb]

/-- After `reset_sprite_spatial_index` bucket `b` holds, in ascending order, the
live slots whose position has the offset `b`. -/
theorem reset_sprite_spatial_index_bucket (env : Env) (w : World)
    (hidx : ∀ i, i < env.MAX_ENTITIES → (w._spriteList i).sprite_index = i) :
    (reset_sprite_spatial_index env w).gSpriteSpatialIndex = rebuiltIndex env w := by
  funext b
  exact (rebuild_steps env w hidx env.MAX_ENTITIES (Nat.le_refl _)).2 b

theorem rebuiltIndex_congr (env : Env) (w w1 : World) (h : w1._spriteList = w._spriteList) :
    rebuiltIndex env w1 = rebuiltIndex env w := by
  funext b
  unfold rebuiltIndex
  rw [h]

theorem rebuiltIndex_asc (env : Env) (w : World) (b : Nat) :
    (rebuiltIndex env w b).Pairwise (· < ·) :=
  List.Pairwise.filter _ (List.pairwise_lt_range _)

theorem mem_rebuiltIndex (env : Env) (w : World) (b i : Nat) :
    i ∈ rebuiltIndex env w b ↔
      i < env.MAX_ENTITIES ∧ (w._spriteList i).type ≠ EntityType.Null ∧
        GetSpatialIndexOffset (w._spriteList i).x (w._spriteList i).y = b := by
  unfold rebuiltIndex
  simp [List.mem_filter]

/-! ## The repair path of `SpriteSpatialRemove` -/

/-- An entity that is missing from the bucket of its position makes
`SpriteSpatialRemove` rebuild the index. -/
theorem SpriteSpatialRemove_missing (env : Env) (v : World) (e : Nat)
    (hidx : (v._spriteList e).sprite_index = e)
    (hmiss : e ∉ v.gSpriteSpatialIndex
      (GetSpatialIndexOffset (v._spriteList e).x (v._spriteList e).y)) :
    SpriteSpatialRemove env v e = reset_sprite_spatial_index env v := by
  unfold SpriteSpatialRemove
  simp only [hidx]
  rw [if_neg]
  intro h
  exact hmiss (List.get?_mem h)

theorem RemoveFromEntityList_frame (w : World) (e : Nat) :
    (RemoveFromEntityList w e)._spriteList = w._spriteList ∧
      (RemoveFromEntityList w e).gSpriteSpatialIndex = w.gSpriteSpatialIndex := by
  unfold RemoveFromEntityList
  simp only
  split <;> exact ⟨rfl, rfl⟩

/-- The world that `sprite_remove` leaves when the entity is missing from the
bucket of its position: the slot is reset, and every bucket holds the slots that
were live before the call, the removed one among them. -/
theorem sprite_remove_rebuild (env : Env) (w : World)
    (hidx : ∀ i, i < env.MAX_ENTITIES → (w._spriteList i).sprite_index = i) (e : Nat)
    (he : e < env.MAX_ENTITIES)
    (hmiss : e ∉ w.gSpriteSpatialIndex
      (GetSpatialIndexOffset (w._spriteList e).x (w._spriteList e).y)) :
    (sprite_remove env w e)._spriteList = Function.update w._spriteList e (nullSprite e) ∧
      (sprite_remove env w e).gSpriteSpatialIndex = rebuiltIndex env w := by
  have hs : (AddToFreeList (RemoveFromEntityList (RemoveEntity w e) e)
      ((RemoveFromEntityList (RemoveEntity w e) e)._spriteList e).sprite_index)._spriteList =
      w._spriteList := by
    show (RemoveFromEntityList (RemoveEntity w e) e)._spriteList = _
    rw [(RemoveFromEntityList_frame _ e).1, RemoveEntity_spriteList]
  have hb : (AddToFreeList (RemoveFromEntityList (RemoveEntity w e) e)
      ((RemoveFromEntityList (RemoveEntity w e) e)._spriteList e).sprite_index).gSpriteSpatialIndex =
      w.gSpriteSpatialIndex := by
    show (RemoveFromEntityList (RemoveEntity w e) e).gSpriteSpatialIndex = _
    rw [(RemoveFromEntityList_frame _ e).2, RemoveEntity_gSpriteSpatialIndex]
  unfold sprite_remove
  simp only
  generalize AddToFreeList (RemoveFromEntityList (RemoveEntity w e) e)
    ((RemoveFromEntityList (RemoveEntity w e) e)._spriteList e).sprite_index = w3 at hs hb ⊢
  rw [SpriteSpatialRemove_missing env w3 e (by rw [hs]; exact hidx e he) (by rw [hs, hb]; exact hmiss)]
  have hf := reset_sprite_spatial_index_frame env w3
  constructor
  · unfold sprite_reset
    simp only [hf.1, hs, hidx e he, nullSprite]
  · show (reset_sprite_spatial_index env w3).gSpriteSpatialIndex = _
    rw [reset_sprite_spatial_index_bucket env w3 (by rw [hs]; exact hidx)]
    exact rebuiltIndex_congr env w w3 hs

/-- The buckets that `MoveTo` leaves when the entity is missing from the bucket
of its position and moves to another bucket: the index is rebuilt from the
table, with the entity at its old position, and then the entity enters the new
bucket. -/
theorem MoveTo_rebuild (env : Env) (w : World)
    (hidx : ∀ i, i < env.MAX_ENTITIES → (w._spriteList i).sprite_index = i) (e : Nat)
    (he : e < env.MAX_ENTITIES)
    (hmiss : e ∉ w.gSpriteSpatialIndex
      (GetSpatialIndexOffset (w._spriteList e).x (w._spriteList e).y))
    (p : CoordsXYZ)
    (hne : GetSpatialIndexOffset (moveLoc env p).x (moveLoc env p).y ≠
      GetSpatialIndexOffset (w._spriteList e).x (w._spriteList e).y) :
    (MoveTo env w e p).gSpriteSpatialIndex =
      Function.update (rebuiltIndex env w)
        (GetSpatialIndexOffset (moveLoc env p).x (moveLoc env p).y)
        (insertAt (rebuiltIndex env w (GetSpatialIndexOffset (moveLoc env p).x (moveLoc env p).y))
          (lower_bound
            (rebuiltIndex env w (GetSpatialIndexOffset (moveLoc env p).x (moveLoc env p).y)) e)
          e) := by
  have hw : ∀ w1 : World, w1._spriteList = w._spriteList →
      w1.gSpriteSpatialIndex = w.gSpriteSpatialIndex →
      (SpriteSpatialMove env w1 e (moveLoc env p).x (moveLoc env p).y).gSpriteSpatialIndex =
        Function.update (rebuiltIndex env w)
          (GetSpatialIndexOffset (moveLoc env p).x (moveLoc env p).y)
          (insertAt
            (rebuiltIndex env w (GetSpatialIndexOffset (moveLoc env p).x (moveLoc env p).y))
            (lower_bound
              (rebuiltIndex env w (GetSpatialIndexOffset (moveLoc env p).x (moveLoc env p).y)) e)
            e) := by
    intro w1 h1 h2
    unfold SpriteSpatialMove
    simp only [h1]
    rw [if_neg hne, SpriteSpatialRemove_missing env w1 e (by rw [h1]; exact hidx e he)
      (by rw [h1, h2]; exact hmiss)]
    unfold SpriteSpatialInsert
    simp only [(reset_sprite_spatial_index_frame env w1).1, h1, hidx e he,
      reset_sprite_spatial_index_bucket env w1 (by rw [h1]; exact hidx),
      rebuiltIndex_congr env w w1 h1]
  have h0 : (SpriteSpatialMove env (if (w._spriteList e).x ≠ LOCATION_NULL then Invalidate w e
      else w) e (moveLoc env p).x (moveLoc env p).y).gSpriteSpatialIndex =
        Function.update (rebuiltIndex env w)
          (GetSpatialIndexOffset (moveLoc env p).x (moveLoc env p).y)
          (insertAt
            (rebuiltIndex env w (GetSpatialIndexOffset (moveLoc env p).x (moveLoc env p).y))
            (lower_bound
              (rebuiltIndex env w (GetSpatialIndexOffset (moveLoc env p).x (moveLoc env p).y)) e)
            e) := by
    split
    · exact hw _ (Invalidate_frame w e).1 (Invalidate_frame w e).2.2.2.2.1
    · exact hw w rfl rfl
  rw [MoveTo_eq]
  split
  · exact h0
  · rw [(Invalidate_frame _ e).2.2.2.2.1]
    exact h0

/-! ## A run of misc creations -/

theorem regReachable_createAll (env : Env) (ts : List EntityType) :
    ∀ w, RegReachable env w → (∀ t ∈ ts, t ≠ EntityType.Null) →
      RegReachable env (createAll env w ts) := by
  induction ts with
  | nil => intro w h _; exact h
  | cons t ts ih =>
    intro w h ht
    exact ih _ (RegReachable.create w t h (ht t (List.mem_cons_self _ _)))
      (fun u hu => ht u (List.mem_cons_of_mem _ hu))

/-- With ducks as the only misc entities, `GetMiscEntityCount` is their number. -/
theorem GetMiscEntityCount_ducks (w : World) (m : Nat) (hm : m < 65536)
    (hd : (w.gEntityLists EntityType.Duck).length = m)
    (ho : ∀ t, t ≠ EntityType.Duck → w.gEntityLists t = []) : GetMiscEntityCount w = m := by
  unfold GetMiscEntityCount GetEntityListCount
  simp only [List.foldl_cons, List.foldl_nil, hd, ho EntityType.SteamParticle (by decide),
    ho EntityType.MoneyEffect (by decide), ho EntityType.CrashedVehicleParticle (by decide),
    ho EntityType.ExplosionCloud (by decide), ho EntityType.CrashSplash (by decide),
    ho EntityType.ExplosionFlare (by decide), ho EntityType.JumpingFountain (by decide),
    ho EntityType.Balloon (by decide), List.length_nil]
  omega

/-- One more duck: with `m` ducks as the only entities besides gameplay ones,
`m` at most `MAX_MISC_SPRITES`, and more free slots than
`MAX_MISC_SPRITES - m`, the creation is granted. -/
theorem create_duck (env : Env) (w : World) (hI : RegInv env w) (m : Nat) (hm : m ≤ 300)
    (hd : (w.gEntityLists EntityType.Duck).length = m)
    (ho : ∀ t, t ≠ EntityType.Duck → w.gEntityLists t = [])
    (hf : 300 - m < w._freeIdList.length) :
    ((CreateEntity env w EntityType.Duck).1.gEntityLists EntityType.Duck).length = m + 1 ∧
      (∀ t, t ≠ EntityType.Duck → (CreateEntity env w EntityType.Duck).1.gEntityLists t = []) ∧
      (CreateEntity env w EntityType.Duck).1._freeIdList.length + 1 = w._freeIdList.length := by
  have hc := GetMiscEntityCount_ducks w m (by omega) hd ho
  have hne : w._freeIdList ≠ [] := by
    intro h0
    rw [h0] at hf
    simp at hf
  have hr : ¬ MiscRefused w EntityType.Duck := by
    intro hr
    have h2 := hr.2
    rw [hc] at h2
    unfold MAX_MISC_SPRITES toUInt16 at h2
    omega
  have hl := free_last w._freeIdList hI.free_desc hne
  have hlt := ((hI.free_mem _).1 hl.1).1
  rw [CreateEntity_granted env w hI EntityType.Duck hne hr]
  generalize hF : w._freeIdList.filter (fun a => decide (a ≠ w._freeIdList.getLastD 0)) = F
  dsimp only
  rw [PrepareNewEntity_gEntityLists { w with _freeIdList := F } _ EntityType.Duck
    (hI.idx _ hlt)]
  refine ⟨?_, ?_, ?_⟩
  · rw [Function.update_same, length_insertAt]
    exact congrArg (· + 1) hd
  · intro t ht
    rw [Function.update_noteq ht]
    exact ho t ht
  · show F.length + 1 = _
    rw [← hF, ← hl.2.2, List.length_dropLast]
    have : 0 < w._freeIdList.length := List.length_pos.2 hne
    omega

/-- A run of `n` duck creations from `m` ducks, while the total stays within
`MAX_MISC_SPRITES + 1`: every one of them is granted. -/
theorem createAll_ducks (env : Env) (hcap : 300 < env.MAX_ENTITIES) (n : Nat) :
    ∀ (w : World) (m : Nat), RegInv env w → m + n ≤ 301 →
      (w.gEntityLists EntityType.Duck).length = m →
      (∀ t, t ≠ EntityType.Duck → w.gEntityLists t = []) →
      w._freeIdList.length + m = env.MAX_ENTITIES →
      ((createAll env w (List.replicate n EntityType.Duck)).gEntityLists EntityType.Duck).length =
          m + n ∧
        (∀ t, t ≠ EntityType.Duck →
          (createAll env w (List.replicate n EntityType.Duck)).gEntityLists t = []) := by
  induction n with
  | zero =>
    intro w m _ _ hd ho _
    exact ⟨hd, ho⟩
  | succ n ih =>
    intro w m hI hmn hd ho hf
    have h1 := create_duck env w hI m (by omega) hd ho (by omega)
    have h2 := ih (CreateEntity env w EntityType.Duck).1 (m + 1)
      (RegInv_CreateEntity env w hI EntityType.Duck (by decide)) (by omega) h1.1 h1.2.1
      (by omega)
    rw [List.replicate_succ, createAll]
    refine ⟨?_, h2.2⟩
    rw [h2.1]
    omega

/-! ## What `Tween` and a failed creation leave alone -/

/-- Whenever the loop of `Tween` ends it has changed slots and invalidation log
only, and in no slot the tag or the identifier. -/
theorem tweenLoop_frame (env : Env) (alpha : ℚ) :
    ∀ (es : List (Option Nat)) (as bs : List CoordsXYZ) (w w1 : World),
      tweenLoop env alpha es as bs w = some w1 →
      w1.gSpriteSpatialIndex = w.gSpriteSpatialIndex ∧ w1.gEntityLists = w.gEntityLists ∧
        w1._freeIdList = w._freeIdList ∧ w1._spriteFlashingList = w._spriteFlashingList ∧
        w1.tweener = w.tweener ∧ w1.gSavedAge = w.gSavedAge ∧
        ∀ i, (w1._spriteList i).type = (w._spriteList i).type ∧
          (w1._spriteList i).sprite_index = (w._spriteList i).sprite_index := by
  intro es
  induction es with
  | nil =>
    intro as bs w w1 h
    rw [tweenLoop] at h
    simp only [Option.some.injEq] at h
    subst h
    exact ⟨rfl, rfl, rfl, rfl, rfl, rfl, fun _ => ⟨rfl, rfl⟩⟩
  | cons x t ih =>
    intro as bs w w1 h
    cases x with
    | none =>
      rw [tweenLoop] at h
      exact ih _ _ w w1 h
    | some e =>
      cases as with
      | nil => simp [tweenLoop] at h
      | cons a0 as =>
        cases bs with
        | nil => simp [tweenLoop] at h
        | cons b0 bs =>
          rw [tweenLoop] at h
          by_cases hab : a0 = b0
          · rw [if_pos hab] at h
            exact ih _ _ w w1 h
          · rw [if_neg hab] at h
            have hs := place_step env w (tweenPos env alpha a0 b0) e
            obtain ⟨h1, h2, h3, h4, h5, h6, h7⟩ := ih _ _ _ w1 h
            refine ⟨h1.trans hs.2.2.2.2.1, h2.trans hs.2.1, h3.trans hs.2.2.1,
              h4.trans hs.2.2.2.1, h5.trans hs.2.2.2.2.2.1, h6.trans hs.2.2.2.2.2.2, ?_⟩
            intro i
            rw [(h7 i).1, (h7 i).2, hs.1]
            by_cases hie : i = e
            · subst hie
              rw [Function.update_same]
              exact ⟨rfl, rfl⟩
            · rw [Function.update_noteq hie]
              exact ⟨rfl, rfl⟩

/-- With both snapshot vectors at least as long as `Entities` the loop of `Tween`
reads inside them and ends. -/
theorem tweenLoop_defined (env : Env) (alpha : ℚ) :
    ∀ (es : List (Option Nat)) (as bs : List CoordsXYZ) (w : World),
      es.length ≤ as.length → es.length ≤ bs.length →
      ∃ w1, tweenLoop env alpha es as bs w = some w1 := by
  intro es
  induction es with
  | nil =>
    intro as bs w _ _
    exact ⟨w, by rw [tweenLoop]⟩
  | cons x t ih =>
    intro as bs w hla hlb
    simp only [List.length_cons] at hla hlb
    cases x with
    | none =>
      obtain ⟨w1, h1⟩ := ih as.tail bs.tail w (by rw [List.length_tail]; omega)
        (by rw [List.length_tail]; omega)
      exact ⟨w1, by rw [tweenLoop]; exact h1⟩
    | some e =>
      cases as with
      | nil => simp at hla
      | cons a0 as =>
        cases bs with
        | nil => simp at hlb
        | cons b0 bs =>
          simp only [List.length_cons] at hla hlb
          by_cases hab : a0 = b0
          · obtain ⟨w1, h1⟩ := ih as bs w (by omega) (by omega)
            exact ⟨w1, by rw [tweenLoop, if_pos hab]; exact h1⟩
          · obtain ⟨w1, h1⟩ := ih as bs
              (Invalidate (sprite_set_coordinates env w (tweenPos env alpha a0 b0) e) e)
              (by omega) (by omega)
            exact ⟨w1, by rw [tweenLoop, if_neg hab]; exact h1⟩

theorem CreateEntityAt_none (env : Env) (w : World) (index : Nat) (type : EntityType)
    (h : (CreateEntityAt env w index type).2 = none) : (CreateEntityAt env w index type).1 = w := by
  unfold CreateEntityAt at h ⊢
  simp only at h ⊢
  split
  · rfl
  · split
    · rfl
    · rename_i h1 _ _ h2
      rw [if_neg h1, h2] at h
      exact absurd h (by simp)

/-! ## Stored positions and the bounds of the spatial table -/

/-- Without a reference to `e` there is nothing to clear. -/
theorem clearFirst_of_not_mem (l : List (Option Nat)) (e : Nat) (h : some e ∉ l) :
    clearFirst l e = l := by
  induction l with
  | nil => rfl
  | cons a t ih =>
    unfold clearFirst
    rw [List.mem_cons, not_or] at h
    rw [if_neg (fun hc => h.1 hc.symm), ih h.2]

/-- The slots after `PrepareNewEntity` on a world whose free list was changed. -/
theorem prepared_slots (w : World) (F : List Nat) (id : Nat) (type : EntityType)
    (hidx : (w._spriteList id).sprite_index = id) :
    (PrepareNewEntity { w with _freeIdList := F } id type)._spriteList =
      Function.update w._spriteList id (preparedSprite id type) :=
  PrepareNewEntity_spriteList { w with _freeIdList := F } id type hidx

/-- In a reachable state the stored position of every slot is unplaced or inside
the map. -/
theorem stored_position_range (env : Env) (w : World) (h : RegReachable env w) (i : Nat)
    (hi : i < env.MAX_ENTITIES) :
    (w._spriteList i).x = LOCATION_NULL ∨
      (0 ≤ (w._spriteList i).x ∧ (w._spriteList i).x < 8192 ∧
        0 ≤ (w._spriteList i).y ∧ (w._spriteList i).y < 8192) := by
  induction h with
  | reset w =>
    right
    rw [reset_sprite_list_eq]
    simp [hi, nullSprite, zeroSprite]
  | create w type h ht ih =>
    have hI := RegInv_of_RegReachable env w h
    cases hc : (CreateEntity env w type).2 with
    | none =>
      rw [CreateEntity_none env w type hc]
      exact ih
    | some id =>
      obtain ⟨hm, _, heq⟩ := CreateEntity_some env w hI type id hc
      have hid := ((hI.free_mem id).1 hm).1
      rw [heq, prepared_slots w _ id type (hI.idx id hid)]
      by_cases hie : i = id
      · subst hie
        left
        rw [Function.update_same]
        rfl
      · rw [Function.update_noteq hie]
        exact ih
  | createAt w index type h ht ih =>
    have hI := RegInv_of_RegReachable env w h
    cases hc : (CreateEntityAt env w index type).2 with
    | none =>
      rw [CreateEntityAt_none env w index type hc]
      exact ih
    | some id =>
      obtain ⟨_, hm, heq⟩ := CreateEntityAt_some env w hI index type id hc
      have hid := ((hI.free_mem id).1 hm).1
      rw [heq, prepared_slots w _ id type (hI.idx id hid)]
      by_cases hie : i = id
      · subst hie
        left
        rw [Function.update_same]
        rfl
      · rw [Function.update_noteq hie]
        exact ih
  | remove w e h he hl ih =>
    have hI := RegInv_of_RegReachable env w h
    rw [sprite_remove_eq env w hI e he hl]
    by_cases hie : i = e
    · subst hie
      right
      simp [nullSprite, zeroSprite]
    · simp only [Function.update_noteq hie]
      exact ih
  | moveTo w e p h he hl ih =>
    rw [(MoveTo_frame env w e p).1]
    by_cases hie : i = e
    · subst hie
      rw [Function.update_same, movedSprite_x, movedSprite_y]
      rcases moveLoc_range env p with hn | ⟨h1, h2, h3, h4⟩
      · left
        rw [hn]
        rfl
      · right
        rw [toInt16_of_isInt16 _ (by unfold IsInt16; omega),
          toInt16_of_isInt16 _ (by unfold IsInt16; omega)]
        exact ⟨h1, h2, h3, h4⟩
    · rw [Function.update_noteq hie]
      exact ih
  | setFlashing w e flashing h he hl ih => exact ih

/-- The offset of a position that is unplaced or inside the map lies inside the
table of `SPATIAL_INDEX_SIZE` buckets. -/
theorem offset_lt_size (x y : Int)
    (h : x = LOCATION_NULL ∨ (0 ≤ x ∧ x < 8192 ∧ 0 ≤ y ∧ y < 8192)) :
    GetSpatialIndexOffset x y < SPATIAL_INDEX_SIZE := by
  rcases h with h | ⟨h1, h2, h3, h4⟩
  · rw [h, offset_null]
    decide
  · rw [offset_in_range x y h1 h2 h3 h4]
    have : SPATIAL_INDEX_SIZE = 65537 := by decide
    rw [this]
    omega

/-- Every bucket of the table is the bucket of a position: the null bucket of
the unplaced position, every other one of a position inside the map. -/
theorem offset_onto (b : Nat) (hb : b < SPATIAL_INDEX_SIZE) :
    ∃ x y : Int, (x = LOCATION_NULL ∨ (0 ≤ x ∧ x < 8192 ∧ 0 ≤ y ∧ y < 8192)) ∧
      GetSpatialIndexOffset x y = b := by
  have hs : SPATIAL_INDEX_SIZE = 65537 := by decide
  rw [hs] at hb
  by_cases h : b = 65536
  · refine ⟨LOCATION_NULL, 0, Or.inl rfl, ?_⟩
    rw [offset_null, h]
    decide
  · have h1 : (0 : Int) ≤ ((b / 256 : Nat) : Int) * 32 := by omega
    have h2 : ((b / 256 : Nat) : Int) * 32 < 8192 := by omega
    have h3 : (0 : Int) ≤ ((b % 256 : Nat) : Int) * 32 := by omega
    have h4 : ((b % 256 : Nat) : Int) * 32 < 8192 := by omega
    refine ⟨((b / 256 : Nat) : Int) * 32, ((b % 256 : Nat) : Int) * 32,
      Or.inr ⟨h1, h2, h3, h4⟩, ?_⟩
    rw [offset_in_range _ _ h1 h2 h3 h4]
    omega

/-- In a reachable state the bucket of every stored position is a bucket of the
table. -/
theorem stored_offset_lt (env : Env) (w : World) (h : RegReachable env w) (i : Nat)
    (hi : i < env.MAX_ENTITIES) :
    GetSpatialIndexOffset (w._spriteList i).x (w._spriteList i).y < SPATIAL_INDEX_SIZE :=
  offset_lt_size _ _ (stored_position_range env w h i hi)

/-- Inside the table `GetEntityTileList` returns the bucket of the offset. -/
theorem GetEntityTileList_of_lt (w : World) (x y : Int)
    (h : GetSpatialIndexOffset x y < SPATIAL_INDEX_SIZE) :
    GetEntityTileList w x y = some (w.gSpriteSpatialIndex (GetSpatialIndexOffset x y)) := by
  unfold GetEntityTileList
  rw [if_pos h]

/-- A result of `GetEntityTileList` is a bucket of the table. -/
theorem GetEntityTileList_some (w : World) (x y : Int) (l : List Nat)
    (h : GetEntityTileList w x y = some l) :
    GetSpatialIndexOffset x y < SPATIAL_INDEX_SIZE ∧
      l = w.gSpriteSpatialIndex (GetSpatialIndexOffset x y) := by
  unfold GetEntityTileList at h
  split at h
  · rename_i hlt
    exact ⟨hlt, (Option.some.inj h).symm⟩
  · cases h

/-! ## Reachability of the concrete instances -/

theorem regReachable_reset5 : RegReachable env5 reset5 := RegReachable.reset startWorld

theorem regReachable_one5 : RegReachable env5 one5 :=
  RegReachable.create reset5 EntityType.Guest regReachable_reset5 (by decide)

theorem regReachable_duck5 : RegReachable env5 duck5 :=
  RegReachable.createAt reset5 0 EntityType.Duck regReachable_reset5 (by decide)

theorem regReachable_moved5 : RegReachable env5 moved5 :=
  RegReachable.moveTo one5 0 { x := 33, y := 64, z := 5 } regReachable_one5 (by decide)
    (by decide!)

theorem regReachable_full5 : RegReachable env5 full5 :=
  RegReachable.create _ EntityType.Guest
    (RegReachable.create _ EntityType.Guest
      (RegReachable.create _ EntityType.Guest
        (RegReachable.create _ EntityType.Guest regReachable_one5 (by decide)) (by decide))
      (by decide)) (by decide)

theorem regReachable_holes5 : RegReachable env5 holes5 :=
  RegReachable.remove _ 1
    (RegReachable.remove full5 3 regReachable_full5 (by decide) (by decide!)) (by decide)
    (by decide!)

theorem regReachable_flagged5 : RegReachable env5 flagged5 :=
  RegReachable.setFlashing _ 0 true
    (RegReachable.create _ EntityType.Guest (RegReachable.reset tracked5) (by decide))
    (by decide) (by decide!)

/-! ## The claims -/

/-- C1 (spatial index completeness): in every state reachable from
`reset_sprite_list` by `CreateEntity`, `CreateEntityAt`, `sprite_remove` and
`MoveTo`, for every entity whose tag is not Null, the bucket of its stored
position is a bucket of the table, so that `GetEntityTileList` of its `(x, y)`
returns it, its `sprite_index` occurs exactly once in that bucket, and in no
other bucket.  The assumption that a valid location has both coordinates in
`[0, 32 * MAXIMUM_MAP_SIZE_TECHNICAL)` is the field `valid_in_range` of the
environment. -/
theorem spatial_index_complete (env : Env) (w : World) (h : RegReachable env w) (i : Nat)
    (hi : i < env.MAX_ENTITIES) (hl : (w._spriteList i).type ≠ EntityType.Null) :
    (∃ l, GetEntityTileList w (w._spriteList i).x (w._spriteList i).y = some l ∧
        l = w.gSpriteSpatialIndex
          (GetSpatialIndexOffset (w._spriteList i).x (w._spriteList i).y) ∧
        l.count (w._spriteList i).sprite_index = 1) ∧
      ∀ b, b ≠ GetSpatialIndexOffset (w._spriteList i).x (w._spriteList i).y →
        (w._spriteList i).sprite_index ∉ w.gSpriteSpatialIndex b := by
  have hI := RegInv_of_RegReachable env w h
  rw [hI.idx i hi]
  constructor
  · exact ⟨_, GetEntityTileList_of_lt w _ _ (stored_offset_lt env w h i hi), rfl,
      count_eq_one_of_pairwise _ (hI.bucket_asc _) i ((hI.bucket_mem _ i).2 ⟨hi, hl, rfl⟩)⟩
  · intro b hb hm
    exact hb ((hI.bucket_mem b i).1 hm).2.2.symm

/-- The guest moved to (33, 64, 5) sits exactly once in bucket 258, the cell of
its position, which `GetEntityTileList` returns, and nowhere else. -/
theorem spatial_index_complete_witness :
    RegReachable env5 moved5 ∧ 0 < env5.MAX_ENTITIES ∧
      (moved5._spriteList 0).type ≠ EntityType.Null ∧
      GetSpatialIndexOffset (moved5._spriteList 0).x (moved5._spriteList 0).y = 258 ∧
      GetEntityTileList moved5 33 64 = some [0] ∧
      ((∃ l, GetEntityTileList moved5 (moved5._spriteList 0).x (moved5._spriteList 0).y =
            some l ∧
          l = moved5.gSpriteSpatialIndex
            (GetSpatialIndexOffset (moved5._spriteList 0).x (moved5._spriteList 0).y) ∧
          l.count (moved5._spriteList 0).sprite_index = 1) ∧
        ∀ b, b ≠ GetSpatialIndexOffset (moved5._spriteList 0).x (moved5._spriteList 0).y →
          (moved5._spriteList 0).sprite_index ∉ moved5.gSpriteSpatialIndex b) :=
  ⟨regReachable_moved5, by decide, by decide!, by decide!, by decide!,
    spatial_index_complete env5 moved5 regReachable_moved5 0 (by decide) (by decide!)⟩

/-- C2 (free list and tags): in every state reachable from `reset_sprite_list`
by `CreateEntity`, `CreateEntityAt`, `sprite_remove` and `MoveTo`, an index below
`MAX_ENTITIES` is in `_freeIdList` exactly when its slot has the tag Null, and
no entity with the tag Null is in any per-type list. -/
theorem free_iff_null (env : Env) (w : World) (h : RegReachable env w) :
    (∀ i, i < env.MAX_ENTITIES →
      (i ∈ w._freeIdList ↔ (w._spriteList i).type = EntityType.Null)) ∧
    (∀ i t, i < env.MAX_ENTITIES → (w._spriteList i).type = EntityType.Null →
      (w._spriteList i).sprite_index ∉ w.gEntityLists t) := by
  have hI := RegInv_of_RegReachable env w h
  constructor
  · intro i hi
    rw [hI.free_mem i]
    simp [hi]
  · intro i t hi hn
    rw [hI.idx i hi]
    exact not_mem_list_of_null env w hI i hn t

/-- The invariant of C2 on the full world with two holes. -/
theorem free_iff_null_witness :
    RegReachable env5 holes5 ∧
      ((∀ i, i < env5.MAX_ENTITIES →
        (i ∈ holes5._freeIdList ↔ (holes5._spriteList i).type = EntityType.Null)) ∧
      (∀ i t, i < env5.MAX_ENTITIES → (holes5._spriteList i).type = EntityType.Null →
        (holes5._spriteList i).sprite_index ∉ holes5.gEntityLists t)) :=
  ⟨regReachable_holes5, free_iff_null env5 holes5 regReachable_holes5⟩

/-- C3 (slot conservation): in every state reachable from `reset_sprite_list` by
`CreateEntity`, `CreateEntityAt`, `sprite_remove` and `MoveTo`,
`GetNumFreeEntities()` plus the sum of `GetEntityListCount(t)` over the thirteen
tags is `MAX_ENTITIES`. -/
theorem slot_conservation (env : Env) (w : World) (h : RegReachable env w) :
    GetNumFreeEntities w + (allEntityTypes.map (GetEntityListCount w)).sum =
      env.MAX_ENTITIES := by
  have hI := RegInv_of_RegReachable env w h
  have hcap := env.max_entities_le
  have h1 := length_free_le env w hI
  have e : allEntityTypes.map (GetEntityListCount w) =
      allEntityTypes.map (fun t => (w.gEntityLists t).length) := by
    apply List.map_congr_left
    intro t ht
    have := length_list_le env w hI t ht
    unfold GetEntityListCount
    omega
  unfold GetNumFreeEntities
  rw [e, Nat.mod_eq_of_lt (by omega)]
  exact slots_shared env w hI

/-- Slot conservation on the full world with two holes. -/
theorem slot_conservation_witness :
    RegReachable env5 holes5 ∧
      GetNumFreeEntities holes5 + (allEntityTypes.map (GetEntityListCount holes5)).sum =
        env5.MAX_ENTITIES :=
  ⟨regReachable_holes5, slot_conservation env5 holes5 regReachable_holes5⟩

/-- C4 (smallest free identifier first): in every reachable state, when
`CreateEntity(type)` succeeds the `sprite_index` of the entity returned is in
the free list and no free identifier is smaller. -/
theorem create_takes_smallest (env : Env) (w : World) (h : RegReachable env w)
    (type : EntityType) (id : Nat) (hc : (CreateEntity env w type).2 = some id) :
    ((CreateEntity env w type).1._spriteList id).sprite_index ∈ w._freeIdList ∧
      ∀ j ∈ w._freeIdList, ((CreateEntity env w type).1._spriteList id).sprite_index ≤ j := by
  have hI := RegInv_of_RegReachable env w h
  by_cases hr : w._freeIdList = [] ∨ MiscRefused w type
  · rw [CreateEntity_refused env w type hr] at hc
    exact absurd hc (by simp)
  · rw [not_or] at hr
    obtain ⟨h1, h2, h3⟩ := CreateEntity_some env w hI type id hc
    rw [h3, PrepareNewEntity_spriteList
      { w with _freeIdList := w._freeIdList.filter (fun a => decide (a ≠ id)) } id type
      (hI.idx id ((hI.free_mem id).1 h1).1)]
    simp only [Function.update_same, preparedSprite]
    exact ⟨h1, h2⟩

/-- The reuse example of the spec: capacity 5, all five slots allocated, 3 and
then 1 released; the next two allocations return 1 and then 3. -/
theorem create_takes_smallest_witness :
    RegReachable env5 holes5 ∧
      (CreateEntity env5 holes5 EntityType.Guest).2 = some 1 ∧
      (CreateEntity env5 (CreateEntity env5 holes5 EntityType.Guest).1 EntityType.Guest).2 =
        some 3 ∧
      (((CreateEntity env5 holes5 EntityType.Guest).1._spriteList 1).sprite_index ∈
          holes5._freeIdList ∧
        ∀ j ∈ holes5._freeIdList,
          ((CreateEntity env5 holes5 EntityType.Guest).1._spriteList 1).sprite_index ≤ j) :=
  ⟨regReachable_holes5, by decide!, by decide!,
    create_takes_smallest env5 holes5 regReachable_holes5 EntityType.Guest 1 (by decide!)⟩

/-- C5 (creation postcondition): when `CreateEntity(type)` or
`CreateEntityAt(index, type)` succeeds in a reachable state, the slot returned
is `preparedSprite`, a function of its identifier and `type` only: it keeps the
`sprite_index` of the slot, has the tag `type`, `x = y = LOCATION_NULL`,
`z = 0` and `sprite_left = LOCATION_NULL`; its flashing flag is false; its id is
once in the list of `type` and in no other list, once in the null bucket and in
no other bucket; and the free list is the old one without that id. -/
theorem creation_postcondition (env : Env) (w : World) (h : RegReachable env w)
    (type : EntityType) (index : Nat) (w1 : World) (id : Nat)
    (hc : CreateEntity env w type = (w1, some id) ∨
      CreateEntityAt env w index type = (w1, some id)) :
    w1._spriteList id = preparedSprite id type ∧
    (w1._spriteList id).sprite_index = (w._spriteList id).sprite_index ∧
    (w1._spriteList id).type = type ∧
    (w1._spriteList id).x = LOCATION_NULL ∧ (w1._spriteList id).y = LOCATION_NULL ∧
    (w1._spriteList id).z = 0 ∧ (w1._spriteList id).sprite_left = LOCATION_NULL ∧
    sprite_get_flashing w1 id = false ∧
    (w1.gEntityLists type).count id = 1 ∧
    (∀ t, t ≠ type → id ∉ w1.gEntityLists t) ∧
    (w1.gSpriteSpatialIndex SPATIAL_INDEX_LOCATION_NULL).count id = 1 ∧
    (∀ b, b ≠ SPATIAL_INDEX_LOCATION_NULL → id ∉ w1.gSpriteSpatialIndex b) ∧
    id ∈ w._freeIdList ∧
    w1._freeIdList = w._freeIdList.filter (fun a => decide (a ≠ id)) := by
  have hI := RegInv_of_RegReachable env w h
  have key : id ∈ w._freeIdList ∧ w1 = PrepareNewEntity
      { w with _freeIdList := w._freeIdList.filter (fun a => decide (a ≠ id)) } id type := by
    rcases hc with hc | hc
    · have h2 : (CreateEntity env w type).2 = some id := by rw [hc]
      have h1 : (CreateEntity env w type).1 = w1 := by rw [hc]
      obtain ⟨a1, _, a3⟩ := CreateEntity_some env w hI type id h2
      exact ⟨a1, h1.symm.trans a3⟩
    · have h2 : (CreateEntityAt env w index type).2 = some id := by rw [hc]
      have h1 : (CreateEntityAt env w index type).1 = w1 := by rw [hc]
      obtain ⟨_, a1, a3⟩ := CreateEntityAt_some env w hI index type id h2
      exact ⟨a1, h1.symm.trans a3⟩
  obtain ⟨p1, p2, p3, p4, p5, p6, p7, p8⟩ := prepare_post env w hI id type key.1 w1 key.2
  refine ⟨p1, ?_, ?_, ?_, ?_, ?_, ?_, ?_, p4, p5, p6, p7, key.1, p8⟩
  · rw [p1, p2]
    rfl
  · rw [p1]
    rfl
  · rw [p1]
    rfl
  · rw [p1]
    rfl
  · rw [p1]
    rfl
  · rw [p1]
    rfl
  · unfold sprite_get_flashing
    rw [p1]
    exact p3

/-- The first guest created after a reset with capacity 5. -/
theorem creation_postcondition_witness :
    RegReachable env5 reset5 ∧
      (CreateEntity env5 reset5 EntityType.Guest = (one5, some 0) ∨
        CreateEntityAt env5 reset5 0 EntityType.Guest = (one5, some 0)) ∧
      (one5._spriteList 0 = preparedSprite 0 EntityType.Guest ∧
      (one5._spriteList 0).sprite_index = (reset5._spriteList 0).sprite_index ∧
      (one5._spriteList 0).type = EntityType.Guest ∧
      (one5._spriteList 0).x = LOCATION_NULL ∧ (one5._spriteList 0).y = LOCATION_NULL ∧
      (one5._spriteList 0).z = 0 ∧ (one5._spriteList 0).sprite_left = LOCATION_NULL ∧
      sprite_get_flashing one5 0 = false ∧
      (one5.gEntityLists EntityType.Guest).count 0 = 1 ∧
      (∀ t, t ≠ EntityType.Guest → 0 ∉ one5.gEntityLists t) ∧
      (one5.gSpriteSpatialIndex SPATIAL_INDEX_LOCATION_NULL).count 0 = 1 ∧
      (∀ b, b ≠ SPATIAL_INDEX_LOCATION_NULL → 0 ∉ one5.gSpriteSpatialIndex b) ∧
      0 ∈ reset5._freeIdList ∧
      one5._freeIdList = reset5._freeIdList.filter (fun a => decide (a ≠ 0))) :=
  ⟨regReachable_reset5, Or.inl (Prod.ext rfl (by decide!)),
    creation_postcondition env5 reset5 regReachable_reset5 EntityType.Guest 0 one5 0
      (Or.inl (Prod.ext rfl (by decide!)))⟩

/-- C6 as the claim has it, refuted: `reset_sprite_list` leaves the tweener as
it is, so after a restart from `tracked5` the tweener still refers to slot 0;
the slot goes to a litter item, and `sprite_remove` of that live entity leaves
the reference in the tweener's `Entities`, because `RemoveEntity` returns at
once for an entity that is neither a peep nor a vehicle. -/
theorem removal_keeps_stale_reference :
    RegReachable env5 stale5 ∧ 0 < env5.MAX_ENTITIES ∧
      (stale5._spriteList 0).type = EntityType.Litter ∧
      ((sprite_remove env5 stale5 0)._spriteList 0).type = EntityType.Null ∧
      some 0 ∈ (sprite_remove env5 stale5 0).tweener.Entities :=
  ⟨RegReachable.create _ EntityType.Litter (RegReachable.reset tracked5) (by decide),
    by decide, by decide!, by decide!, by decide!⟩

/-- C6, amended (destruction postcondition): after `sprite_remove(e)` of a live
entity in a reachable state, whatever the flashing flags and the content of the
tweener, slot `e` is `nullSprite e` (tag Null, the same `sprite_index`, every
other field zero), its flashing flag is false, its id is in the free list, in
no per-type list and in no bucket, and `GetNumFreeEntities()` has grown by 1.
The tweener's `Entities` loses its first reference to `e`, which becomes a hole,
when `e` is a guest, a staff member or a vehicle, and then holds no reference
to `e` if it held at most one; for any other entity the tweener is unchanged.
Everything else is as before: the other slots and flags, the other entries of
every list, of every bucket and of the free list, the length of `Entities`, its
references to other entities and the two snapshot vectors. -/
theorem removal_postcondition (env : Env) (w : World) (h : RegReachable env w) (e : Nat)
    (he : e < env.MAX_ENTITIES) (hl : (w._spriteList e).type ≠ EntityType.Null) :
    (sprite_remove env w e)._spriteList e = nullSprite e ∧
    ((sprite_remove env w e)._spriteList e).type = EntityType.Null ∧
    ((sprite_remove env w e)._spriteList e).sprite_index = (w._spriteList e).sprite_index ∧
    sprite_get_flashing (sprite_remove env w e) e = false ∧
    e ∈ (sprite_remove env w e)._freeIdList ∧
    (∀ t, e ∉ (sprite_remove env w e).gEntityLists t) ∧
    (∀ b, e ∉ (sprite_remove env w e).gSpriteSpatialIndex b) ∧
    (isPeepOrVehicle (w._spriteList e).type = true →
      (sprite_remove env w e).tweener.Entities = clearFirst w.tweener.Entities e ∧
      (w.tweener.Entities.count (some e) ≤ 1 →
        some e ∉ (sprite_remove env w e).tweener.Entities)) ∧
    (isPeepOrVehicle (w._spriteList e).type = false →
      (sprite_remove env w e).tweener = w.tweener) ∧
    (some e ∉ w.tweener.Entities → (sprite_remove env w e).tweener = w.tweener) ∧
    (sprite_remove env w e).tweener.Entities.length = w.tweener.Entities.length ∧
    (∀ a, a ≠ e →
      (some a ∈ (sprite_remove env w e).tweener.Entities ↔ some a ∈ w.tweener.Entities)) ∧
    (sprite_remove env w e).tweener.PrePos = w.tweener.PrePos ∧
    (sprite_remove env w e).tweener.PostPos = w.tweener.PostPos ∧
    GetNumFreeEntities (sprite_remove env w e) = GetNumFreeEntities w + 1 ∧
    (∀ i, i ≠ e → (sprite_remove env w e)._spriteList i = w._spriteList i ∧
      (sprite_remove env w e)._spriteFlashingList i = w._spriteFlashingList i) ∧
    (∀ t, (sprite_remove env w e).gEntityLists t =
      (w.gEntityLists t).filter (fun a => decide (a ≠ e))) ∧
    (∀ b, (sprite_remove env w e).gSpriteSpatialIndex b =
      (w.gSpriteSpatialIndex b).filter (fun a => decide (a ≠ e))) ∧
    (sprite_remove env w e)._freeIdList.filter (fun a => decide (a ≠ e)) = w._freeIdList := by
  have hI := RegInv_of_RegReachable env w h
  have hI1 := RegInv_sprite_remove env w hI e he hl
  have hnull : ((sprite_remove env w e)._spriteList e).type = EntityType.Null := by
    rw [sprite_remove_eq env w hI e he hl]
    simp [nullSprite]
  have hfree : (sprite_remove env w e)._freeIdList =
      (insertAt w._freeIdList.reverse (upper_bound w._freeIdList.reverse e) e).reverse := by
    rw [sprite_remove_eq env w hI e he hl]
  have htw : (sprite_remove env w e).tweener = (RemoveEntity w e).tweener := by
    rw [sprite_remove_eq env w hI e he hl]
  have hnf := not_mem_free_of_live env w hI e hl
  refine ⟨?_, hnull, ?_, ?_, ?_, ?_, ?_, ?_, ?_, ?_, ?_, ?_, ?_, ?_, ?_, ?_, ?_, ?_, ?_⟩
  · rw [sprite_remove_eq env w hI e he hl]
    simp
  · rw [hI1.idx e he, hI.idx e he]
  · unfold sprite_get_flashing
    rw [hI1.idx e he, sprite_remove_eq env w hI e he hl]
    simp
  · exact (hI1.free_mem e).2 ⟨he, hnull⟩
  · intro t
    exact not_mem_list_of_null env _ hI1 e hnull t
  · intro b
    exact not_mem_bucket_of_null env _ hI1 e hnull b
  · intro hp
    have e1 : (sprite_remove env w e).tweener.Entities = clearFirst w.tweener.Entities e := by
      rw [htw]
      unfold RemoveEntity
      rw [if_neg (by rw [hp]; simp)]
    refine ⟨e1, ?_⟩
    intro hc
    rw [e1]
    exact not_mem_clearFirst _ e hc
  · intro hp
    rw [htw]
    unfold RemoveEntity
    rw [if_pos hp]
  · intro hn
    rw [htw]
    unfold RemoveEntity
    split
    · rfl
    · rw [clearFirst_of_not_mem _ e hn]
  · rw [htw]
    unfold RemoveEntity
    split
    · rfl
    · exact length_clearFirst _ e
  · intro a ha
    rw [htw]
    unfold RemoveEntity
    split
    · exact Iff.rfl
    · exact mem_clearFirst_of_ne _ e a ha
  · rw [htw]
    unfold RemoveEntity
    split <;> rfl
  · rw [htw]
    unfold RemoveEntity
    split <;> rfl
  · have hcap := env.max_entities_le
    have h1 := length_free_le env _ hI1
    rw [hfree, length_free_insert] at h1
    unfold GetNumFreeEntities
    rw [hfree, length_free_insert]
    omega
  · intro i hi
    rw [sprite_remove_eq env w hI e he hl]
    simp only [Function.update_noteq hi, and_self]
  · intro t
    rw [sprite_remove_eq env w hI e he hl]
    by_cases ht : t = (w._spriteList e).type
    · subst ht
      simp only [Function.update_same]
    · simp only [Function.update_noteq ht]
      rw [filter_ne_of_not_mem]
      intro hm
      exact ht ((hI.list_mem t e).1 hm).2.1.symm
  · intro b
    rw [sprite_remove_eq env w hI e he hl]
    by_cases hb : b = GetSpatialIndexOffset (w._spriteList e).x (w._spriteList e).y
    · subst hb
      simp only [Function.update_same]
    · simp only [Function.update_noteq hb]
      rw [filter_ne_of_not_mem]
      intro hm
      exact hb ((hI.bucket_mem b e).1 hm).2.2.symm
  · rw [hfree]
    exact filter_ne_free_insert _ hI.free_desc e hnf

/-- The removal of the guest of slot 0 of `flagged5`, whose flashing flag is set
and to which the tweener refers once: afterwards the slot is `nullSprite 0`, the
flag is false, the tweener holds no reference to it, and one more slot is
free. -/
theorem removal_postcondition_witness :
    RegReachable env5 flagged5 ∧ 0 < env5.MAX_ENTITIES ∧
      (flagged5._spriteList 0).type ≠ EntityType.Null ∧
      sprite_get_flashing flagged5 0 = true ∧
      isPeepOrVehicle (flagged5._spriteList 0).type = true ∧
      some 0 ∈ flagged5.tweener.Entities ∧
      flagged5.tweener.Entities.count (some 0) ≤ 1 ∧
      (sprite_remove env5 flagged5 0)._spriteList 0 = nullSprite 0 ∧
      sprite_get_flashing (sprite_remove env5 flagged5 0) 0 = false ∧
      some 0 ∉ (sprite_remove env5 flagged5 0).tweener.Entities ∧
      (sprite_remove env5 flagged5 0).tweener.Entities =
        [none, some 1, some 2, some 3, some 4] ∧
      GetNumFreeEntities (sprite_remove env5 flagged5 0) = GetNumFreeEntities flagged5 + 1 :=
  ⟨regReachable_flagged5, by decide, by decide!, by decide!, by decide!, by decide!,
    by decide!,
    (removal_postcondition env5 flagged5 regReachable_flagged5 0 (by decide) (by decide!)).1,
    (removal_postcondition env5 flagged5 regReachable_flagged5 0 (by decide)
      (by decide!)).2.2.2.1,
    ((removal_postcondition env5 flagged5 regReachable_flagged5 0 (by decide)
      (by decide!)).2.2.2.2.2.2.2.1 (by decide!)).2 (by decide!),
    by decide!,
    (removal_postcondition env5 flagged5 regReachable_flagged5 0 (by decide)
      (by decide!)).2.2.2.2.2.2.2.2.2.2.2.2.2.2.1⟩

/-- C7 as the claim has it, refuted: the guest of `one5` is moved to the valid
location (33, 64, 40000); the position stored afterwards is not that location,
because `z` is a 16-bit field and holds -25536. -/
theorem moveTo_narrows_z :
    RegReachable env5 one5 ∧ (one5._spriteList 0).type ≠ EntityType.Null ∧
      env5.map_is_location_valid 33 64 = true ∧
      GetLocation ((MoveTo env5 one5 0 { x := 33, y := 64, z := 40000 })._spriteList 0) ≠
        { x := 33, y := 64, z := 40000 } ∧
      ((MoveTo env5 one5 0 { x := 33, y := 64, z := 40000 })._spriteList 0).z = -25536 :=
  ⟨regReachable_one5, by decide!, by decide!, by decide!, by decide!⟩

/-- C7, amended (result of `MoveTo`): for a live entity of a reachable state and
every new location `p`, the position stored afterwards is `p` with `z` narrowed
to 16 bits when `p` is valid, hence `p` itself when `p.z` fits 16 bits;
otherwise the stored `x` and `sprite_left` are `LOCATION_NULL` and `y`, `z` are
those of `p` narrowed to 16 bits.  In both cases the id of the entity then
lies exactly once in the bucket of its stored `(x, y)`, a bucket of the table
that `GetEntityTileList` returns, and in no other bucket, and that bucket is the
null bucket in the invalid case. -/
theorem moveTo_result (env : Env) (w : World) (h : RegReachable env w) (e : Nat)
    (he : e < env.MAX_ENTITIES) (hl : (w._spriteList e).type ≠ EntityType.Null) (p : CoordsXYZ) :
    (env.map_is_location_valid p.x p.y = true →
      GetLocation ((MoveTo env w e p)._spriteList e) = { x := p.x, y := p.y, z := toInt16 p.z } ∧
      (IsInt16 p.z → GetLocation ((MoveTo env w e p)._spriteList e) = p)) ∧
    (env.map_is_location_valid p.x p.y = false →
      ((MoveTo env w e p)._spriteList e).x = LOCATION_NULL ∧
      ((MoveTo env w e p)._spriteList e).sprite_left = LOCATION_NULL ∧
      ((MoveTo env w e p)._spriteList e).y = toInt16 p.y ∧
      ((MoveTo env w e p)._spriteList e).z = toInt16 p.z ∧
      GetSpatialIndexOffset ((MoveTo env w e p)._spriteList e).x
        ((MoveTo env w e p)._spriteList e).y = SPATIAL_INDEX_LOCATION_NULL) ∧
    (∃ l, GetEntityTileList (MoveTo env w e p) ((MoveTo env w e p)._spriteList e).x
        ((MoveTo env w e p)._spriteList e).y = some l ∧
      l = (MoveTo env w e p).gSpriteSpatialIndex
        (GetSpatialIndexOffset ((MoveTo env w e p)._spriteList e).x
          ((MoveTo env w e p)._spriteList e).y) ∧
      l.count e = 1) ∧
    (∀ b, b ≠ GetSpatialIndexOffset ((MoveTo env w e p)._spriteList e).x
        ((MoveTo env w e p)._spriteList e).y → e ∉ (MoveTo env w e p).gSpriteSpatialIndex b) := by
  have hI := RegInv_of_RegReachable env w h
  have hI1 := RegInv_MoveTo env w hI e he hl p
  have hs : (MoveTo env w e p)._spriteList e =
      movedSprite env (w._spriteList e) (moveLoc env p) := by
    rw [(MoveTo_frame env w e p).1]
    simp only [Function.update_same]
  have hty : ((MoveTo env w e p)._spriteList e).type ≠ EntityType.Null := by
    rw [hs, movedSprite_type]
    exact hl
  refine ⟨?_, ?_, ?_, ?_⟩
  · intro hv
    rcases moveLoc_cases env p with ⟨hf, _⟩ | ⟨_, hm, hr⟩
    · rw [hf] at hv
      exact absurd hv (by simp)
    · have e1 : GetLocation ((MoveTo env w e p)._spriteList e) =
          { x := p.x, y := p.y, z := toInt16 p.z } := by
        unfold GetLocation
        rw [hs, movedSprite_x, movedSprite_y, movedSprite_z, hm,
          toInt16_of_isInt16 p.x (by unfold IsInt16; omega),
          toInt16_of_isInt16 p.y (by unfold IsInt16; omega)]
      refine ⟨e1, ?_⟩
      intro hz
      rw [e1, toInt16_of_isInt16 p.z hz]
  · intro hv
    rcases moveLoc_cases env p with ⟨_, hm⟩ | ⟨ht, _⟩
    · have hx : ((MoveTo env w e p)._spriteList e).x = LOCATION_NULL := by
        rw [hs, movedSprite_x, hm]
        exact (by decide : toInt16 LOCATION_NULL = LOCATION_NULL)
      refine ⟨hx, ?_, ?_, ?_, ?_⟩
      · rw [hs, hm]
        simp [movedSprite]
      · rw [hs, movedSprite_y, hm]
      · rw [hs, movedSprite_z, hm]
      · rw [hx, offset_null]
    · rw [ht] at hv
      exact absurd hv (by simp)
  · exact ⟨_, GetEntityTileList_of_lt _ _ _
        (stored_offset_lt env _ (RegReachable.moveTo w e p h he hl) e he), rfl,
      count_eq_one_of_pairwise _ (hI1.bucket_asc _) e
        ((hI1.bucket_mem _ e).2 ⟨he, hty, rfl⟩)⟩
  · intro b hb hm
    exact hb ((hI1.bucket_mem b e).1 hm).2.2.symm

/-- The guest of `one5` moved to the valid location (33, 64, 5), which is then
its stored position; the query of that tile returns the guest. -/
theorem moveTo_result_witness :
    RegReachable env5 one5 ∧ 0 < env5.MAX_ENTITIES ∧
      (one5._spriteList 0).type ≠ EntityType.Null ∧
      env5.map_is_location_valid 33 64 = true ∧ IsInt16 5 ∧
      GetEntityTileList (MoveTo env5 one5 0 { x := 33, y := 64, z := 5 }) 33 64 = some [0] ∧
      GetLocation ((MoveTo env5 one5 0 { x := 33, y := 64, z := 5 })._spriteList 0) =
        { x := 33, y := 64, z := 5 } :=
  ⟨regReachable_one5, by decide, by decide!, by decide!, by decide, by decide!,
    ((moveTo_result env5 one5 regReachable_one5 0 (by decide) (by decide!)
      { x := 33, y := 64, z := 5 }).1 (by decide!)).2 (by decide)⟩

/-- C8 (conflict of `CreateEntityAt`): in every reachable state
`CreateEntityAt(index, type)` returns null exactly when `index` is not in the
free list, which holds for every `index >= MAX_ENTITIES`; otherwise it returns
the entity of slot `index`, whose `sprite_index` is `index`, and the free list
afterwards is the old one without `index`, the other ids in their order. -/
theorem createAt_conflict (env : Env) (w : World) (h : RegReachable env w) (index : Nat)
    (type : EntityType) :
    ((CreateEntityAt env w index type).2 = none ↔ index ∉ w._freeIdList) ∧
    (env.MAX_ENTITIES ≤ index → index ∉ w._freeIdList) ∧
    (index ∈ w._freeIdList →
      (CreateEntityAt env w index type).2 = some index ∧
      ((CreateEntityAt env w index type).1._spriteList index).sprite_index = index ∧
      (CreateEntityAt env w index type).1._freeIdList =
        w._freeIdList.filter (fun a => decide (a ≠ index))) := by
  have hI := RegInv_of_RegReachable env w h
  refine ⟨?_, ?_, ?_⟩
  · constructor
    · intro hn hm
      rw [CreateEntityAt_granted env w hI index type hm] at hn
      exact absurd hn (by simp)
    · intro hm
      rw [CreateEntityAt_refused env w hI index type hm]
  · intro hge hm
    have := ((hI.free_mem index).1 hm).1
    omega
  · intro hm
    rw [CreateEntityAt_granted env w hI index type hm]
    refine ⟨rfl, ?_, rfl⟩
    simp only
    rw [PrepareNewEntity_spriteList
      { w with _freeIdList := w._freeIdList.filter (fun a => decide (a ≠ index)) } index type
      (hI.idx index ((hI.free_mem index).1 hm).1)]
    simp only [Function.update_same, preparedSprite]

/-- In the world with holes 3 and 1, slot 3 can be taken and slot 2 cannot. -/
theorem createAt_conflict_witness :
    RegReachable env5 holes5 ∧
      (CreateEntityAt env5 holes5 2 EntityType.Guest).2 = none ∧
      (CreateEntityAt env5 holes5 3 EntityType.Guest).2 = some 3 ∧
      ((CreateEntityAt env5 holes5 2 EntityType.Guest).2 = none ↔ 2 ∉ holes5._freeIdList) :=
  ⟨regReachable_holes5, by decide!, by decide!,
    (createAt_conflict env5 holes5 regReachable_holes5 2 EntityType.Guest).1⟩

/-- C9 (gameplay entities are never refused by the reservation): for every tag
that is not a misc tag (Guest, Staff, Vehicle, Litter) and every reachable
state, `CreateEntity(type)` returns null exactly when the free list is empty. -/
theorem gameplay_never_refused (env : Env) (w : World) (h : RegReachable env w)
    (type : EntityType) (ht : EntityTypeIsMiscEntity type = false) :
    (CreateEntity env w type).2 = none ↔ w._freeIdList = [] := by
  have hI := RegInv_of_RegReachable env w h
  have hm : ¬ MiscRefused w type := by
    intro hm
    rw [hm.1] at ht
    exact absurd ht (by simp)
  constructor
  · intro hn
    by_contra hne
    rw [CreateEntity_granted env w hI type hne hm] at hn
    exact absurd hn (by simp)
  · intro he
    rw [CreateEntity_refused env w type (Or.inl he)]

/-- One duck and four free slots of five, far below the reserve of 300: a duck
is refused by the reservation, a guest is granted slot 1.  With no slot free
the guest is refused. -/
theorem gameplay_never_refused_witness :
    RegReachable env5 duck5 ∧ EntityTypeIsMiscEntity EntityType.Guest = false ∧
      GetMiscEntityCount duck5 = 1 ∧ GetNumFreeEntities duck5 = 4 ∧
      (CreateEntity env5 duck5 EntityType.Duck).2 = none ∧
      (CreateEntity env5 duck5 EntityType.Guest).2 = some 1 ∧
      (CreateEntity env5 duck5 EntityType.Staff).2 = some 1 ∧
      (CreateEntity env5 duck5 EntityType.Vehicle).2 = some 1 ∧
      (CreateEntity env5 duck5 EntityType.Litter).2 = some 1 ∧
      duck5._freeIdList ≠ [] ∧
      ((CreateEntity env5 duck5 EntityType.Guest).2 = none ↔ duck5._freeIdList = []) ∧
      RegReachable env5 full5 ∧ full5._freeIdList = [] ∧
      (CreateEntity env5 full5 EntityType.Guest).2 = none ∧
      ((CreateEntity env5 full5 EntityType.Guest).2 = none ↔ full5._freeIdList = []) :=
  ⟨regReachable_duck5, by decide, by decide!, by decide!, by decide!, by decide!, by decide!,
    by decide!, by decide!, by decide!,
    gameplay_never_refused env5 duck5 regReachable_duck5 EntityType.Guest (by decide),
    regReachable_full5, by decide!, by decide!,
    gameplay_never_refused env5 full5 regReachable_full5 EntityType.Guest (by decide)⟩

/-- C10 (reservation policy): in every state whose free list is within the
capacity, with `GetMiscEntityCount() == 0` and
`0 < GetNumFreeEntities() < MAX_MISC_SPRITES`, `CreateEntity(t)` returns null
for each misc tag `t` and changes nothing, although the free list is not
empty. -/
theorem misc_refused_below_reserve (env : Env) (w : World)
    (hlen : w._freeIdList.length ≤ env.MAX_ENTITIES) (h0 : GetMiscEntityCount w = 0)
    (h1 : 0 < GetNumFreeEntities w) (h2 : GetNumFreeEntities w < MAX_MISC_SPRITES)
    (type : EntityType) (ht : EntityTypeIsMiscEntity type = true) :
    CreateEntity env w type = (w, none) ∧ w._freeIdList ≠ [] := by
  have hcap := env.max_entities_le
  unfold GetNumFreeEntities at h1 h2
  unfold MAX_MISC_SPRITES at h2
  rw [Nat.mod_eq_of_lt (by omega)] at h1 h2
  constructor
  · apply CreateEntity_refused
    right
    refine ⟨ht, ?_⟩
    rw [h0]
    unfold MAX_MISC_SPRITES toUInt16
    simp only [Nat.cast_ofNat, Nat.cast_zero, sub_zero]
    omega
  · intro he
    rw [he] at h1
    simp at h1

/-- One guest and four free slots of five: a duck is refused. -/
theorem misc_refused_below_reserve_witness :
    one5._freeIdList.length ≤ env5.MAX_ENTITIES ∧ GetMiscEntityCount one5 = 0 ∧
      0 < GetNumFreeEntities one5 ∧ GetNumFreeEntities one5 < MAX_MISC_SPRITES ∧
      EntityTypeIsMiscEntity EntityType.Duck = true ∧
      (CreateEntity env5 one5 EntityType.Duck = (one5, none) ∧ one5._freeIdList ≠ []) :=
  ⟨by decide!, by decide!, by decide!, by decide!, by decide,
    misc_refused_below_reserve env5 one5 (by decide!) (by decide!) (by decide!) (by decide!)
      EntityType.Duck (by decide)⟩

/-! ## The reservation for misc entities, the reset, and the order of the containers -/

theorem regReachable_ducks301 : RegReachable env301 ducks301 :=
  RegReachable.create _ _ (RegReachable.create _ _ (RegReachable.reset _) (by decide)) (by decide)

/-- C11 (the reserved minimum is not kept): in every reachable state
`CreateEntity` of a misc tag fails exactly when the free slots do not outnumber
the `uint16_t` difference `MAX_MISC_SPRITES - GetMiscEntityCount()`; otherwise
it succeeds, however few slots are free, and takes one of them.  The code
compares the free slots with this difference, not with `MAX_MISC_SPRITES`, so
with misc entities present it grants a misc entity with fewer than
`MAX_MISC_SPRITES` slots free. -/
theorem misc_created_below_reserve (env : Env) (w : World) (h : RegReachable env w)
    (type : EntityType) (ht : EntityTypeIsMiscEntity type = true) :
    ((CreateEntity env w type).2 = none ↔
      w._freeIdList.length ≤
        toUInt16 ((MAX_MISC_SPRITES : Int) - (GetMiscEntityCount w : Int))) ∧
    (toUInt16 ((MAX_MISC_SPRITES : Int) - (GetMiscEntityCount w : Int)) < w._freeIdList.length →
      (CreateEntity env w type).2 = some (w._freeIdList.getLastD 0) ∧
        (CreateEntity env w type).1._freeIdList.length + 1 = w._freeIdList.length) := by
  have hI := RegInv_of_RegReachable env w h
  have hgrant : toUInt16 ((MAX_MISC_SPRITES : Int) - (GetMiscEntityCount w : Int)) <
      w._freeIdList.length →
      (CreateEntity env w type).2 = some (w._freeIdList.getLastD 0) ∧
        (CreateEntity env w type).1._freeIdList.length + 1 = w._freeIdList.length := by
    intro hlt
    have hne : w._freeIdList ≠ [] := by
      intro h0
      rw [h0] at hlt
      simp at hlt
    have hm : ¬ MiscRefused w type := by
      intro hm
      have := hm.2
      omega
    have hl := free_last w._freeIdList hI.free_desc hne
    rw [CreateEntity_granted env w hI type hne hm]
    refine ⟨rfl, ?_⟩
    simp only [PrepareNewEntity_freeIdList]
    rw [← hl.2.2, List.length_dropLast]
    have : 0 < w._freeIdList.length := List.length_pos.2 hne
    omega
  refine ⟨?_, hgrant⟩
  constructor
  · intro hn
    by_contra hle
    rw [(hgrant (by omega)).1] at hn
    exact absurd hn (by simp)
  · intro hle
    rw [CreateEntity_refused env w type (Or.inr ⟨ht, hle⟩)]

set_option maxRecDepth 100000 in
/-- With capacity 301, after a reset and two ducks there are 299 free slots,
fewer than `MAX_MISC_SPRITES`; a third duck is created, in slot 2, and 298
slots stay free. -/
theorem misc_created_below_reserve_witness :
    RegReachable env301 ducks301 ∧ EntityTypeIsMiscEntity EntityType.Duck = true ∧
      GetMiscEntityCount ducks301 = 2 ∧ GetNumFreeEntities ducks301 = 299 ∧
      GetNumFreeEntities ducks301 < MAX_MISC_SPRITES ∧
      (CreateEntity env301 ducks301 EntityType.Duck).2 = some 2 ∧
      GetNumFreeEntities (CreateEntity env301 ducks301 EntityType.Duck).1 = 298 ∧
      (CreateEntity env301 ducks301 EntityType.Duck).1._freeIdList.length + 1 =
        ducks301._freeIdList.length :=
  ⟨regReachable_ducks301, by decide, by decide!, by decide!, by decide!, by decide!, by decide!,
    ((misc_created_below_reserve env301 ducks301 regReachable_ducks301 EntityType.Duck
      (by decide)).2 (by decide!)).2⟩

/-- While the free list holds exactly the identifiers from `n` up to the
capacity, a tag that is not a misc tag gets the identifier `n`, and the free list
holds the identifiers from `n + 1` on. -/
theorem create_next (env : Env) (w : World) (hI : RegInv env w) (n : Nat)
    (hf : ∀ i, i ∈ w._freeIdList ↔ n ≤ i ∧ i < env.MAX_ENTITIES) (hn : n < env.MAX_ENTITIES)
    (t : EntityType) (ht : EntityTypeIsMiscEntity t = false) :
    (CreateEntity env w t).2 = some n ∧
      ∀ i, i ∈ (CreateEntity env w t).1._freeIdList ↔ n + 1 ≤ i ∧ i < env.MAX_ENTITIES := by
  have hmem : n ∈ w._freeIdList := (hf n).2 ⟨Nat.le_refl n, hn⟩
  have hne : w._freeIdList ≠ [] := List.ne_nil_of_mem hmem
  have hm : ¬ MiscRefused w t := by
    intro hm
    rw [hm.1] at ht
    exact absurd ht (by simp)
  have hl := free_last w._freeIdList hI.free_desc hne
  have hlast : w._freeIdList.getLastD 0 = n :=
    Nat.le_antisymm (hl.2.1 n hmem) ((hf _).1 hl.1).1
  rw [CreateEntity_granted env w hI t hne hm, hlast]
  refine ⟨rfl, ?_⟩
  intro i
  simp only [PrepareNewEntity_freeIdList, List.mem_filter, decide_eq_true_eq, hf i]
  omega

theorem createAll_next (env : Env) (ts : List EntityType) :
    ∀ (w : World) (n : Nat), RegInv env w →
      (∀ i, i ∈ w._freeIdList ↔ n ≤ i ∧ i < env.MAX_ENTITIES) →
      (∀ u ∈ ts, EntityTypeIsMiscEntity u = false ∧ u ≠ EntityType.Null) →
      n + ts.length ≤ env.MAX_ENTITIES →
      RegInv env (createAll env w ts) ∧
        ∀ i, i ∈ (createAll env w ts)._freeIdList ↔ n + ts.length ≤ i ∧ i < env.MAX_ENTITIES := by
  induction ts with
  | nil =>
    intro w n hI hf _ _
    exact ⟨hI, by simpa [createAll] using hf⟩
  | cons t ts ih =>
    intro w n hI hf hg hlen
    simp only [List.length_cons] at hlen
    have ht := hg t (List.mem_cons_self _ _)
    have h1 := create_next env w hI n hf (by omega) t ht.1
    have h2 := ih (CreateEntity env w t).1 (n + 1) (RegInv_CreateEntity env w hI t ht.2) h1.2
      (fun u hu => hg u (List.mem_cons_of_mem _ hu)) (by omega)
    refine ⟨h2.1, ?_⟩
    intro i
    rw [createAll, h2.2 i, List.length_cons]
    omega

/-- C12 (reset postcondition): after `reset_sprite_list`, from any prior state,
every slot below `MAX_ENTITIES` has the tag `Null`, its own index as
`sprite_index` and its flashing flag off; `_freeIdList` is
`MAX_ENTITIES - 1, ..., 1, 0`; every per-type list and every bucket is empty;
and after `k - 1` calls of `CreateEntity` with tags that are not misc tags, the
`k`-th such call returns the identifier `k - 1`, for every `k` up to
`MAX_ENTITIES`. -/
theorem reset_postcondition (env : Env) (w : World) :
    (∀ i, i < env.MAX_ENTITIES →
      ((reset_sprite_list env w)._spriteList i).type = EntityType.Null ∧
      ((reset_sprite_list env w)._spriteList i).sprite_index = i ∧
      sprite_get_flashing (reset_sprite_list env w) i = false) ∧
    (reset_sprite_list env w)._freeIdList = (List.range env.MAX_ENTITIES).reverse ∧
    (∀ t, GetEntityList (reset_sprite_list env w) t = []) ∧
    (∀ b, (reset_sprite_list env w).gSpriteSpatialIndex b = []) ∧
    ∀ (ts : List EntityType) (t : EntityType),
      (∀ u ∈ t :: ts, EntityTypeIsMiscEntity u = false ∧ u ≠ EntityType.Null) →
      ts.length < env.MAX_ENTITIES →
      (CreateEntity env (createAll env (reset_sprite_list env w) ts) t).2 = some ts.length := by
  have hI := RegInv_reset_sprite_list env w
  have hf : ∀ i, i ∈ (reset_sprite_list env w)._freeIdList ↔ 0 ≤ i ∧ i < env.MAX_ENTITIES := by
    intro i
    rw [reset_sprite_list_eq]
    simp
  refine ⟨?_, ?_, ?_, ?_, ?_⟩
  · intro i hi
    unfold sprite_get_flashing
    rw [reset_sprite_list_eq]
    simp [hi, nullSprite]
  · rw [reset_sprite_list_eq]
  · intro t
    unfold GetEntityList
    rw [reset_sprite_list_eq]
  · intro b
    rw [reset_sprite_list_eq]
  · intro ts t hg hlen
    have h1 := createAll_next env ts (reset_sprite_list env w) 0 hI hf
      (fun u hu => hg u (List.mem_cons_of_mem _ hu)) (by omega)
    rw [Nat.zero_add] at h1
    exact (create_next env _ h1.1 ts.length h1.2 hlen t (hg t (List.mem_cons_self _ _)).1).1

/-- With capacity 5, after the reset the third gameplay entity gets identifier 2. -/
theorem reset_postcondition_witness :
    (∀ u ∈ [EntityType.Vehicle, EntityType.Guest, EntityType.Litter],
        EntityTypeIsMiscEntity u = false ∧ u ≠ EntityType.Null) ∧
      [EntityType.Guest, EntityType.Litter].length < env5.MAX_ENTITIES ∧
      (CreateEntity env5
        (createAll env5 (reset_sprite_list env5 startWorld) [EntityType.Guest, EntityType.Litter])
        EntityType.Vehicle).2 = some 2 :=
  ⟨by decide, by decide,
    (reset_postcondition env5 startWorld).2.2.2.2 [EntityType.Guest, EntityType.Litter]
      EntityType.Vehicle (by decide) (by decide)⟩

/-- Two strictly ascending sequences with the same elements are the same
sequence. -/
theorem eq_of_asc_of_mem (l1 l2 : List Nat) (h1 : l1.Pairwise (· < ·)) (h2 : l2.Pairwise (· < ·))
    (hm : ∀ i, i ∈ l1 ↔ i ∈ l2) : l1 = l2 :=
  List.eq_of_perm_of_sorted
    ((List.perm_ext_iff_of_nodup (nodup_of_asc l1 h1) (nodup_of_asc l2 h2)).2 hm) h1 h2

/-- C13 (membership-list order): in every state reachable from a reset by
`CreateEntity`, `CreateEntityAt` and `sprite_remove` (and `MoveTo`), the list of
each tag is strictly ascending in `sprite_index` and holds exactly the live
entities of that tag; hence two reachable states with the same set of live
entities of tag `t` have the same list for `t`, whatever their histories. -/
theorem membership_list_order (env : Env) (w : World) (h : RegReachable env w) (t : EntityType) :
    (GetEntityList w t).Pairwise (· < ·) ∧
    (t ≠ EntityType.Null → ∀ i, i ∈ GetEntityList w t ↔
      i < env.MAX_ENTITIES ∧ (w._spriteList i).type = t) ∧
    ∀ w1, RegReachable env w1 →
      (∀ i, i < env.MAX_ENTITIES → ((w1._spriteList i).type = t ↔ (w._spriteList i).type = t)) →
      GetEntityList w1 t = GetEntityList w t := by
  have hI := RegInv_of_RegReachable env w h
  unfold GetEntityList
  refine ⟨hI.list_asc t, ?_, ?_⟩
  · intro ht i
    rw [hI.list_mem t i]
    tauto
  · intro w1 h1 hs
    have hI1 := RegInv_of_RegReachable env w1 h1
    apply eq_of_asc_of_mem _ _ (hI1.list_asc t) (hI.list_asc t)
    intro i
    rw [hI1.list_mem t i, hI.list_mem t i]
    constructor
    · rintro ⟨hi, ht, hn⟩
      exact ⟨hi, (hs i hi).1 ht, hn⟩
    · rintro ⟨hi, ht, hn⟩
      exact ⟨hi, (hs i hi).2 ht, hn⟩

theorem regReachable_holesAlt5 : RegReachable env5 holesAlt5 :=
  RegReachable.remove _ 3
    (RegReachable.remove full5 1 regReachable_full5 (by decide) (by decide!)) (by decide)
    (by decide!)

/-- Destroying 3 then 1, or 1 then 3, leaves the same list of guests. -/
theorem membership_list_order_witness :
    RegReachable env5 holes5 ∧ RegReachable env5 holesAlt5 ∧
      GetEntityList holes5 EntityType.Guest = [0, 2, 4] ∧
      GetEntityList holesAlt5 EntityType.Guest = GetEntityList holes5 EntityType.Guest :=
  ⟨regReachable_holes5, regReachable_holesAlt5, by decide!,
    (membership_list_order env5 holes5 regReachable_holes5 EntityType.Guest).2.2 holesAlt5
      regReachable_holesAlt5 (by decide!)⟩

/-- C14 (bucket order): in every state reachable from a reset by `CreateEntity`,
`CreateEntityAt`, `sprite_remove` and `MoveTo`, every bucket `b` of the table of
`SPATIAL_INDEX_SIZE` buckets is the result of some query `GetEntityTileList`,
every result of `GetEntityTileList` is a bucket of the table, and each is
strictly ascending in `sprite_index` and holds exactly the live entities of its
cell; hence two reachable states with the same set of entities in a cell have
the same bucket and the same query result for it, whatever the order of the
insertions.  The queries of the unplaced position and of the positions inside
the map have a result. -/
theorem bucket_order (env : Env) (w : World) (h : RegReachable env w) (b : Nat)
    (hb : b < SPATIAL_INDEX_SIZE) :
    (w.gSpriteSpatialIndex b).Pairwise (· < ·) ∧
    (∃ x y, GetEntityTileList w x y = some (w.gSpriteSpatialIndex b)) ∧
    (∀ x y l, GetEntityTileList w x y = some l →
      GetSpatialIndexOffset x y < SPATIAL_INDEX_SIZE ∧
      l = w.gSpriteSpatialIndex (GetSpatialIndexOffset x y) ∧
      l.Pairwise (· < ·) ∧
      ∀ i, i ∈ l ↔
        i < env.MAX_ENTITIES ∧ (w._spriteList i).type ≠ EntityType.Null ∧
          GetSpatialIndexOffset (w._spriteList i).x (w._spriteList i).y =
            GetSpatialIndexOffset x y) ∧
    (∀ x y, x = LOCATION_NULL ∨ (0 ≤ x ∧ x < 8192 ∧ 0 ≤ y ∧ y < 8192) →
      ∃ l, GetEntityTileList w x y = some l) ∧
    (∀ i, i ∈ w.gSpriteSpatialIndex b ↔
      i < env.MAX_ENTITIES ∧ (w._spriteList i).type ≠ EntityType.Null ∧
        GetSpatialIndexOffset (w._spriteList i).x (w._spriteList i).y = b) ∧
    (∀ w1, RegReachable env w1 →
      (∀ i, i < env.MAX_ENTITIES →
        (((w1._spriteList i).type ≠ EntityType.Null ∧
            GetSpatialIndexOffset (w1._spriteList i).x (w1._spriteList i).y = b) ↔
          ((w._spriteList i).type ≠ EntityType.Null ∧
            GetSpatialIndexOffset (w._spriteList i).x (w._spriteList i).y = b))) →
      w1.gSpriteSpatialIndex b = w.gSpriteSpatialIndex b) ∧
    ∀ w1 x y l l1, RegReachable env w1 → GetEntityTileList w x y = some l →
      GetEntityTileList w1 x y = some l1 → (∀ i, i ∈ l1 ↔ i ∈ l) → l1 = l := by
  have hI := RegInv_of_RegReachable env w h
  refine ⟨hI.bucket_asc b, ?_, ?_, ?_, hI.bucket_mem b, ?_, ?_⟩
  · obtain ⟨x, y, hxy, ho⟩ := offset_onto b hb
    exact ⟨x, y, by rw [GetEntityTileList_of_lt w x y (offset_lt_size x y hxy), ho]⟩
  · intro x y l hq
    obtain ⟨h1, h2⟩ := GetEntityTileList_some w x y l hq
    refine ⟨h1, h2, ?_, ?_⟩
    · rw [h2]
      exact hI.bucket_asc _
    · intro i
      rw [h2]
      exact hI.bucket_mem _ i
  · intro x y hxy
    exact ⟨_, GetEntityTileList_of_lt w x y (offset_lt_size x y hxy)⟩
  · intro w1 h1 hs
    have hI1 := RegInv_of_RegReachable env w1 h1
    apply eq_of_asc_of_mem _ _ (hI1.bucket_asc b) (hI.bucket_asc b)
    intro i
    rw [hI1.bucket_mem b i, hI.bucket_mem b i]
    constructor
    · rintro ⟨hi, ht⟩
      exact ⟨hi, (hs i hi).1 ht⟩
    · rintro ⟨hi, ht⟩
      exact ⟨hi, (hs i hi).2 ht⟩
  · intro w1 x y l l1 h1 hq hq1 hs
    have hI1 := RegInv_of_RegReachable env w1 h1
    have e := (GetEntityTileList_some w x y l hq).2
    have e1 := (GetEntityTileList_some w1 x y l1 hq1).2
    apply eq_of_asc_of_mem _ _ _ _ hs
    · rw [e1]
      exact hI1.bucket_asc _
    · rw [e]
      exact hI.bucket_asc _

theorem regReachable_tileA5 : RegReachable env5 tileA5 :=
  RegReachable.moveTo _ 2 _
    (RegReachable.moveTo full5 0 _ regReachable_full5 (by decide) (by decide!)) (by decide)
    (by decide!)

theorem regReachable_tileB5 : RegReachable env5 tileB5 :=
  RegReachable.moveTo _ 0 _
    (RegReachable.moveTo full5 2 _ regReachable_full5 (by decide) (by decide!)) (by decide)
    (by decide!)

/-- Entities 0 and 2 enter the tile of (33, 64) in either order: the query of
that tile returns `[0, 2]` both times, the bucket 258 of the table.  The query
of (8192, 32) has no result. -/
theorem bucket_order_witness :
    RegReachable env5 tileA5 ∧ RegReachable env5 tileB5 ∧
      GetSpatialIndexOffset 33 64 = 258 ∧ 258 < SPATIAL_INDEX_SIZE ∧
      GetEntityTileList tileA5 33 64 = some [0, 2] ∧
      GetEntityTileList tileB5 33 64 = some [0, 2] ∧
      GetEntityTileList tileA5 LOCATION_NULL 0 = some [1, 3, 4] ∧
      GetEntityTileList tileA5 8192 32 = none ∧
      (tileA5.gSpriteSpatialIndex 258).Pairwise (· < ·) ∧
      tileB5.gSpriteSpatialIndex 258 = tileA5.gSpriteSpatialIndex 258 :=
  ⟨regReachable_tileA5, regReachable_tileB5, by decide!, by decide, by decide!, by decide!,
    by decide!, by decide!,
    (bucket_order env5 tileA5 regReachable_tileA5 258 (by decide)).1,
    (bucket_order env5 tileA5 regReachable_tileA5 258 (by decide)).2.2.2.2.2.1 tileB5
      regReachable_tileB5 (by decide!)⟩

/-! ## The tweener between two ticks -/

theorem simulation_full5 : Simulation env5 true full5 :=
  Simulation.create _ EntityType.Guest
    (Simulation.create _ EntityType.Guest
      (Simulation.create _ EntityType.Guest
        (Simulation.create _ EntityType.Guest
          (Simulation.create _ EntityType.Guest (Simulation.reset startWorld) (by decide))
          (by decide)) (by decide)) (by decide)) (by decide)

theorem simulation_tick5 : Simulation env5 true tick5 := by
  have hE : (PostTick placed5).tweener.Entities = [] := by decide!
  refine Simulation.preTick (PostTick placed5) tick5
    (Simulation.postTick placed5
      (Simulation.moveTo full5 0 _ simulation_full5 (by decide) (by decide!))) ?_
  unfold PreTick Restore
  rw [hE]
  rfl

theorem simulation_walked5 : Simulation env5 true walked5 :=
  Simulation.moveTo tick5 0 _ simulation_tick5 (by decide) (by decide!)

theorem simulation_frame5 : Simulation env5 false frame5 :=
  Simulation.postTick walked5 simulation_walked5

/-- C15, as the code has it (`Tween` is not visual-only): guest 0 was at
(32, 64, 0) at `PreTick` and is at (48, 64, 0) at `PostTick`; after
`Tween(0.5)` its stored position, the one `GetLocation` returns, is
(40, 64, 0). -/
theorem tween_moves_position :
    Simulation env5 false frame5 ∧
      GetLocation (frame5._spriteList 0) = { x := 48, y := 64, z := 0 } ∧
      (Tween env5 (1 / 2) frame5).map (fun w1 => GetLocation (w1._spriteList 0)) =
        some { x := 40, y := 64, z := 0 } :=
  ⟨simulation_frame5, by decide!, by decide!⟩

theorem SameButPos_of_FrameOf (env : Env) (w0 w w1 : World) (h : FrameOf env w0 w)
    (h1 : FrameOf env w0 w1) : SameButPos w w1 := by
  obtain ⟨a1, a2, a3, a4, a5, a6, a7⟩ := h.2.2.2.2.2.1
  obtain ⟨b1, b2, b3, b4, b5, b6, b7⟩ := h1.2.2.2.2.2.1
  refine ⟨b1.trans a1.symm, b2.trans a2.symm, b3.trans a3.symm, b4.trans a4.symm,
    b5.trans a5.symm, b6.trans a6.symm, ?_⟩
  intro i
  obtain ⟨c1, c2, c3, c4, c5, c6⟩ := a7 i
  obtain ⟨d1, d2, d3, d4, d5, d6⟩ := b7 i
  exact ⟨d1.trans c1.symm, d2.trans c2.symm, d3.trans c3.symm, d4.trans c4.symm,
    d5.trans c5.symm, d6.trans c6.symm⟩

/-- C15, amended (what `Tween` leaves alone): in every state after `PreTick` and
`PostTick`, for every finite `alpha`, `Tween(alpha)` returns; it leaves the
lists, the free list, the buckets, the tweener and, in every slot, tag,
identifier and size; it leaves the whole slot of every entity that is not
tracked, or whose two snapshots are equal; and for a tracked entity whose
snapshots differ it overwrites the stored `x`, `y`, `z` with the interpolated
position, narrowed to 16 bits, and recomputes the screen box. -/
theorem tween_frame (env : Env) (w : World) (h : Simulation env false w) (alpha : ℚ) :
    ∃ w1, Tween env alpha w = some w1 ∧ SameButPos w w1 ∧
      (∀ i, some i ∉ w.tweener.Entities → w1._spriteList i = w._spriteList i) ∧
      ∀ k i a b, w.tweener.Entities.get? k = some (some i) →
        w.tweener.PrePos.get? k = some a → w.tweener.PostPos.get? k = some b →
        (a = b → w1._spriteList i = w._spriteList i) ∧
        (a ≠ b →
          w1._spriteList i = placedSprite env (w._spriteList i) (tweenPos env alpha a b) ∧
          GetLocation (w1._spriteList i) =
            { x := toInt16 (tweenCoord env alpha a.x b.x)
              y := toInt16 (tweenCoord env alpha a.y b.y)
              z := toInt16 (tweenCoord env alpha a.z b.z) }) := by
  obtain ⟨w0, h0⟩ := (inv_of_Simulation env false w h).2 rfl
  have ht : w.tweener = w0.tweener := h0.2.2.2.2.2.1.2.2.2.2.1
  obtain ⟨w1, h1, h2, h3, h4⟩ := FrameOf_Tween env alpha w0 w h0
  rw [ht]
  refine ⟨w1, h1, SameButPos_of_FrameOf env w0 w w1 h0 h2, h3, ?_⟩
  intro k i a b hk ha hb
  have hs := h4 k i a b hk ha hb
  constructor
  · intro hab
    rw [hs, if_pos hab]
  · intro hab
    rw [if_neg hab] at hs
    rw [hs]
    exact ⟨rfl, rfl⟩

/-- After the tick of `frame5`, `Tween(0.5)` returns and keeps to this frame. -/
theorem tween_frame_witness :
    Simulation env5 false frame5 ∧
      ∃ w1, Tween env5 (1 / 2) frame5 = some w1 ∧ SameButPos frame5 w1 ∧
        ∀ i, some i ∉ frame5.tweener.Entities → w1._spriteList i = frame5._spriteList i := by
  obtain ⟨w1, h1, h2, h3, _⟩ := tween_frame env5 frame5 simulation_frame5 (1 / 2)
  exact ⟨simulation_frame5, w1, h1, h2, h3⟩

/-- C16 (tween boundary values): in every state after `PreTick`, the operations
of the tick and `PostTick`, every entry `k` of `Entities` that is not a hole has
both snapshots; `Tween(0.0)` returns and leaves the entity exactly at
`PrePos[k]`, `Tween(1.0)` returns and leaves it exactly at `PostPos[k]`; and
when the two snapshots are equal both calls skip the entity and leave its slot
as it was. -/
theorem tween_endpoints (env : Env) (w : World) (h : Simulation env false w) (k i : Nat)
    (hk : w.tweener.Entities.get? k = some (some i)) :
    ∃ a b w1 w2, w.tweener.PrePos.get? k = some a ∧ w.tweener.PostPos.get? k = some b ∧
      Tween env 0 w = some w1 ∧ GetLocation (w1._spriteList i) = a ∧
      Tween env 1 w = some w2 ∧ GetLocation (w2._spriteList i) = b ∧
      (a = b → w1._spriteList i = w._spriteList i ∧ w2._spriteList i = w._spriteList i) := by
  obtain ⟨w0, h0⟩ := (inv_of_Simulation env false w h).2 rfl
  have ht : w.tweener = w0.tweener := h0.2.2.2.2.2.1.2.2.2.2.1
  rw [ht] at hk ⊢
  obtain ⟨hI, hA, hla, hlb, hr, hS, hE⟩ := h0
  have hm : some i ∈ w0.tweener.Entities := List.get?_mem hk
  have hb := hA k i hk
  have hka : k < w0.tweener.PrePos.length := by
    rw [List.get?_eq_getElem?] at hk
    have := (List.getElem?_eq_some_iff.1 hk).1
    omega
  have ha : w0.tweener.PrePos.get? k = some (w0.tweener.PrePos.get ⟨k, hka⟩) :=
    List.get?_eq_get _
  have hra := hr _ (List.get_mem _ k hka)
  have hrb := hI.rng i (hI.tw_live i hm).1
  obtain ⟨w1, h1, _, _, h14⟩ := FrameOf_Tween env 0 w0 w ⟨hI, hA, hla, hlb, hr, hS, hE⟩
  obtain ⟨w2, h2, _, _, h24⟩ := FrameOf_Tween env 1 w0 w ⟨hI, hA, hla, hlb, hr, hS, hE⟩
  have hs1 := h14 k i _ _ hk ha hb
  have hs2 := h24 k i _ _ hk ha hb
  refine ⟨_, _, w1, w2, ha, hb, h1, ?_, h2, ?_, ?_⟩
  · by_cases hab : w0.tweener.PrePos.get ⟨k, hka⟩ = GetLocation (w0._spriteList i)
    · rw [hs1, if_pos hab, hab]
      rw [hE i]
      intro k2 a2 b2 hk2 ha2 hb2
      have hkk := once_of_count _ hI.tw_once k2 k i hk2 hk
      subst hkk
      rw [ha] at ha2
      rw [hb] at hb2
      simp only [Option.some.injEq] at ha2 hb2
      rw [← ha2, ← hb2]
      exact hab
    · rw [hs1, if_neg hab, GetLocation_placedSprite]
      simp only [tweenPos, GetLocation]
      rw [tweenCoord_zero env _ _ hra.1 hrb.1, tweenCoord_zero env _ _ hra.2.1 hrb.2.1,
        tweenCoord_zero env _ _ hra.2.2 hrb.2.2, toInt16_of_isInt16 _ hra.1,
        toInt16_of_isInt16 _ hra.2.1, toInt16_of_isInt16 _ hra.2.2]
  · by_cases hab : w0.tweener.PrePos.get ⟨k, hka⟩ = GetLocation (w0._spriteList i)
    · rw [hs2, if_pos hab]
      rw [hE i]
      intro k2 a2 b2 hk2 ha2 hb2
      have hkk := once_of_count _ hI.tw_once k2 k i hk2 hk
      subst hkk
      rw [ha] at ha2
      rw [hb] at hb2
      simp only [Option.some.injEq] at ha2 hb2
      rw [← ha2, ← hb2]
      exact hab
    · rw [hs2, if_neg hab, GetLocation_placedSprite]
      simp only [tweenPos, GetLocation]
      rw [tweenCoord_one env _ _ hra.1 hrb.1, tweenCoord_one env _ _ hra.2.1 hrb.2.1,
        tweenCoord_one env _ _ hra.2.2 hrb.2.2, toInt16_of_isInt16 _ hrb.1,
        toInt16_of_isInt16 _ hrb.2.1, toInt16_of_isInt16 _ hrb.2.2]
  · intro hab
    rw [hs1, hs2, if_pos hab, if_pos hab]
    exact ⟨rfl, rfl⟩

/-- Guest 0 of `frame5`: `Tween(0.0)` puts it at its pre-tick snapshot
(32, 64, 0), `Tween(1.0)` at its post-tick snapshot (48, 64, 0). -/
theorem tween_endpoints_witness :
    Simulation env5 false frame5 ∧ frame5.tweener.Entities.get? 0 = some (some 0) ∧
      (Tween env5 0 frame5).map (fun w1 => GetLocation (w1._spriteList 0)) =
        some { x := 32, y := 64, z := 0 } ∧
      ∃ a b w1 w2, frame5.tweener.PrePos.get? 0 = some a ∧
        frame5.tweener.PostPos.get? 0 = some b ∧
        Tween env5 0 frame5 = some w1 ∧ GetLocation (w1._spriteList 0) = a ∧
        Tween env5 1 frame5 = some w2 ∧ GetLocation (w2._spriteList 0) = b ∧
        (a = b → w1._spriteList 0 = frame5._spriteList 0 ∧
          w2._spriteList 0 = frame5._spriteList 0) :=
  ⟨simulation_frame5, by decide!, by decide!,
    tween_endpoints env5 frame5 simulation_frame5 0 0 (by decide!)⟩

/-- C17 (`PreTick` undoes tweening): when `PostTick` is followed by any number of
`Tween` calls with any finite `alpha` and then by `PreTick`, all these calls
return, and at the start of the new tick every slot has the stored position it
had when `PostTick` ran; for a tracked entity that was not removed this is its
snapshot `PostPos[k]`. -/
theorem preTick_undoes_tween (env : Env) (w : World) (h : Simulation env true w)
    (alphas : List ℚ) :
    ∃ w2 w3, tweenAll env alphas (PostTick w) = some w2 ∧ PreTick env w2 = some w3 ∧
      (∀ i, GetLocation (w3._spriteList i) = GetLocation (w._spriteList i)) ∧
      ∀ k e, (PostTick w).tweener.Entities.get? k = some (some e) →
        (PostTick w).tweener.PostPos.get? k = some (GetLocation (w3._spriteList e)) := by
  have hT := (inv_of_Simulation env true w h).1 rfl
  have hF := FrameOf_PostTick env w hT
  obtain ⟨w2, h2, hF2⟩ := FrameOf_tweenAll env (PostTick w) alphas (PostTick w) hF
  obtain ⟨w3, h3, _, hloc⟩ := FrameOf_PreTick env (PostTick w) w2 hF2
  refine ⟨w2, w3, h2, h3, hloc, ?_⟩
  intro k e hk
  rw [hloc e]
  exact hF.2.1 k e hk

/-- After the tick of `walked5` and three frames, `PreTick` finds every entity
where `PostTick` saw it. -/
theorem preTick_undoes_tween_witness :
    Simulation env5 true walked5 ∧
      ∃ w2 w3, tweenAll env5 [1 / 2, 0, 3 / 4] (PostTick walked5) = some w2 ∧
        PreTick env5 w2 = some w3 ∧
        (∀ i, GetLocation (w3._spriteList i) = GetLocation (walked5._spriteList i)) ∧
        ∀ k e, (PostTick walked5).tweener.Entities.get? k = some (some e) →
          (PostTick walked5).tweener.PostPos.get? k = some (GetLocation (w3._spriteList e)) :=
  ⟨simulation_walked5, preTick_undoes_tween env5 walked5 simulation_walked5 [1 / 2, 0, 3 / 4]⟩

/-- C18 (tween hole safety): in every state after `PreTick`, for distinct tracked
entities `e` and `f` and every finite `alpha`: when `e` is removed with
`sprite_remove`, before `PostTick` or after it, the following `Tween(alpha)`
returns; it does not write slot `e`, which stays as `sprite_remove` left it; it
does not read slot `e`, for with any other content of that slot it leaves the
same in all other slots; and it gives `f` exactly the slot, position and screen
box, that `Tween(alpha)` gives `f` when `e` is not removed. -/
theorem tween_hole_safety (env : Env) (w : World) (h : Simulation env true w) (e f : Nat)
    (he : some e ∈ w.tweener.Entities) (hf : some f ∈ w.tweener.Entities) (hne : e ≠ f)
    (alpha : ℚ) :
    ∃ w1 w2 w3,
      Tween env alpha (PostTick (sprite_remove env w e)) = some w1 ∧
      Tween env alpha (sprite_remove env (PostTick w) e) = some w2 ∧
      Tween env alpha (PostTick w) = some w3 ∧
      w1._spriteList e = nullSprite e ∧ w2._spriteList e = nullSprite e ∧
      w1._spriteList f = w3._spriteList f ∧ w2._spriteList f = w3._spriteList f ∧
      ∀ s : SpriteBase,
        (∃ v1, Tween env alpha
            { PostTick (sprite_remove env w e) with
              _spriteList :=
                Function.update (PostTick (sprite_remove env w e))._spriteList e s } = some v1 ∧
          v1._spriteList e = s ∧ ∀ i, i ≠ e → v1._spriteList i = w1._spriteList i) ∧
        (∃ v2, Tween env alpha
            { sprite_remove env (PostTick w) e with
              _spriteList :=
                Function.update (sprite_remove env (PostTick w) e)._spriteList e s } = some v2 ∧
          v2._spriteList e = s ∧ ∀ i, i ≠ e → v2._spriteList i = w2._spriteList i) := by
  have hT := (inv_of_Simulation env true w h).1 rfl
  have hI := hT.toInv
  have hel := hI.tw_live e he
  have hl : (w._spriteList e).type ≠ EntityType.Null := by
    intro hn
    rw [hn] at hel
    exact absurd hel.2 (by decide)
  have hfe : f ≠ e := fun h => hne h.symm
  obtain ⟨k, a, _, hk, ha, _⟩ := entry_of_tracked _ _ _ hT.pre_len hT.pre_len f hf
  -- no removal
  have hFC := FrameOf_PostTick env w hT
  obtain ⟨w3, t3, _, s3⟩ := Tween_spec env alpha (PostTick w) (once_of_count _ hFC.1.tw_once)
    (by rw [hFC.2.2.1]) (by rw [hFC.2.2.2.1])
  have r3 := s3 k f a _ hk ha (hFC.2.1 k f hk)
  -- removal before `PostTick`
  have hTA := TickInv_sprite_remove env w hT e hel.1 hl
  have hFA := FrameOf_PostTick env _ hTA
  have htA := sprite_remove_tweener env w hI e hel.1 hl
  have hAS : (PostTick (sprite_remove env w e))._spriteList =
      Function.update w._spriteList e (nullSprite e) := by
    show (sprite_remove env w e)._spriteList = _
    rw [sprite_remove_eq env w hI.toRegInv e hel.1 hl]
  have hAE : (PostTick (sprite_remove env w e)).tweener.Entities =
      w.tweener.Entities.map (fun a => if a = some e then none else a) := by
    show (sprite_remove env w e).tweener.Entities = _
    rw [htA]
  have hAP : (PostTick (sprite_remove env w e)).tweener.PrePos = w.tweener.PrePos := by
    show (sprite_remove env w e).tweener.PrePos = _
    rw [htA]
  have hAn : some e ∉ (PostTick (sprite_remove env w e)).tweener.Entities := by
    rw [hAE]
    exact not_mem_map_clear _ e
  have hAk : (PostTick (sprite_remove env w e)).tweener.Entities.get? k = some (some f) := by
    rw [hAE]
    exact get?_map_clear _ e f k hne hk
  obtain ⟨w1, t1, u1, s1⟩ := Tween_spec env alpha (PostTick (sprite_remove env w e))
    (once_of_count _ hFA.1.tw_once) (by rw [hFA.2.2.1]) (by rw [hFA.2.2.2.1])
  have r1 := s1 k f a _ hAk (by rw [hAP]; exact ha) (hFA.2.1 k f hAk)
  rw [hAS, Function.update_noteq hfe] at r1
  -- removal after `PostTick`
  have hIC := Inv_PostTick env w hI
  have hIB := Inv_sprite_remove env (PostTick w) hIC e hel.1 hl
  have htB := sprite_remove_tweener env (PostTick w) hIC e hel.1 hl
  have hBS : (sprite_remove env (PostTick w) e)._spriteList =
      Function.update w._spriteList e (nullSprite e) := by
    rw [sprite_remove_eq env (PostTick w) hIC.toRegInv e hel.1 hl]
    rfl
  have hBn : some e ∉ (sprite_remove env (PostTick w) e).tweener.Entities := by
    rw [htB]
    exact not_mem_map_clear _ e
  have hBk : (sprite_remove env (PostTick w) e).tweener.Entities.get? k = some (some f) := by
    rw [htB]
    exact get?_map_clear _ e f k hne hk
  have hBa : (sprite_remove env (PostTick w) e).tweener.PrePos.length =
      (sprite_remove env (PostTick w) e).tweener.Entities.length := by
    rw [htB]
    simp only [List.length_map]
    exact hFC.2.2.1
  have hBb : (sprite_remove env (PostTick w) e).tweener.PostPos.length =
      (sprite_remove env (PostTick w) e).tweener.Entities.length := by
    rw [htB]
    simp only [List.length_map]
    exact hFC.2.2.2.1
  obtain ⟨w2, t2, u2, s2⟩ := Tween_spec env alpha (sprite_remove env (PostTick w) e)
    (once_of_count _ hIB.tw_once) (by rw [hBa]) (by rw [hBb])
  have r2 := s2 k f a (GetLocation (w._spriteList f)) hBk (by rw [htB]; exact ha)
    (by rw [htB]; exact hFC.2.1 k f hk)
  rw [hBS, Function.update_noteq hfe] at r2
  refine ⟨w1, w2, w3, t1, t2, t3, ?_, ?_, ?_, ?_, ?_⟩
  · rw [u1 e hAn, hAS, Function.update_same]
  · rw [u2 e hBn, hBS, Function.update_same]
  · rw [r1, r3]
    rfl
  · rw [r2, r3]
    rfl
  · intro s
    constructor
    · obtain ⟨w1', v1, a1, a2, _, a4, a5⟩ := Tween_indep env alpha
        (PostTick (sprite_remove env w e)) (once_of_count _ hFA.1.tw_once) hFA.2.2.1
        hFA.2.2.2.1 e hAn s
      rw [t1] at a1
      simp only [Option.some.injEq] at a1
      subst a1
      exact ⟨v1, a2, a4, a5⟩
    · obtain ⟨w2', v2, a1, a2, _, a4, a5⟩ := Tween_indep env alpha
        (sprite_remove env (PostTick w) e) (once_of_count _ hIB.tw_once) hBa hBb e hBn s
      rw [t2] at a1
      simp only [Option.some.injEq] at a1
      subst a1
      exact ⟨v2, a2, a4, a5⟩

/-- In the tick of `walked5` guest 1 is removed before `PostTick`: `Tween(0.5)`
leaves its slot reset and puts guest 0 where it puts it without the removal, at
(40, 64, 0). -/
theorem tween_hole_safety_witness :
    Simulation env5 true walked5 ∧ some 1 ∈ walked5.tweener.Entities ∧
      some 0 ∈ walked5.tweener.Entities ∧
      (Tween env5 (1 / 2) (PostTick walked5)).map (fun v => GetLocation (v._spriteList 0)) =
        some { x := 40, y := 64, z := 0 } ∧
      ∃ w1 w3, Tween env5 (1 / 2) (PostTick (sprite_remove env5 walked5 1)) = some w1 ∧
        Tween env5 (1 / 2) (PostTick walked5) = some w3 ∧
        w1._spriteList 1 = nullSprite 1 ∧ w1._spriteList 0 = w3._spriteList 0 := by
  obtain ⟨w1, _, w3, h1, _, h3, h4, _, h6, _⟩ :=
    tween_hole_safety env5 walked5 simulation_walked5 1 0 (by decide!) (by decide!) (by decide)
      (1 / 2)
  exact ⟨simulation_walked5, by decide!, by decide!, by decide!, w1, w3, h1, h3, h4, h6⟩

/-! ## The checksum -/

/-- C19 (checksum order and determinism): in every reachable state
`sprite_checksum` is the digest of the slots of exactly the entities of the Guest
list, then of the Staff list, then of the Vehicle list, then of the Litter list,
each list strictly ascending in `sprite_index`: every live entity of these four
tags below `MAX_ENTITIES` and no misc entity.  Hence two replays of the same valid sequence
of `CreateEntity`, `sprite_remove` and `MoveTo` operations, each from a
`reset_sprite_list` of whatever prior state, serialise the same entities with
the same slots and yield the same checksum, whatever the digest. -/
theorem checksum_order (env : Env) (w : World) (h : RegReachable env w) :
    NetworkSerialiseEntityTypes env w =
      GetEntityList w .Guest ++
        (GetEntityList w .Staff ++ (GetEntityList w .Vehicle ++ GetEntityList w .Litter)) ∧
    (∀ (α : Type) (digest : List SpriteBase → α),
      sprite_checksum digest env w =
        digest ((GetEntityList w .Guest ++
          (GetEntityList w .Staff ++
            (GetEntityList w .Vehicle ++ GetEntityList w .Litter))).map w._spriteList)) ∧
    (∀ t, (GetEntityList w t).Pairwise (· < ·)) ∧
    (∀ i, i ∈ NetworkSerialiseEntityTypes env w ↔
      i < env.MAX_ENTITIES ∧
        ((w._spriteList i).type = EntityType.Guest ∨ (w._spriteList i).type = EntityType.Staff ∨
          (w._spriteList i).type = EntityType.Vehicle ∨
          (w._spriteList i).type = EntityType.Litter)) ∧
    (∀ i, i ∈ NetworkSerialiseEntityTypes env w →
      EntityTypeIsMiscEntity (w._spriteList i).type = false) ∧
    ∀ (ops : List Op) (wa wb : World), ValidReplay env ops (reset_sprite_list env wa) →
      NetworkSerialiseEntityTypes env (replay env ops (reset_sprite_list env wb)) =
        NetworkSerialiseEntityTypes env (replay env ops (reset_sprite_list env wa)) ∧
      ∀ (α : Type) (digest : List SpriteBase → α),
        sprite_checksum digest env (replay env ops (reset_sprite_list env wb)) =
          sprite_checksum digest env (replay env ops (reset_sprite_list env wa)) := by
  have hI := RegInv_of_RegReachable env w h
  refine ⟨NetworkSerialiseEntityTypes_eq env w hI, ?_, fun t => hI.list_asc t,
    mem_NetworkSerialiseEntityTypes env w hI, ?_, ?_⟩
  · intro α digest
    unfold sprite_checksum
    rw [NetworkSerialiseEntityTypes_eq env w hI]
  · intro i hi
    rcases ((mem_NetworkSerialiseEntityTypes env w hI i).1 hi).2 with h | h | h | h <;>
      rw [h] <;> rfl
  · intro ops wa wb hv
    obtain ⟨hs, hIa, hIb, _⟩ := replay_same env ops (reset_sprite_list env wa)
      (reset_sprite_list env wb) (RegInv_reset_sprite_list env wa)
      (RegInv_reset_sprite_list env wb) (SameRegistry_reset env wa wb) hv
    have hser := serial_same env _ _ hIa hIb hs
    refine ⟨hser.1, ?_⟩
    intro α digest
    unfold sprite_checksum
    rw [hser.2]

theorem validReplay_replay5 : ValidReplay env5 replay5 (reset_sprite_list env5 startWorld) := by
  unfold replay5
  simp only [ValidReplay, validOp, applyOp]
  exact ⟨by decide, by decide, by decide, ⟨by decide, by decide!⟩, ⟨by decide, by decide!⟩,
    trivial⟩

/-- The guests 0, 2, 4 of `holes5` are serialised in this order, and a digest that
keeps the identifier and the tag of each slot shows them; the replay `replay5`
serialises guest 1 at (33, 64, 5) and then litter 2, from the start world as
from the world `full5`, with the same checksum. -/
theorem checksum_order_witness :
    RegReachable env5 holes5 ∧ NetworkSerialiseEntityTypes env5 holes5 = [0, 2, 4] ∧
      sprite_checksum (fun l => l.map (fun s => (s.sprite_index, s.type))) env5 holes5 =
        [(0, EntityType.Guest), (2, EntityType.Guest), (4, EntityType.Guest)] ∧
      sprite_checksum (fun l => l.map (fun s => (s.sprite_index, s.type))) env5 holes5 =
        (fun l => l.map (fun s => (s.sprite_index, s.type)))
          ((GetEntityList holes5 .Guest ++ (GetEntityList holes5 .Staff ++
            (GetEntityList holes5 .Vehicle ++ GetEntityList holes5 .Litter))).map
              holes5._spriteList) ∧
      ValidReplay env5 replay5 (reset_sprite_list env5 startWorld) ∧
      NetworkSerialiseEntityTypes env5 (replay env5 replay5 (reset_sprite_list env5 startWorld)) =
        [1, 2] ∧
      sprite_checksum (fun l => l.map (fun s => (s.sprite_index, s.type, s.x, s.y, s.z))) env5
          (replay env5 replay5 (reset_sprite_list env5 startWorld)) =
        [(1, EntityType.Guest, 33, 64, 5),
          (2, EntityType.Litter, LOCATION_NULL, LOCATION_NULL, 0)] ∧
      NetworkSerialiseEntityTypes env5 (replay env5 replay5 (reset_sprite_list env5 full5)) =
        NetworkSerialiseEntityTypes env5
          (replay env5 replay5 (reset_sprite_list env5 startWorld)) ∧
      sprite_checksum id env5 (replay env5 replay5 (reset_sprite_list env5 full5)) =
        sprite_checksum id env5 (replay env5 replay5 (reset_sprite_list env5 startWorld)) :=
  ⟨regReachable_holes5, by decide!, by decide!,
    (checksum_order env5 holes5 regReachable_holes5).2.1 _ _,
    validReplay_replay5, by decide!, by decide!,
    ((checksum_order env5 holes5 regReachable_holes5).2.2.2.2.2 replay5 startWorld full5
      validReplay_replay5).1,
    ((checksum_order env5 holes5 regReachable_holes5).2.2.2.2.2 replay5 startWorld full5
      validReplay_replay5).2 _ id⟩

/-- C20 (move fast path): for every entity and every new location whose
`GetSpatialIndexOffset` equals the offset of the entity's current `(x, y)`,
`SpriteSpatialMove` returns with the whole world as it was: no bucket removal, no
insertion, no rebuild, every bucket as before; and so `MoveTo` to a valid
location of the same cell leaves every bucket as it was. -/
theorem move_fast_path (env : Env) (w : World) (e : Nat) (x y : Int)
    (h : GetSpatialIndexOffset x y =
      GetSpatialIndexOffset (w._spriteList e).x (w._spriteList e).y) :
    SpriteSpatialMove env w e x y = w ∧
    (∀ b, (SpriteSpatialMove env w e x y).gSpriteSpatialIndex b = w.gSpriteSpatialIndex b) ∧
    ∀ z, env.map_is_location_valid x y = true →
      (MoveTo env w e { x := x, y := y, z := z }).gSpriteSpatialIndex = w.gSpriteSpatialIndex := by
  have h1 : ∀ w1 : World, w1._spriteList = w._spriteList → SpriteSpatialMove env w1 e x y = w1 := by
    intro w1 hs
    unfold SpriteSpatialMove
    simp only
    rw [hs, if_pos h]
  have h0 := h1 w rfl
  refine ⟨h0, fun b => by rw [h0], ?_⟩
  intro z hv
  have hl : moveLoc env { x := x, y := y, z := z } = { x := x, y := y, z := z } := by
    unfold moveLoc
    simp [hv]
  have hw : (SpriteSpatialMove env (if (w._spriteList e).x ≠ LOCATION_NULL then Invalidate w e
      else w) e x y).gSpriteSpatialIndex = w.gSpriteSpatialIndex := by
    split
    · rw [h1 _ (Invalidate_frame w e).1]
      exact (Invalidate_frame w e).2.2.2.2.1
    · rw [h0]
  rw [MoveTo_eq, hl]
  simp only
  split
  · exact hw
  · rw [(Invalidate_frame _ e).2.2.2.2.1]
    exact hw

/-- The guest of `moved5` stands at (33, 64); a step to (34, 64) stays in the
cell and leaves the world of `SpriteSpatialMove` untouched. -/
theorem move_fast_path_witness :
    GetSpatialIndexOffset 34 64 =
        GetSpatialIndexOffset (moved5._spriteList 0).x (moved5._spriteList 0).y ∧
      SpriteSpatialMove env5 moved5 0 34 64 = moved5 :=
  ⟨by decide!, (move_fast_path env5 moved5 0 34 64 (by decide!)).1⟩

/-! ## The repair path of the spatial index: claims -/

/-- C21 (rebuild recovery, as the code has it): when the identifier of a live
entity `e` is missing from the bucket of its position, `sprite_remove(e)`
rebuilds the index from the slot table as it is before the slot of `e` is reset:
afterwards every other live entity appears exactly once in the bucket of its
position and in no other bucket, but the identifier of `e`, whose slot is now
`Null`, is back in the bucket of its former position. -/
theorem rebuild_keeps_removed (env : Env) (w : World)
    (hidx : ∀ i, i < env.MAX_ENTITIES → (w._spriteList i).sprite_index = i) (e : Nat)
    (he : e < env.MAX_ENTITIES) (hl : (w._spriteList e).type ≠ EntityType.Null)
    (hmiss : e ∉ w.gSpriteSpatialIndex
      (GetSpatialIndexOffset (w._spriteList e).x (w._spriteList e).y)) :
    ((sprite_remove env w e)._spriteList e).type = EntityType.Null ∧
    e ∈ (sprite_remove env w e).gSpriteSpatialIndex
      (GetSpatialIndexOffset (w._spriteList e).x (w._spriteList e).y) ∧
    (sprite_remove env w e).gSpriteSpatialIndex = rebuiltIndex env w ∧
    ∀ i, i < env.MAX_ENTITIES → i ≠ e →
      ((sprite_remove env w e)._spriteList i).type ≠ EntityType.Null →
      ((sprite_remove env w e).gSpriteSpatialIndex
          (GetSpatialIndexOffset ((sprite_remove env w e)._spriteList i).x
            ((sprite_remove env w e)._spriteList i).y)).count i = 1 ∧
        ∀ b, b ≠ GetSpatialIndexOffset ((sprite_remove env w e)._spriteList i).x
            ((sprite_remove env w e)._spriteList i).y →
          i ∉ (sprite_remove env w e).gSpriteSpatialIndex b := by
  obtain ⟨hs, hb⟩ := sprite_remove_rebuild env w hidx e he hmiss
  rw [hs, hb]
  refine ⟨by rw [Function.update_same]; rfl, ?_, rfl, ?_⟩
  · exact (mem_rebuiltIndex env w _ e).2 ⟨he, hl, rfl⟩
  · intro i hi hie hli
    rw [Function.update_noteq hie] at hli ⊢
    constructor
    · exact count_eq_one_of_pairwise _ (rebuiltIndex_asc env w _) i
        ((mem_rebuiltIndex env w _ i).2 ⟨hi, hli, rfl⟩)
    · intro b hbne hm
      exact hbne ((mem_rebuiltIndex env w b i).1 hm).2.2.symm

/-- In `corrupt5` the guest 0 at (33, 64) is missing from bucket 258; after
`sprite_remove` its slot is `Null` and bucket 258 is `[0]`. -/
theorem rebuild_keeps_removed_witness :
    (∀ i, i < env5.MAX_ENTITIES → (corrupt5._spriteList i).sprite_index = i) ∧
      (corrupt5._spriteList 0).type ≠ EntityType.Null ∧
      GetSpatialIndexOffset (corrupt5._spriteList 0).x (corrupt5._spriteList 0).y = 258 ∧
      0 ∉ corrupt5.gSpriteSpatialIndex 258 ∧
      ((sprite_remove env5 corrupt5 0)._spriteList 0).type = EntityType.Null ∧
      (sprite_remove env5 corrupt5 0).gSpriteSpatialIndex 258 = [0] ∧
      0 ∈ (sprite_remove env5 corrupt5 0).gSpriteSpatialIndex
        (GetSpatialIndexOffset (corrupt5._spriteList 0).x (corrupt5._spriteList 0).y) :=
  ⟨by decide!, by decide!, by decide!, by decide!, by decide!, by decide!,
    (rebuild_keeps_removed env5 corrupt5 (by decide!) 0 (by decide) (by decide!)
      (by decide!)).2.1⟩

/-- C25 (two buckets after a repairing move, as the code has it): when the
identifier of a live entity `e` is missing from the bucket of its position and
`e` moves to a valid location of another bucket, `MoveTo` rebuilds the index
from the slot table, in which `e` still has its old position, and then inserts
`e` into the new bucket: afterwards the identifier of `e` is in the bucket of
its new stored position and also in the bucket of its old position. -/
theorem repairing_move_two_buckets (env : Env) (w : World)
    (hidx : ∀ i, i < env.MAX_ENTITIES → (w._spriteList i).sprite_index = i) (e : Nat)
    (he : e < env.MAX_ENTITIES) (hl : (w._spriteList e).type ≠ EntityType.Null)
    (hmiss : e ∉ w.gSpriteSpatialIndex
      (GetSpatialIndexOffset (w._spriteList e).x (w._spriteList e).y))
    (p : CoordsXYZ) (hv : env.map_is_location_valid p.x p.y = true)
    (hne : GetSpatialIndexOffset p.x p.y ≠
      GetSpatialIndexOffset (w._spriteList e).x (w._spriteList e).y) :
    GetSpatialIndexOffset ((MoveTo env w e p)._spriteList e).x ((MoveTo env w e p)._spriteList e).y =
      GetSpatialIndexOffset p.x p.y ∧
    e ∈ (MoveTo env w e p).gSpriteSpatialIndex (GetSpatialIndexOffset p.x p.y) ∧
    e ∈ (MoveTo env w e p).gSpriteSpatialIndex
      (GetSpatialIndexOffset (w._spriteList e).x (w._spriteList e).y) := by
  have hloc : moveLoc env p = p := by
    rcases moveLoc_cases env p with h | h
    · rw [hv] at h
      exact absurd h.1 (by simp)
    · exact h.2.1
  have hb := MoveTo_rebuild env w hidx e he hmiss p (by rw [hloc]; exact hne)
  rw [hloc] at hb
  have hold : e ∈ rebuiltIndex env w
      (GetSpatialIndexOffset (w._spriteList e).x (w._spriteList e).y) :=
    (mem_rebuiltIndex env w _ e).2 ⟨he, hl, rfl⟩
  refine ⟨?_, ?_, ?_⟩
  · rw [(MoveTo_frame env w e p).1, Function.update_same, movedSprite_offset, hloc]
  · rw [hb, Function.update_same]
    exact (mem_insertAt_lower_bound _ (rebuiltIndex_asc env w _) e e).2 (Or.inl rfl)
  · rw [hb, Function.update_noteq (fun h => hne h.symm)]
    exact hold

/-- In `corrupt5` the guest 0 at (33, 64) is missing from bucket 258; after
`MoveTo` (100, 64, 5), in bucket 770, it is in bucket 770 and in bucket 258. -/
theorem repairing_move_two_buckets_witness :
    (∀ i, i < env5.MAX_ENTITIES → (corrupt5._spriteList i).sprite_index = i) ∧
      0 ∉ corrupt5.gSpriteSpatialIndex 258 ∧
      env5.map_is_location_valid 100 64 = true ∧
      (MoveTo env5 corrupt5 0 { x := 100, y := 64, z := 5 }).gSpriteSpatialIndex 770 = [0] ∧
      (MoveTo env5 corrupt5 0 { x := 100, y := 64, z := 5 }).gSpriteSpatialIndex 258 = [0] ∧
      0 ∈ (MoveTo env5 corrupt5 0 { x := 100, y := 64, z := 5 }).gSpriteSpatialIndex
        (GetSpatialIndexOffset (corrupt5._spriteList 0).x (corrupt5._spriteList 0).y) :=
  ⟨by decide!, by decide!, by decide!, by decide!, by decide!,
    (repairing_move_two_buckets env5 corrupt5 (by decide!) 0 (by decide) (by decide!)
      (by decide!) { x := 100, y := 64, z := 5 } (by decide!) (by decide!)).2.2⟩

/-! ## Invalidation -/

/-- C22 (invalidation zoom table): `SpriteBase::Invalidate` issues no
invalidation, and changes nothing, when `sprite_left == LOCATION_NULL`;
otherwise it makes exactly one call of `viewports_invalidate`, on
`(sprite_left, sprite_top, sprite_right, sprite_bottom)`, with `maxZoom` 2 for
Vehicle, Guest, Staff, SteamParticle, MoneyEffect, ExplosionCloud, CrashSplash,
ExplosionFlare and Balloon, 1 for Duck and 0 for every other tag (Litter,
CrashedVehicleParticle, JumpingFountain, Null). -/
theorem invalidate_zoom_table (w : World) (e : Nat) :
    ((w._spriteList e).sprite_left = LOCATION_NULL → Invalidate w e = w) ∧
    ((w._spriteList e).sprite_left ≠ LOCATION_NULL →
      Invalidate w e =
        { w with
          invalidated := w.invalidated ++
            [{ left := (w._spriteList e).sprite_left, top := (w._spriteList e).sprite_top,
               right := (w._spriteList e).sprite_right, bottom := (w._spriteList e).sprite_bottom,
               maxZoom :=
                 if (w._spriteList e).type ∈
                     [EntityType.Vehicle, EntityType.Guest, EntityType.Staff,
                       EntityType.SteamParticle, EntityType.MoneyEffect,
                       EntityType.ExplosionCloud, EntityType.CrashSplash,
                       EntityType.ExplosionFlare, EntityType.Balloon] then 2
                 else if (w._spriteList e).type = EntityType.Duck then 1 else 0 }] }) := by
  constructor
  · intro h
    unfold Invalidate
    simp only [h, if_true]
  · intro h
    unfold Invalidate
    simp only [h, if_false]
    have ht : ∀ t : EntityType, invalidateMaxZoom t =
        if t ∈ [EntityType.Vehicle, EntityType.Guest, EntityType.Staff,
            EntityType.SteamParticle, EntityType.MoneyEffect, EntityType.ExplosionCloud,
            EntityType.CrashSplash, EntityType.ExplosionFlare, EntityType.Balloon] then 2
        else if t = EntityType.Duck then 1 else 0 := by
      intro t
      cases t <;> decide
    rw [ht]

/-- The guest of `one5` is not placed and is not invalidated; the guest of
`moved5` is invalidated once more, with its screen box and `maxZoom` 2. -/
theorem invalidate_zoom_table_witness :
    (one5._spriteList 0).sprite_left = LOCATION_NULL ∧ Invalidate one5 0 = one5 ∧
      (moved5._spriteList 0).sprite_left ≠ LOCATION_NULL ∧
      (Invalidate moved5 0).invalidated =
        moved5.invalidated ++ [{ left := 15, top := 23, right := 47, bottom := 51, maxZoom := 2 }] :=
  ⟨by decide!, (invalidate_zoom_table one5 0).1 (by decide!), by decide!, by decide!⟩

/-! ## The quantization of positions: claims -/

/-- C23 (quantization leaves the table): for every `x` from 8192 up to 32767 and
every `y` from 32 up to 8191, `GetSpatialIndexOffset(x, y)` is
`(x div 32) * 256 + (y div 32)`, which is at least `SPATIAL_INDEX_SIZE`: not a
valid bucket index, and not the null cell.  The guard compares the index with
`sizeof(gSpriteSpatialIndex)`, a number of bytes, not of buckets. -/
theorem quantization_leaves_table (x y : Int) (hx0 : 8192 ≤ x) (hx1 : x < 32768) (hy0 : 32 ≤ y)
    (hy1 : y < 8192) :
    GetSpatialIndexOffset x y = (x / 32 * 256 + y / 32).toNat ∧
      SPATIAL_INDEX_SIZE ≤ GetSpatialIndexOffset x y ∧
      GetSpatialIndexOffset x y ≠ SPATIAL_INDEX_LOCATION_NULL := by
  have h := offset_wide x y (by omega) hx1 (by omega) (by omega)
  have hm : y / 32 % 256 = y / 32 := by omega
  rw [hm] at h
  rw [h]
  unfold SPATIAL_INDEX_LOCATION_NULL SPATIAL_INDEX_SIZE MAXIMUM_MAP_SIZE_TECHNICAL
  refine ⟨rfl, ?_, ?_⟩ <;> omega

/-- The position (8192, 32), outside the map, gets the offset 65537, one past the
last bucket; (-5, 64) and (0, 10000), outside the map too, get the buckets 2 and
56 of the map, not the null cell. -/
theorem quantization_leaves_table_witness :
    GetSpatialIndexOffset 8192 32 = 65537 ∧ SPATIAL_INDEX_SIZE = 65537 ∧
      SPATIAL_INDEX_SIZE ≤ GetSpatialIndexOffset 8192 32 ∧
      GetSpatialIndexOffset (-5) 64 = 2 ∧ GetSpatialIndexOffset 0 10000 = 56 :=
  ⟨by decide!, by decide,
    (quantization_leaves_table 8192 32 (by decide) (by decide) (by decide) (by decide)).2.1,
    by decide!, by decide!⟩

/-- C24 (quantization formula): for every `x`, `y` with
`0 <= x, y < 32 * MAXIMUM_MAP_SIZE_TECHNICAL`, `GetSpatialIndexOffset(x, y)` is
`(x div 32) * 256 + (y div 32)`, which is never the null cell; two such
positions share a bucket if and only if they lie in the same 32x32 tile; and for
`x == LOCATION_NULL` the result is `SPATIAL_INDEX_LOCATION_NULL` for every
`y`. -/
theorem quantization_formula (x y : Int) (hx0 : 0 ≤ x)
    (hx1 : x < 32 * (MAXIMUM_MAP_SIZE_TECHNICAL : Int)) (hy0 : 0 ≤ y)
    (hy1 : y < 32 * (MAXIMUM_MAP_SIZE_TECHNICAL : Int)) :
    GetSpatialIndexOffset x y = (x / 32 * 256 + y / 32).toNat ∧
    GetSpatialIndexOffset x y ≠ SPATIAL_INDEX_LOCATION_NULL ∧
    (∀ x2 y2 : Int, 0 ≤ x2 → x2 < 32 * (MAXIMUM_MAP_SIZE_TECHNICAL : Int) → 0 ≤ y2 →
      y2 < 32 * (MAXIMUM_MAP_SIZE_TECHNICAL : Int) →
      (GetSpatialIndexOffset x2 y2 = GetSpatialIndexOffset x y ↔
        x2 / 32 = x / 32 ∧ y2 / 32 = y / 32)) ∧
    ∀ y2 : Int, GetSpatialIndexOffset LOCATION_NULL y2 = SPATIAL_INDEX_LOCATION_NULL := by
  simp only [MAXIMUM_MAP_SIZE_TECHNICAL, Nat.cast_ofNat] at hx1 hy1
  have h := offset_in_range x y hx0 (by omega) hy0 (by omega)
  refine ⟨h, ?_, ?_, offset_null⟩
  · rw [h]
    unfold SPATIAL_INDEX_LOCATION_NULL SPATIAL_INDEX_SIZE MAXIMUM_MAP_SIZE_TECHNICAL
    omega
  · intro x2 y2 h1 h2 h3 h4
    simp only [MAXIMUM_MAP_SIZE_TECHNICAL, Nat.cast_ofNat] at h2 h4
    rw [h, offset_in_range x2 y2 h1 (by omega) h3 (by omega)]
    omega

/-- The positions (33, 64) and (63, 95) lie in the tile of bucket 258. -/
theorem quantization_formula_witness :
    GetSpatialIndexOffset 33 64 = 258 ∧
      (GetSpatialIndexOffset 63 95 = GetSpatialIndexOffset 33 64 ↔
        (63 : Int) / 32 = 33 / 32 ∧ (95 : Int) / 32 = 64 / 32) :=
  ⟨(quantization_formula 33 64 (by decide) (by decide) (by decide) (by decide)).1,
    (quantization_formula 33 64 (by decide) (by decide) (by decide) (by decide)).2.2.1 63 95
      (by decide) (by decide) (by decide) (by decide)⟩

/-! ## The cap on misc entities and the order of the free list -/

/-- C26 (the misc cap is exceeded): with more than `MAX_MISC_SPRITES` slots,
after `reset_sprite_list` from any world 301 calls of `CreateEntity(Duck)` in a
row are all granted: the state is reachable and `GetMiscEntityCount()` is 301,
more than `MAX_MISC_SPRITES`.  With 300 misc entities the difference
`MAX_MISC_SPRITES - GetMiscEntityCount()` is 0, which no non-empty free list
fails to outnumber. -/
theorem misc_cap_exceeded (env : Env) (w : World) (hcap : 300 < env.MAX_ENTITIES) :
    RegReachable env
        (createAll env (reset_sprite_list env w) (List.replicate 301 EntityType.Duck)) ∧
      GetMiscEntityCount
          (createAll env (reset_sprite_list env w) (List.replicate 301 EntityType.Duck)) = 301 ∧
      MAX_MISC_SPRITES <
        GetMiscEntityCount
          (createAll env (reset_sprite_list env w) (List.replicate 301 EntityType.Duck)) := by
  have hr : RegReachable env
      (createAll env (reset_sprite_list env w) (List.replicate 301 EntityType.Duck)) := by
    apply regReachable_createAll env _ _ (RegReachable.reset w)
    intro t ht
    rw [List.eq_of_mem_replicate ht]
    decide
  have h0 : (reset_sprite_list env w).gEntityLists = fun _ => [] := by
    rw [reset_sprite_list_eq]
  have hf : (reset_sprite_list env w)._freeIdList.length + 0 = env.MAX_ENTITIES := by
    rw [reset_sprite_list_eq]
    simp
  have h := createAll_ducks env hcap 301 (reset_sprite_list env w) 0
    (RegInv_reset_sprite_list env w) (by omega) (by rw [h0]; rfl) (fun t _ => by rw [h0]) hf
  have hc := GetMiscEntityCount_ducks _ 301 (by omega) (by rw [h.1]) h.2
  refine ⟨hr, hc, ?_⟩
  rw [hc]
  decide

/-- Capacity 301: after the reset 301 ducks are created; the count is 301. -/
theorem misc_cap_exceeded_witness :
    300 < env301.MAX_ENTITIES ∧
      GetMiscEntityCount
          (createAll env301 (reset_sprite_list env301 startWorld)
            (List.replicate 301 EntityType.Duck)) = 301 ∧
      MAX_MISC_SPRITES = 300 :=
  ⟨by decide, (misc_cap_exceeded env301 startWorld (by decide)).2.1, by decide⟩

/-- Two strictly descending sequences with the same elements are the same
sequence. -/
theorem eq_of_desc_of_mem (l1 l2 : List Nat) (h1 : l1.Pairwise (· > ·)) (h2 : l2.Pairwise (· > ·))
    (hm : ∀ i, i ∈ l1 ↔ i ∈ l2) : l1 = l2 := by
  have h := eq_of_asc_of_mem l1.reverse l2.reverse (asc_reverse l1 h1) (asc_reverse l2 h2)
    (fun i => by rw [List.mem_reverse, List.mem_reverse]; exact hm i)
  exact List.reverse_injective h

/-- C27 (free-list order): in every state reachable from `reset_sprite_list` by
`CreateEntity`, `CreateEntityAt` and `sprite_remove` (and `MoveTo`),
`_freeIdList` is strictly descending, so it has no duplicates and its last
element is its minimum; two reachable states with the same set of free
identifiers have the same free list; and `AddToFreeList` of an identifier that is
not free puts it at the one position that keeps the list strictly descending. -/
theorem free_list_order (env : Env) (w : World) (h : RegReachable env w) :
    w._freeIdList.Pairwise (· > ·) ∧ w._freeIdList.Nodup ∧
    (∀ a ∈ w._freeIdList, w._freeIdList.getLastD 0 ≤ a) ∧
    (∀ w1, RegReachable env w1 → (∀ i, i ∈ w1._freeIdList ↔ i ∈ w._freeIdList) →
      w1._freeIdList = w._freeIdList) ∧
    ∀ index, index ∉ w._freeIdList →
      (AddToFreeList w index)._freeIdList.Pairwise (· > ·) ∧
      (∀ a, a ∈ (AddToFreeList w index)._freeIdList ↔ a = index ∨ a ∈ w._freeIdList) ∧
      ∀ k, (w._freeIdList.take k ++ index :: w._freeIdList.drop k).Pairwise (· > ·) →
        w._freeIdList.take k ++ index :: w._freeIdList.drop k =
          (AddToFreeList w index)._freeIdList := by
  have hI := RegInv_of_RegReachable env w h
  refine ⟨hI.free_desc, nodup_of_desc _ hI.free_desc, ?_, ?_, ?_⟩
  · intro a ha
    exact (free_last w._freeIdList hI.free_desc (List.ne_nil_of_mem ha)).2.1 a ha
  · intro w1 h1 hm
    exact eq_of_desc_of_mem _ _ (RegInv_of_RegReachable env w1 h1).free_desc hI.free_desc hm
  · intro index hn
    have hp := pairwise_free_insert w._freeIdList hI.free_desc index hn
    have hmem := mem_free_insert w._freeIdList hI.free_desc index
    refine ⟨hp, hmem, ?_⟩
    intro k hk
    apply eq_of_desc_of_mem _ _ hk hp
    intro a
    show _ ↔ a ∈ (insertAt w._freeIdList.reverse (upper_bound w._freeIdList.reverse index)
      index).reverse
    rw [hmem a, List.mem_append, List.mem_cons]
    constructor
    · rintro (h1 | h1 | h1)
      · exact Or.inr (List.mem_of_mem_take h1)
      · exact Or.inl h1
      · exact Or.inr (List.mem_of_mem_drop h1)
    · rintro (h1 | h1)
      · exact Or.inr (Or.inl h1)
      · rw [← List.take_append_drop k w._freeIdList, List.mem_append] at h1
        rcases h1 with h1 | h1
        · exact Or.inl h1
        · exact Or.inr (Or.inr h1)

/-- The slots 3 and 1 released in either order: the free list is `[3, 1]` both
times. -/
theorem free_list_order_witness :
    RegReachable env5 holes5 ∧ RegReachable env5 holesAlt5 ∧ holes5._freeIdList = [3, 1] ∧
      holesAlt5._freeIdList = holes5._freeIdList :=
  ⟨regReachable_holes5, regReachable_holesAlt5, by decide!,
    (free_list_order env5 holes5 regReachable_holes5).2.2.2.1 holesAlt5
      regReachable_holesAlt5
      (fun i => by
        rw [(by decide! : holesAlt5._freeIdList = [3, 1]),
          (by decide! : holes5._freeIdList = [3, 1])])⟩

/-! ## Alignment of the snapshots, the frame of `Tween`, failed creations -/

/-- C28 (tween snapshot alignment): whenever `PreTick` returns, `Entities` holds
one entry per guest, then per staff member, then per vehicle, in the order of the
iteration `EntityList<T>()`, `PrePos` holds the positions of these entities and
has the same length, and `PostPos` is empty; `RemoveEntity` keeps the length of
all three sequences, turning the first matching entry into a hole, and changes
nothing for an entity that is neither peep nor vehicle; and in every state inside
a tick, after `PostTick` the sequence `PostPos` is as long as `Entities`, with
`(0, 0, 0)` for every hole and the current position of the entity otherwise, so
that `Tween` and `Restore` return. -/
theorem tween_snapshot_alignment (env : Env) (w : World) (h : Simulation env true w) :
    (∀ v v1, PreTick env v = some v1 →
      v1.tweener.Entities =
        (EntityList env v1 .Guest ++
          (EntityList env v1 .Staff ++ EntityList env v1 .Vehicle)).map some ∧
      v1.tweener.PrePos =
        (EntityList env v1 .Guest ++ (EntityList env v1 .Staff ++ EntityList env v1 .Vehicle)).map
          (fun e => GetLocation (v1._spriteList e)) ∧
      v1.tweener.PrePos.length = v1.tweener.Entities.length ∧ v1.tweener.PostPos = []) ∧
    (∀ v e, (RemoveEntity v e).tweener.Entities.length = v.tweener.Entities.length ∧
      (RemoveEntity v e).tweener.PrePos = v.tweener.PrePos ∧
      (RemoveEntity v e).tweener.PostPos = v.tweener.PostPos ∧
      (isPeepOrVehicle (v._spriteList e).type = false → RemoveEntity v e = v) ∧
      (isPeepOrVehicle (v._spriteList e).type = true →
        (RemoveEntity v e).tweener.Entities = clearFirst v.tweener.Entities e)) ∧
    w.tweener.PrePos.length = w.tweener.Entities.length ∧ w.tweener.PostPos = [] ∧
    (PostTick w).tweener.PostPos.length = (PostTick w).tweener.Entities.length ∧
    (∀ k, (PostTick w).tweener.Entities.get? k = some none →
      (PostTick w).tweener.PostPos.get? k = some { x := 0, y := 0, z := 0 }) ∧
    (∀ k e, (PostTick w).tweener.Entities.get? k = some (some e) →
      (PostTick w).tweener.PostPos.get? k = some (GetLocation (w._spriteList e))) ∧
    (∀ alpha, ∃ w1, Tween env alpha (PostTick w) = some w1) ∧
    ∃ w2, Restore env (PostTick w) = some w2 := by
  have hT := (inv_of_Simulation env true w h).1 rfl
  have hF := FrameOf_PostTick env w hT
  refine ⟨?_, ?_, hT.pre_len, hT.post_nil, hF.2.2.2.1, ?_, ?_, ?_, ?_⟩
  · intro v v1 hp
    unfold PreTick at hp
    cases hr : Restore env v with
    | none =>
      rw [hr] at hp
      exact absurd hp (by simp)
    | some vr =>
      rw [hr] at hp
      simp only [Option.some.injEq] at hp
      subst hp
      refine ⟨rfl, rfl, ?_, rfl⟩
      simp [PopulateEntities, Reset]
  · intro v e
    unfold RemoveEntity
    split
    · rename_i hp
      exact ⟨rfl, rfl, rfl, fun _ => rfl, fun h2 => by rw [hp] at h2; exact absurd h2 (by simp)⟩
    · rename_i hp
      refine ⟨length_clearFirst _ e, rfl, rfl, fun h2 => absurd h2 hp, fun _ => rfl⟩
  · intro k hk
    have hk2 : w.tweener.Entities.get? k = some none := hk
    unfold PostTick
    simp only [hT.post_nil, List.nil_append, List.get?_eq_getElem?, List.getElem?_map]
    rw [List.get?_eq_getElem?] at hk2
    rw [hk2]
    rfl
  · intro k e hk
    exact hF.2.1 k e hk
  · intro alpha
    obtain ⟨w1, h1, _⟩ := FrameOf_Tween env alpha (PostTick w) (PostTick w) hF
    exact ⟨w1, h1⟩
  · obtain ⟨w2, h2, _⟩ := restoreLoop_spec env (PostTick w).tweener.Entities
      (PostTick w).tweener.PostPos (PostTick w) (once_of_count _ hF.1.tw_once)
      (by rw [hF.2.2.2.1])
    exact ⟨w2, h2⟩

/-- In the tick of `walked5`: five entries, five pre-tick snapshots, and after
`PostTick` five post-tick snapshots, the first the position (48, 64, 0) of
guest 0. -/
theorem tween_snapshot_alignment_witness :
    Simulation env5 true walked5 ∧ walked5.tweener.Entities.length = 5 ∧
      walked5.tweener.PrePos.length = walked5.tweener.Entities.length ∧
      (PostTick walked5).tweener.PostPos.length = (PostTick walked5).tweener.Entities.length ∧
      (PostTick walked5).tweener.PostPos.get? 0 = some { x := 48, y := 64, z := 0 } :=
  ⟨simulation_walked5, by decide!,
    (tween_snapshot_alignment env5 walked5 simulation_walked5).2.2.1,
    (tween_snapshot_alignment env5 walked5 simulation_walked5).2.2.2.2.1, by decide!⟩

/-- C29 (`Tween` does not touch the registry structures): in every state and for
every finite `alpha`, whenever `Tween(alpha)` returns it has left every spatial
bucket, every per-type list, the free list, the flashing table, the tag and the
`sprite_index` of every slot, and the sequences `Entities`, `PrePos` and
`PostPos` of the tweener unchanged; and it returns whenever both snapshot
vectors are at least as long as `Entities`. -/
theorem tween_keeps_registry (env : Env) (alpha : ℚ) (w : World) :
    (∀ w1, Tween env alpha w = some w1 →
      w1.gSpriteSpatialIndex = w.gSpriteSpatialIndex ∧ w1.gEntityLists = w.gEntityLists ∧
      w1._freeIdList = w._freeIdList ∧ w1._spriteFlashingList = w._spriteFlashingList ∧
      w1.tweener.Entities = w.tweener.Entities ∧ w1.tweener.PrePos = w.tweener.PrePos ∧
      w1.tweener.PostPos = w.tweener.PostPos ∧
      ∀ i, (w1._spriteList i).type = (w._spriteList i).type ∧
        (w1._spriteList i).sprite_index = (w._spriteList i).sprite_index) ∧
    (w.tweener.Entities.length ≤ w.tweener.PrePos.length →
      w.tweener.Entities.length ≤ w.tweener.PostPos.length →
      ∃ w1, Tween env alpha w = some w1) := by
  constructor
  · intro w1 h
    obtain ⟨h1, h2, h3, h4, h5, _, h7⟩ := tweenLoop_frame env alpha _ _ _ w w1 h
    exact ⟨h1, h2, h3, h4, by rw [h5], by rw [h5], by rw [h5], h7⟩
  · intro hla hlb
    exact tweenLoop_defined env alpha _ _ _ w hla hlb

/-- After the tick of `frame5`, `Tween(0.5)` returns and leaves the buckets and
the free list as they are. -/
theorem tween_keeps_registry_witness :
    frame5.tweener.Entities.length ≤ frame5.tweener.PrePos.length ∧
      frame5.tweener.Entities.length ≤ frame5.tweener.PostPos.length ∧
      ∃ w1, Tween env5 (1 / 2) frame5 = some w1 ∧
        w1.gSpriteSpatialIndex = frame5.gSpriteSpatialIndex ∧
        w1._freeIdList = frame5._freeIdList := by
  obtain ⟨w1, h1⟩ := (tween_keeps_registry env5 (1 / 2) frame5).2 (by decide!) (by decide!)
  have h2 := (tween_keeps_registry env5 (1 / 2) frame5).1 w1 h1
  exact ⟨by decide!, by decide!, w1, h1, h2.1, h2.2.2.1⟩

/-- C30 (failed creation is atomic): in every state, whenever
`CreateEntity(type)` or `CreateEntityAt(index, type)` returns null, the world it
leaves, with every slot, the free list, every per-type list, every bucket and
the flashing table, is the world before the call. -/
theorem failed_creation_atomic (env : Env) (w : World) :
    (∀ type, (CreateEntity env w type).2 = none → (CreateEntity env w type).1 = w) ∧
    ∀ index type, (CreateEntityAt env w index type).2 = none →
      (CreateEntityAt env w index type).1 = w :=
  ⟨fun type h => CreateEntity_none env w type h,
    fun index type h => CreateEntityAt_none env w index type h⟩

/-- With no slot free a guest is refused and `full5` stays; slot 2 of `holes5`
is taken, so `CreateEntityAt` is refused and `holes5` stays. -/
theorem failed_creation_atomic_witness :
    (CreateEntity env5 full5 EntityType.Guest).2 = none ∧
      (CreateEntity env5 full5 EntityType.Guest).1 = full5 ∧
      (CreateEntityAt env5 holes5 2 EntityType.Guest).2 = none ∧
      (CreateEntityAt env5 holes5 2 EntityType.Guest).1 = holes5 :=
  ⟨by decide!, (failed_creation_atomic env5 full5).1 EntityType.Guest (by decide!), by decide!,
    (failed_creation_atomic env5 holes5).2 2 EntityType.Guest (by decide!)⟩

end OpenRCT2
